import Mathlib

/-!
Verification development for the pstack widget set.

Shallow embedding of the state machines of `pstack.c`, `prevealer.c`,
`plistbox.c` and `pbubblewindow.c`, followed by theorems about them.

Conventions used throughout:

* a `GtkWidget *` is a natural number (its address); `NULL` is `none`;
* C `gint`/`gint64` values are `Int`, `guint` values are `Nat` with an explicit
  `% 2 ^ 32` where the C arithmetic wraps;
* `gdouble` animation positions are exact rationals;
* toolkit state that the code reads or writes (widget flags, frame clock,
  settings) is carried in the state record next to the private struct.
-/

/-! ## PStack (`pstack.c`) -/

namespace PStack

/-- A `GtkWidget *`. -/
abbrev Widget := Nat

/-- Address of a `PStackChildInfo` record. -/
abbrev Ptr := Nat

/-- The enumeration `PStackTransitionType`. -/
inductive PStackTransitionType where
  | NONE
  | CROSSFADE
  | SLIDE_RIGHT
  | SLIDE_LEFT
  | SLIDE_UP
  | SLIDE_DOWN
  deriving DecidableEq, Repr

/-- The record `struct _PStackChildInfo`. -/
structure PStackChildInfo where
  widget : Option Widget
  name : Option String
  title : Option String
  icon_name : Option String
  deriving DecidableEq, Repr

/-- The private struct `struct _PStackPrivate`, the memory holding the child
info records, and the toolkit state the stack code consults. -/
structure Stack where
  /-- `GList *children`: addresses of the child info records, in order. -/
  children : List Ptr
  visible_child : Option Ptr
  homogeneous : Bool
  transition_type : PStackTransitionType
  transition_duration : Nat
  last_visible_child : Option Ptr
  /-- Whether `last_visible_surface` is non-NULL. -/
  last_visible_surface : Bool
  /-- The field `last_visible_surface_allocation.width`. -/
  last_visible_surface_allocation_width : Int
  /-- The field `last_visible_surface_allocation.height`. -/
  last_visible_surface_allocation_height : Int
  transition_pos : ℚ
  tick_id : Nat
  start_time : Int
  end_time : Int
  active_transition_type : PStackTransitionType
  /-- Whether `bin_window` is non-NULL. -/
  bin_window : Bool
  /-- Contents of the memory at each child info address. -/
  info : Ptr → PStackChildInfo
  /-- The flag read by `gtk_widget_get_visible` for each widget. -/
  w_visible : Widget → Bool
  /-- The flag written by `gtk_widget_set_child_visible` for each widget. -/
  w_child_visible : Widget → Bool
  /-- The result of `gtk_widget_is_visible (stack)`. -/
  is_visible : Bool
  /-- The result of `gtk_widget_get_mapped (stack)`. -/
  mapped : Bool
  /-- The setting `gtk-enable-animations`. -/
  animations_enabled : Bool
  /-- The result of `gdk_frame_clock_get_frame_time`. -/
  frame_time : Int
  /-- Whether the text direction of the stack is `GTK_TEXT_DIR_RTL`. -/
  rtl : Bool
  /-- The value last passed to `gtk_widget_set_opacity (stack, _)`. -/
  opacity : ℚ
  /-- Number of tick callbacks handed out so far by the toolkit. -/
  tick_counter : Nat

/-- The all-zero child info record. -/
def PStackChildInfo.zero : PStackChildInfo :=
  { widget := none, name := none, title := none, icon_name := none }

/-- State after `p_stack_init`: the private struct is zero-filled. -/
def p_stack_init : Stack :=
  { children := []
    visible_child := none
    homogeneous := false
    transition_type := PStackTransitionType.NONE
    transition_duration := 0
    last_visible_child := none
    last_visible_surface := false
    last_visible_surface_allocation_width := 0
    last_visible_surface_allocation_height := 0
    transition_pos := 0
    tick_id := 0
    start_time := 0
    end_time := 0
    active_transition_type := PStackTransitionType.NONE
    bin_window := false
    info := fun _ => PStackChildInfo.zero
    w_visible := fun _ => false
    w_child_visible := fun _ => true
    is_visible := false
    mapped := false
    animations_enabled := true
    frame_time := 0
    rtl := false
    opacity := 1
    tick_counter := 0 }

/-- The call `gtk_widget_get_visible (w)`; a NULL widget yields FALSE. -/
def gtk_widget_get_visible (s : Stack) (w : Option Widget) : Bool :=
  match w with
  | some x => s.w_visible x
  | none => false

/-- The call `gtk_widget_set_child_visible (w, b)`; a NULL widget is ignored. -/
def gtk_widget_set_child_visible (s : Stack) (w : Option Widget) (b : Bool) : Stack :=
  match w with
  | some x => { s with w_child_visible := fun y => if y = x then b else s.w_child_visible y }
  | none => s

/-- The function `find_child_info_for_widget`: first record whose widget is `child`. -/
def find_child_info_for_widget (s : Stack) (child : Widget) : Option Ptr :=
  s.children.find? (fun p => decide ((s.info p).widget = some child))

/-- The loop of `reorder_child`.  Links are identified by their index in the
list; the result is `(new_link, old_link)`. -/
def reorder_loop (s : Stack) (child : Widget) (position : Int) :
    List Ptr → Nat → Option Nat → Option Nat → Option Nat × Option Nat
  | [], _, new_link, old_link => (new_link, old_link)
  | p :: l, num, new_link, old_link =>
    if new_link.isSome && old_link.isSome then (new_link, old_link)
    else
      let new_link1 := if position = (num : Int) then some num else new_link
      let old_link1 :=
        if old_link.isNone && decide ((s.info p).widget = some child) then some num
        else old_link
      reorder_loop s child position l (num + 1) new_link1 old_link1

/-- The call `g_list_insert_before (list, link, data)` with the link given by
its index; a NULL link appends. -/
def g_list_insert_before (l : List Ptr) (link : Option Nat) (data : Ptr) : List Ptr :=
  match link with
  | none => l ++ [data]
  | some i => (l.take i) ++ data :: (l.drop i)

/-- The function `reorder_child`. -/
def reorder_child (s : Stack) (child : Widget) (position : Int) : Stack :=
  match reorder_loop s child position s.children 0 none none with
  | (_, none) => s
  | (new_link, some old) =>
    if new_link = some old || (decide (old + 1 = s.children.length) && new_link.isNone) then s
    else
      match s.children.get? old with
      | none => s
      | some child_info =>
        let deleted := s.children.eraseIdx old
        -- index of the link `new_link` once `old_link` has been unlinked
        let link := new_link.map (fun n => if old < n then n - 1 else n)
        { s with children := g_list_insert_before deleted link child_info }

/-- The `CHILD_PROP_POSITION` case of `p_stack_get_child_property`; `none`
when the widget is not a child (the property is then left unset). -/
def p_stack_get_child_position (s : Stack) (child : Widget) : Option Nat :=
  match find_child_info_for_widget s child with
  | none => none
  | some info => some (s.children.indexOf info)

/-- The `CHILD_PROP_POSITION` case of `p_stack_set_child_property`. -/
def p_stack_set_child_position (s : Stack) (child : Widget) (position : Int) : Stack :=
  match find_child_info_for_widget s child with
  | none => s
  | some _ => reorder_child s child position

/-- The `CHILD_PROP_NAME` case of `p_stack_set_child_property`. -/
def p_stack_set_child_name (s : Stack) (child : Widget) (name : Option String) : Stack :=
  match find_child_info_for_widget s child with
  | none => s
  | some p => { s with info := fun q => if q = p then { s.info p with name := name } else s.info q }

/-- The function `p_stack_set_transition_position`; returns the new state and `done`. -/
def p_stack_set_transition_position (s : Stack) (pos : ℚ) : Stack × Bool :=
  let s1 := { s with transition_pos := pos }
  let done : Bool := decide (1 ≤ pos)
  let s2 :=
    if done || s1.last_visible_surface then
      match s1.last_visible_child with
      | some l =>
        { gtk_widget_set_child_visible s1 (s1.info l).widget false with last_visible_child := none }
      | none => s1
    else s1
  let s3 := if done then { s2 with last_visible_surface := false } else s2
  (s3, done)

/-- The function `p_stack_transition_cb`, run by the frame clock at time `now`;
returns the new state and whether the callback stays installed. -/
def p_stack_transition_cb (s : Stack) (now : Int) : Stack × Bool :=
  let t0 : ℚ := if now < s.end_time then ((now - s.start_time : Int) : ℚ) / ((s.end_time - s.start_time : Int) : ℚ) else 1
  let t : ℚ := if !s.mapped then 1 else t0
  match p_stack_set_transition_position s t with
  | (s1, true) => ({ s1 with opacity := 1, tick_id := 0 }, false)
  | (s1, false) => (s1, true)

/-- The function `p_stack_schedule_ticks`. -/
def p_stack_schedule_ticks (s : Stack) : Stack :=
  if s.tick_id = 0 then { s with tick_id := s.tick_counter + 1, tick_counter := s.tick_counter + 1 }
  else s

/-- The function `p_stack_unschedule_ticks`. -/
def p_stack_unschedule_ticks (s : Stack) : Stack :=
  if s.tick_id ≠ 0 then { s with tick_id := 0 } else s

/-- The function `effective_transition_type`. -/
def effective_transition_type (s : Stack) (transition_type : PStackTransitionType) :
    PStackTransitionType :=
  if s.rtl then
    if transition_type = PStackTransitionType.SLIDE_LEFT then PStackTransitionType.SLIDE_RIGHT
    else if transition_type = PStackTransitionType.SLIDE_RIGHT then PStackTransitionType.SLIDE_LEFT
    else transition_type
  else transition_type

/-- The function `p_stack_start_transition`. -/
def p_stack_start_transition (s : Stack) (transition_type : PStackTransitionType)
    (transition_duration : Nat) : Stack :=
  if s.mapped && s.animations_enabled && decide (transition_type ≠ PStackTransitionType.NONE) &&
      decide (transition_duration ≠ 0) && s.last_visible_child.isSome then
    p_stack_schedule_ticks
      { s with
        opacity := 999 / 1000
        transition_pos := 0
        start_time := s.frame_time
        end_time := s.frame_time + ((transition_duration * 1000 % 2 ^ 32 : Nat) : Int)
        active_transition_type := effective_transition_type s transition_type }
  else
    (p_stack_set_transition_position
      { p_stack_unschedule_ticks s with active_transition_type := PStackTransitionType.NONE } 1).1

/-- The function `set_visible_child`. -/
def set_visible_child (s : Stack) (child_info : Option Ptr)
    (transition_type : PStackTransitionType) (transition_duration : Nat) : Stack :=
  let child_info1 : Option Ptr :=
    match child_info with
    | some p => some p
    | none => s.children.find? (fun p => gtk_widget_get_visible s (s.info p).widget)
  if child_info1 = s.visible_child then s
  else
    let s1 :=
      match s.last_visible_child with
      | some l => gtk_widget_set_child_visible s (s.info l).widget false
      | none => s
    let s2 := { s1 with last_visible_child := none, last_visible_surface := false }
    let s3 :=
      match s2.visible_child with
      | some v =>
        match (s2.info v).widget with
        | some w =>
          if s2.is_visible then { s2 with last_visible_child := some v }
          else gtk_widget_set_child_visible s2 (some w) false
        | none => s2
      | none => s2
    let s4 := { s3 with visible_child := child_info1 }
    let s5 :=
      match child_info1 with
      | some p => gtk_widget_set_child_visible s4 (s4.info p).widget true
      | none => s4
    p_stack_start_transition s5 transition_type transition_duration

/-- The function `stack_child_visibility_notify_cb`, the handler of
`notify::visible` on a child widget. -/
def stack_child_visibility_notify_cb (s : Stack) (child : Widget) : Stack :=
  let child_info := find_child_info_for_widget s child
  let s1 :=
    if s.visible_child.isNone && gtk_widget_get_visible s (some child) then
      set_visible_child s child_info s.transition_type s.transition_duration
    else if decide (s.visible_child = child_info) && !gtk_widget_get_visible s (some child) then
      set_visible_child s none s.transition_type s.transition_duration
    else s
  match s1.last_visible_child with
  | some l =>
    if child_info = some l then
      { gtk_widget_set_child_visible s1 (s1.info l).widget false with last_visible_child := none }
    else s1
  | none => s1

/-- The function `p_stack_add`; `ptr` is the address returned by `g_slice_new`. -/
def p_stack_add (s : Stack) (child : Widget) (ptr : Ptr) : Stack :=
  let child_info : PStackChildInfo :=
    { widget := some child, name := none, title := none, icon_name := none }
  let s1 :=
    { s with
      info := fun q => if q = ptr then child_info else s.info q
      children := s.children ++ [ptr] }
  if s1.visible_child.isNone && gtk_widget_get_visible s1 (some child) then
    set_visible_child s1 (some ptr) s1.transition_type s1.transition_duration
  else gtk_widget_set_child_visible s1 (some child) false

/-- The function `p_stack_remove`. -/
def p_stack_remove (s : Stack) (child : Widget) : Stack :=
  match find_child_info_for_widget s child with
  | none => s
  | some child_info =>
    let s1 :=
      { s with
        children := s.children.erase child_info
        info := fun q => if q = child_info then { s.info child_info with widget := none } else s.info q }
    let s2 :=
      if s1.visible_child = some child_info then
        set_visible_child s1 none s1.transition_type s1.transition_duration
      else s1
    if s2.last_visible_child = some child_info then { s2 with last_visible_child := none } else s2

/-- The function `p_stack_get_visible_child`. -/
def p_stack_get_visible_child (s : Stack) : Option Widget :=
  match s.visible_child with
  | some v => (s.info v).widget
  | none => none

/-- The function `p_stack_get_visible_child_name`. -/
def p_stack_get_visible_child_name (s : Stack) : Option String :=
  match s.visible_child with
  | some v => (s.info v).name
  | none => none

/-- The function `p_stack_set_visible_child`. -/
def p_stack_set_visible_child (s : Stack) (child : Widget) : Stack :=
  match find_child_info_for_widget s child with
  | none => s
  | some child_info =>
    if gtk_widget_get_visible s (s.info child_info).widget then
      set_visible_child s (some child_info) s.transition_type s.transition_duration
    else s

/-- The function `p_stack_set_visible_child_full`. -/
def p_stack_set_visible_child_full (s : Stack) (name : String)
    (transition : PStackTransitionType) : Stack :=
  match s.children.find? (fun p => decide ((s.info p).name = some name)) with
  | none => s
  | some child_info =>
    if gtk_widget_get_visible s (s.info child_info).widget then
      set_visible_child s (some child_info) transition s.transition_duration
    else s

/-- The function `p_stack_set_visible_child_name`. -/
def p_stack_set_visible_child_name (s : Stack) (name : String) : Stack :=
  p_stack_set_visible_child_full s name s.transition_type

/-- The function `p_stack_set_transition_type`. -/
def p_stack_set_transition_type (s : Stack) (transition : PStackTransitionType) : Stack :=
  { s with transition_type := transition }

/-- The function `p_stack_set_transition_duration`. -/
def p_stack_set_transition_duration (s : Stack) (value : Nat) : Stack :=
  { s with transition_duration := value }

/-- The toolkit changing the `visible` flag of widget `w` to `b`
(`gtk_widget_show` / `gtk_widget_hide`): nothing happens when the flag already
has that value; otherwise the flag is written and, when `w` is a child of the
stack (the handler is connected in `p_stack_add` and disconnected in
`p_stack_remove`), `notify::visible` runs the stack's handler. -/
def gtk_widget_set_visible (s : Stack) (w : Widget) (b : Bool) : Stack :=
  if s.w_visible w = b then s
  else
    let s1 := { s with w_visible := fun x => if x = w then b else s.w_visible x }
    if (find_child_info_for_widget s w).isSome then stack_child_visibility_notify_cb s1 w
    else s1

/-- One step of the stack's life: the public operations, the toolkit's
notifications and changes of the surrounding toolkit state.  A widget is added
only while it has no parent (the guard of `gtk_container_add`), at an address
not in use by a live record. -/
inductive Step : Stack → Stack → Prop where
  | add (s : Stack) (child : Widget) (ptr : Ptr)
      (hparent : find_child_info_for_widget s child = none)
      (hfresh : ptr ∉ s.children) : Step s (p_stack_add s child ptr)
  | remove (s : Stack) (child : Widget) : Step s (p_stack_remove s child)
  | set_visible_child (s : Stack) (child : Widget) : Step s (p_stack_set_visible_child s child)
  | set_visible_child_name (s : Stack) (name : String) :
      Step s (p_stack_set_visible_child_name s name)
  | set_visible_child_full (s : Stack) (name : String) (t : PStackTransitionType) :
      Step s (p_stack_set_visible_child_full s name t)
  | set_position (s : Stack) (child : Widget) (position : Int) :
      Step s (p_stack_set_child_position s child position)
  | set_name (s : Stack) (child : Widget) (name : Option String) :
      Step s (p_stack_set_child_name s child name)
  | show_hide (s : Stack) (w : Widget) (b : Bool) : Step s (gtk_widget_set_visible s w b)
  | set_transition_type (s : Stack) (t : PStackTransitionType) :
      Step s (p_stack_set_transition_type s t)
  | set_transition_duration (s : Stack) (d : Nat) :
      Step s (p_stack_set_transition_duration s d)
  | tick (s : Stack) (now : Int) (h : s.tick_id ≠ 0) : Step s (p_stack_transition_cb s now).1
  | toolkit (s : Stack) (is_visible mapped animations_enabled rtl : Bool) (frame_time : Int) :
      Step s { s with is_visible := is_visible, mapped := mapped,
                      animations_enabled := animations_enabled, rtl := rtl,
                      frame_time := frame_time }

/-- States reachable from the freshly initialised, empty stack. -/
inductive Reachable : Stack → Prop where
  | init : Reachable p_stack_init
  | step (s t : Stack) (hs : Reachable s) (hst : Step s t) : Reachable t

/-- The part of the state that decides which child is shown. -/
def SameCore (s t : Stack) : Prop :=
  t.children = s.children ∧ t.info = s.info ∧ t.visible_child = s.visible_child ∧
    t.w_visible = s.w_visible

/-- The record chosen by `set_visible_child`: the argument, or for NULL the
first child whose widget is visible. -/
def chosen (s : Stack) (child_info : Option Ptr) : Option Ptr :=
  match child_info with
  | some p => some p
  | none => s.children.find? (fun p => gtk_widget_get_visible s (s.info p).widget)

/-- Well-formedness of the child list: the records are distinct, each holds a
widget, and no widget is held twice. -/
structure WfChildren (s : Stack) : Prop where
  nodup : s.children.Nodup
  widget_some : ∀ p ∈ s.children, ∃ w, (s.info p).widget = some w
  widget_inj : ∀ p ∈ s.children, ∀ q ∈ s.children,
    (s.info p).widget = (s.info q).widget → p = q

/-- The invariant tying `visible_child` to the `visible` flags of the children. -/
structure Inv (s : Stack) extends WfChildren s : Prop where
  none_visible : s.visible_child = none →
    ∀ p ∈ s.children, gtk_widget_get_visible s (s.info p).widget = false
  some_visible : ∀ v, s.visible_child = some v →
    v ∈ s.children ∧ gtk_widget_get_visible s (s.info v).widget = true

/-- A stack holding the shown widget 7 and the hidden widget 8. -/
def stack_shown_hidden : Stack :=
  p_stack_add (p_stack_add (gtk_widget_set_visible p_stack_init 7 true) 7 0) 8 1

/-- A stack holding the widgets 10, 11 and 12, in this order. -/
def stack_three : Stack :=
  p_stack_add (p_stack_add (p_stack_add p_stack_init 10 0) 11 1) 12 2

/-- The function `p_stack_set_homogeneous`. -/
def p_stack_set_homogeneous (s : Stack) (homogeneous : Bool) : Stack :=
  if s.homogeneous = homogeneous then s else { s with homogeneous := homogeneous }

/-- The function `p_stack_get_transition_duration`. -/
def p_stack_get_transition_duration (s : Stack) : Nat :=
  s.transition_duration

/-- The loop shared, up to the size query made on each child, by
`p_stack_get_preferred_height`, `p_stack_get_preferred_height_for_width`,
`p_stack_get_preferred_width` and `p_stack_get_preferred_width_for_height`.
The query `measure` returns the minimum and the natural size of a widget; the
accumulator holds `*minimum` and `*natural`. -/
def preferred_size_loop (s : Stack) (measure : Widget → Int × Int) :
    List Ptr → Int × Int → Int × Int
  | [], acc => acc
  | child_info :: l, acc =>
    if !s.homogeneous &&
        (decide (s.visible_child ≠ some child_info) &&
          decide (s.last_visible_child ≠ some child_info)) then
      preferred_size_loop s measure l acc
    else
      match (s.info child_info).widget with
      | some child =>
        if s.w_visible child then
          preferred_size_loop s measure l
            (max acc.1 (measure child).1, max acc.2 (measure child).2)
        else preferred_size_loop s measure l acc
      | none => preferred_size_loop s measure l acc

/-- The body shared by the four preferred-size functions: the loop over the
children followed by the adjustment for the snapshot of the last visible
child, whose relevant dimension is `surface_size`. -/
def preferred_size (s : Stack) (measure : Widget → Int × Int) (surface_size : Int) :
    Int × Int :=
  let r := preferred_size_loop s measure s.children (0, 0)
  if s.last_visible_surface then (max r.1 surface_size, max r.2 surface_size) else r

/-- The function `p_stack_get_preferred_height`; the argument is the toolkit's
`gtk_widget_get_preferred_height`.  Returns `(minimum, natural)`. -/
def p_stack_get_preferred_height (s : Stack)
    (gtk_widget_get_preferred_height : Widget → Int × Int) : Int × Int :=
  preferred_size s gtk_widget_get_preferred_height s.last_visible_surface_allocation_height

/-- The function `p_stack_get_preferred_height_for_width`; the first argument
is the toolkit's `gtk_widget_get_preferred_height_for_width`. -/
def p_stack_get_preferred_height_for_width (s : Stack)
    (gtk_widget_get_preferred_height_for_width : Widget → Int → Int × Int) (width : Int) :
    Int × Int :=
  preferred_size s (fun child => gtk_widget_get_preferred_height_for_width child width)
    s.last_visible_surface_allocation_height

/-- The function `p_stack_get_preferred_width`; the argument is the toolkit's
`gtk_widget_get_preferred_width`. -/
def p_stack_get_preferred_width (s : Stack)
    (gtk_widget_get_preferred_width : Widget → Int × Int) : Int × Int :=
  preferred_size s gtk_widget_get_preferred_width s.last_visible_surface_allocation_width

/-- The function `p_stack_get_preferred_width_for_height`; the first argument
is the toolkit's `gtk_widget_get_preferred_width_for_height`. -/
def p_stack_get_preferred_width_for_height (s : Stack)
    (gtk_widget_get_preferred_width_for_height : Widget → Int → Int × Int) (height : Int) :
    Int × Int :=
  preferred_size s (fun child => gtk_widget_get_preferred_width_for_height child height)
    s.last_visible_surface_allocation_width

/-- The widgets of the children whose `visible` flag is set, in list order. -/
def visible_children (s : Stack) : List Widget :=
  s.children.filterMap (fun p =>
    match (s.info p).widget with
    | some w => if s.w_visible w then some w else none
    | none => none)

/-- A stack with three children: widget 1 named "x" and hidden, widget 2 named
"x" and shown, widget 3 named "y" and shown; widget 3 is the visible child. -/
def stack_duplicate_names : Stack :=
  gtk_widget_set_visible
    (gtk_widget_set_visible
      (p_stack_set_child_name
        (p_stack_set_child_name
          (p_stack_set_child_name
            (p_stack_add (p_stack_add (p_stack_add p_stack_init 1 0) 2 1) 3 2)
            1 (some "x"))
          2 (some "x"))
        3 (some "y"))
      3 true)
    2 true

/-- A mapped stack showing widget 1, with widget 2 shown as well, a crossfade
transition and the given transition duration; the frame clock is at 0. -/
def stack_mapped (duration : Nat) : Stack :=
  p_stack_set_transition_duration
    (p_stack_set_transition_type
      { p_stack_add (p_stack_add
          (gtk_widget_set_visible (gtk_widget_set_visible p_stack_init 1 true) 2 true) 1 0) 2 1
        with is_visible := true, mapped := true }
      PStackTransitionType.CROSSFADE)
    duration

/-- The mapped stack with widget 1 named "a" (the visible child) and widget 2
named "b". -/
def stack_named : Stack :=
  p_stack_set_child_name (p_stack_set_child_name (stack_mapped 250) 1 (some "a")) 2 (some "b")

/-- The value `r` is the maximum of `value` over the widgets `ws`, and 0 when
there is no widget. -/
def IsMaxOver (ws : List Widget) (value : Widget → Int) (r : Int) : Prop :=
  (∀ w ∈ ws, value w ≤ r) ∧ (ws = [] → r = 0) ∧ (ws ≠ [] → ∃ w ∈ ws, r = value w)

/-- The request `r = (minimum, natural)` is, in both components, the maximum
of the size query over the visible children of the stack. -/
def IsHomogeneousRequest (s : Stack) (measure : Widget → Int × Int) (r : Int × Int) : Prop :=
  IsMaxOver (visible_children s) (fun w => (measure w).1) r.1 ∧
    IsMaxOver (visible_children s) (fun w => (measure w).2) r.2

/-- A size query that never reports a negative size. -/
def NonNegative (measure : Widget → Int × Int) : Prop :=
  ∀ w, 0 ≤ (measure w).1 ∧ 0 ≤ (measure w).2

/-- Two size queries that agree on the widgets of the visible child and of the
last visible child. -/
def AgreeOnShown (s : Stack) (m1 m2 : Widget → Int × Int) : Prop :=
  ∀ p w, (s.visible_child = some p ∨ s.last_visible_child = some p) →
    (s.info p).widget = some w → m2 w = m1 w

/-- The widgets, with their `visible` flag set, of the children that are the
visible child or the last visible child, in list order. -/
def shown_children (s : Stack) : List Widget :=
  s.children.filterMap (fun p =>
    if s.visible_child = some p ∨ s.last_visible_child = some p then
      match (s.info p).widget with
      | some w => if s.w_visible w then some w else none
      | none => none
    else none)

/-- The request `r = (minimum, natural)` is, in both components, the maximum
of the size query over the visible child and the last visible child. -/
def IsShownRequest (s : Stack) (measure : Widget → Int × Int) (r : Int × Int) : Prop :=
  IsMaxOver (shown_children s) (fun w => (measure w).1) r.1 ∧
    IsMaxOver (shown_children s) (fun w => (measure w).2) r.2

/-- A homogeneous stack with the shown widgets 1 and 2 and the hidden widget 3. -/
def stack_homogeneous : Stack :=
  p_stack_set_homogeneous
    (p_stack_add (p_stack_add (p_stack_add
      (gtk_widget_set_visible (gtk_widget_set_visible p_stack_init 1 true) 2 true) 1 0) 2 1) 3 2)
    true

end PStack

/-! ## PRevealer (`prevealer.c`) -/

namespace PRevealer

/-- The enumeration `PRevealerTransitionType`. -/
inductive PRevealerTransitionType where
  | NONE
  | CROSSFADE
  | SLIDE_RIGHT
  | SLIDE_LEFT
  | SLIDE_UP
  | SLIDE_DOWN
  deriving DecidableEq, Repr

/-- The private struct `struct _PRevealerPrivate` together with the toolkit
state the revealer code consults. -/
structure Revealer where
  transition_type : PRevealerTransitionType
  transition_duration : Nat
  current_pos : ℚ
  source_pos : ℚ
  target_pos : ℚ
  tick_id : Nat
  start_time : Int
  end_time : Int
  /-- The result of `gtk_widget_get_mapped (revealer)`. -/
  mapped : Bool
  /-- Whether the text direction of the revealer is `GTK_TEXT_DIR_RTL`. -/
  rtl : Bool
  /-- The result of `gdk_frame_clock_get_frame_time`. -/
  frame_time : Int
  /-- Whether `gtk_bin_get_child (revealer)` is non-NULL. -/
  has_child : Bool
  /-- The `child_visible` flag of the child widget. -/
  child_visible : Bool
  /-- The value last passed to `gtk_widget_set_opacity (revealer, _)`. -/
  opacity : ℚ
  /-- Number of tick callbacks handed out so far by the toolkit. -/
  tick_counter : Nat

/-- State after `p_revealer_init` on the zero-filled private struct. -/
def p_revealer_init : Revealer :=
  { transition_type := PRevealerTransitionType.SLIDE_DOWN
    transition_duration := 250
    current_pos := 0
    source_pos := 0
    target_pos := 0
    tick_id := 0
    start_time := 0
    end_time := 0
    mapped := false
    rtl := false
    frame_time := 0
    has_child := false
    child_visible := true
    opacity := 1
    tick_counter := 0 }

/-- The function `effective_transition`. -/
def effective_transition (s : Revealer) : PRevealerTransitionType :=
  if s.rtl then
    if s.transition_type = PRevealerTransitionType.SLIDE_LEFT then
      PRevealerTransitionType.SLIDE_RIGHT
    else if s.transition_type = PRevealerTransitionType.SLIDE_RIGHT then
      PRevealerTransitionType.SLIDE_LEFT
    else s.transition_type
  else s.transition_type

/-- The function `p_revealer_set_position`. -/
def p_revealer_set_position (s : Revealer) (pos : ℚ) : Revealer :=
  let s1 := { s with current_pos := pos }
  let new_visible : Bool := decide (s1.current_pos ≠ 0) || decide (s1.target_pos ≠ 0)
  let s2 :=
    if s1.has_child && (new_visible != s1.child_visible) then
      { s1 with child_visible := new_visible }
    else s1
  if effective_transition s2 = PRevealerTransitionType.CROSSFADE then
    { s2 with opacity := s2.current_pos }
  else s2

/-- The function `ease_out_quad`. -/
def ease_out_quad (t d : ℚ) : ℚ :=
  let p := t / d
  ((-1) * p) * (p - 2)

/-- The function `p_revealer_animate_step`. -/
def p_revealer_animate_step (s : Revealer) (now : Int) : Revealer :=
  let t0 : ℚ :=
    if now < s.end_time then
      ((now - s.start_time : Int) : ℚ) / ((s.end_time - s.start_time : Int) : ℚ)
    else 1
  let t := ease_out_quad t0 1
  p_revealer_set_position s (s.source_pos + t * (s.target_pos - s.source_pos))

/-- The function `p_revealer_animate_cb`, run by the frame clock at time `now`;
returns the new state and whether the callback stays installed. -/
def p_revealer_animate_cb (s : Revealer) (now : Int) : Revealer × Bool :=
  let s1 := p_revealer_animate_step s now
  if s1.current_pos = s1.target_pos then ({ s1 with tick_id := 0 }, false)
  else (s1, true)

/-- The function `p_revealer_start_animation`. -/
def p_revealer_start_animation (s : Revealer) (target : ℚ) : Revealer :=
  if s.target_pos = target then s
  else
    let s1 := { s with target_pos := target }
    if s1.mapped && decide (s1.transition_duration ≠ 0) &&
        decide (effective_transition s1 ≠ PRevealerTransitionType.NONE) then
      let s2 :=
        { s1 with
          source_pos := s1.current_pos
          start_time := s1.frame_time
          end_time := s1.frame_time + ((s1.transition_duration * 1000 % 2 ^ 32 : Nat) : Int) }
      let s3 :=
        if s2.tick_id = 0 then
          { s2 with tick_id := s2.tick_counter + 1, tick_counter := s2.tick_counter + 1 }
        else s2
      p_revealer_animate_step s3 s3.start_time
    else p_revealer_set_position s1 target

/-- The function `p_revealer_stop_animation`. -/
def p_revealer_stop_animation (s : Revealer) : Revealer :=
  let s1 := { s with current_pos := s.target_pos }
  if s1.tick_id ≠ 0 then { s1 with tick_id := 0 } else s1

/-- The function `p_revealer_real_map`; chaining up to the parent class sets
the mapped flag. -/
def p_revealer_real_map (s : Revealer) : Revealer :=
  let s1 := if !s.mapped then p_revealer_start_animation s s.target_pos else s
  { s1 with mapped := true }

/-- The function `p_revealer_real_unmap`; chaining up to the parent class
clears the mapped flag. -/
def p_revealer_real_unmap (s : Revealer) : Revealer :=
  p_revealer_stop_animation { s with mapped := false }

/-- The function `p_revealer_set_reveal_child`. -/
def p_revealer_set_reveal_child (s : Revealer) (reveal_child : Bool) : Revealer :=
  if reveal_child then p_revealer_start_animation s 1 else p_revealer_start_animation s 0

/-- The function `p_revealer_get_reveal_child`. -/
def p_revealer_get_reveal_child (s : Revealer) : Bool :=
  decide (s.target_pos ≠ 0)

/-- The function `p_revealer_get_child_revealed`. -/
def p_revealer_get_child_revealed (s : Revealer) : Bool :=
  let animation_finished : Bool := decide (s.target_pos = s.current_pos)
  let reveal_child := p_revealer_get_reveal_child s
  if animation_finished then reveal_child else !reveal_child

/-- The function `p_revealer_set_transition_duration`. -/
def p_revealer_set_transition_duration (s : Revealer) (value : Nat) : Revealer :=
  { s with transition_duration := value }

/-- The function `p_revealer_set_transition_type`. -/
def p_revealer_set_transition_type (s : Revealer) (transition : PRevealerTransitionType) :
    Revealer :=
  { s with transition_type := transition }

/-- The function `p_revealer_real_add`. -/
def p_revealer_real_add (s : Revealer) : Revealer :=
  { s with has_child := true, child_visible := decide (s.current_pos ≠ 0) }

/-- One step of the revealer's life.  A tick runs only while a tick callback is
installed and at a frame time not earlier than the recorded start time. -/
inductive Step : Revealer → Revealer → Prop where
  | set_reveal_child (s : Revealer) (b : Bool) : Step s (p_revealer_set_reveal_child s b)
  | tick (s : Revealer) (now : Int) (htick : s.tick_id ≠ 0) (hnow : s.start_time ≤ now) :
      Step s (p_revealer_animate_cb s now).1
  | map (s : Revealer) : Step s (p_revealer_real_map s)
  | unmap (s : Revealer) : Step s (p_revealer_real_unmap s)
  | set_transition_duration (s : Revealer) (d : Nat) :
      Step s (p_revealer_set_transition_duration s d)
  | set_transition_type (s : Revealer) (t : PRevealerTransitionType) :
      Step s (p_revealer_set_transition_type s t)
  | add (s : Revealer) : Step s (p_revealer_real_add s)
  | toolkit (s : Revealer) (rtl : Bool) (frame_time : Int) :
      Step s { s with rtl := rtl, frame_time := frame_time }

/-- States reachable from the freshly initialised revealer. -/
inductive Reachable : Revealer → Prop where
  | init : Reachable p_revealer_init
  | step (s t : Revealer) (hs : Reachable s) (hst : Step s t) : Reachable t

/-- The invariant on the three animation positions. -/
structure PosInv (s : Revealer) : Prop where
  target : s.target_pos = 0 ∨ s.target_pos = 1
  source : 0 ≤ s.source_pos ∧ s.source_pos ≤ 1
  between : min s.source_pos s.target_pos ≤ s.current_pos ∧
    s.current_pos ≤ max s.source_pos s.target_pos

/-- A revealer that was mapped, fully revealed at frame time 300000, and then
told to conceal its child: the conceal transition has just started. -/
def revealer_concealing : Revealer :=
  p_revealer_set_reveal_child
    (p_revealer_animate_cb
      (p_revealer_set_reveal_child (p_revealer_real_map p_revealer_init) true) 300000).1
    false

/-- A mapped revealer with the default slide transition and the given
transition duration; the frame clock is at 0 and the child is concealed. -/
def revealer_mapped (duration : Nat) : Revealer :=
  p_revealer_set_transition_duration (p_revealer_real_map p_revealer_init) duration

end PRevealer

/-! ## PListBox (`plistbox.c`) -/

namespace PListBox

/-- A `GtkWidget *`. -/
abbrev Widget := Nat

/-- The enumeration `GtkSelectionMode`. -/
inductive GtkSelectionMode where
  | NONE
  | SINGLE
  | BROWSE
  | MULTIPLE
  deriving DecidableEq, Repr

/-- The record `struct _PListBoxChildInfo`.  The field `iter` is left out: an
iterator of the sequence is identified with the widget of the row it points
to, which is also the key of `child_hash`. -/
structure PListBoxChildInfo where
  widget : Widget
  separator : Option Widget
  y : Int
  height : Int
  deriving DecidableEq, Repr

/-- An allocation handed to `gtk_widget_size_allocate`: the widget, the
vertical position and the height. -/
structure Allocated where
  widget : Widget
  y : Int
  height : Int
  deriving DecidableEq, Repr

/-- The call `PListBoxSortFunc (a, b, user_data)` as a function of the two widgets. -/
abbrev SortFunc := Widget → Widget → Int

/-- The call `PListBoxUpdateSeparatorFunc (&separator, child, before, user_data)`:
from the current separator, the row and the row before it to the new separator. -/
abbrev UpdateSeparatorFunc := Option Widget → Widget → Option Widget → Option Widget

/-- The private struct `struct _PListBoxPrivate` together with the toolkit
state the list box code consults or changes.  The sequence `children` is the
list of its records in order; `child_hash` and `separator_hash` are the lookups
by `widget` and by `separator` in that list; a pointer to a record is the
widget of the record. -/
structure ListBox where
  children : List PListBoxChildInfo
  sort_func : Option SortFunc
  filter_func : Option (Widget → Bool)
  update_separator_func : Option UpdateSeparatorFunc
  selected_child : Option Widget
  prelight_child : Option Widget
  cursor_child : Option Widget
  active_child : Option Widget
  selection_mode : GtkSelectionMode
  /-- The result of `gtk_widget_get_visible (list_box)`. -/
  visible : Bool
  /-- The flag read by `gtk_widget_get_visible` for each widget. -/
  w_visible : Widget → Bool
  /-- The flag read by `gtk_widget_get_child_visible` for each widget. -/
  w_child_visible : Widget → Bool
  /-- The style property `focus-line-width`. -/
  focus_width : Int
  /-- The style property `focus-padding`. -/
  focus_pad : Int
  /-- The minimum height returned by `gtk_widget_get_preferred_height_for_width`
  for a widget and a width. -/
  min_height_for_width : Widget → Int → Int

/-- State after `p_list_box_init`. -/
def p_list_box_init : ListBox :=
  { children := []
    sort_func := none
    filter_func := none
    update_separator_func := none
    selected_child := none
    prelight_child := none
    cursor_child := none
    active_child := none
    selection_mode := GtkSelectionMode.SINGLE
    visible := false
    w_visible := fun _ => false
    w_child_visible := fun _ => true
    focus_width := 1
    focus_pad := 1
    min_height_for_width := fun _ _ => 0 }

/-- The widgets of the rows, in sequence order. -/
def rows (s : ListBox) : List Widget :=
  s.children.map (fun r => r.widget)

/-- Model of GLib's `g_sequence_append` on the list of the sequence. -/
def g_sequence_append (l : List PListBoxChildInfo) (x : PListBoxChildInfo) :
    List PListBoxChildInfo :=
  l ++ [x]

/-- Model of GLib's `g_sequence_insert_sorted` on the list of the sequence:
the new item goes right before the first item that compares strictly greater
(after the last item that compares equal), which is what the binary search of
GLib yields on a sequence sorted by `cmp`. -/
def g_sequence_insert_sorted (l : List PListBoxChildInfo) (x : PListBoxChildInfo)
    (cmp : PListBoxChildInfo → PListBoxChildInfo → Int) : List PListBoxChildInfo :=
  match l with
  | [] => [x]
  | e :: rest =>
    if cmp e x > 0 then x :: e :: rest else e :: g_sequence_insert_sorted rest x cmp

/-- Model of GLib's `g_sequence_sort`: the items are taken out and put back one
by one, in their old order, with the sorted insertion. -/
def g_sequence_sort (l : List PListBoxChildInfo)
    (cmp : PListBoxChildInfo → PListBoxChildInfo → Int) : List PListBoxChildInfo :=
  l.foldl (fun acc x => g_sequence_insert_sorted acc x cmp) []

/-- Model of GLib's `g_sequence_sort_changed` for the row whose widget is `w`:
the row stays in place when its predecessor or its successor compares equal to
it, and is otherwise unlinked and put back with the sorted insertion.  The
arguments `before` and `after` are the rows already passed and still to come. -/
def g_sequence_sort_changed_from (before : List PListBoxChildInfo) (w : Widget)
    (cmp : PListBoxChildInfo → PListBoxChildInfo → Int) :
    List PListBoxChildInfo → List PListBoxChildInfo
  | [] => before
  | x :: after =>
    if x.widget = w then
      let prev_equal : Bool :=
        match before.getLast? with
        | some p => decide (cmp p x = 0)
        | none => false
      let next_equal : Bool :=
        match after.head? with
        | some n => decide (cmp n x = 0)
        | none => false
      if prev_equal then before ++ x :: after
      else if next_equal then before ++ x :: after
      else g_sequence_insert_sorted (before ++ after) x cmp
    else g_sequence_sort_changed_from (before ++ [x]) w cmp after

/-- Model of GLib's `g_sequence_sort_changed` for the row whose widget is `w`. -/
def g_sequence_sort_changed (l : List PListBoxChildInfo) (w : Widget)
    (cmp : PListBoxChildInfo → PListBoxChildInfo → Int) : List PListBoxChildInfo :=
  g_sequence_sort_changed_from [] w cmp l

/-- Model of GLib's `g_sequence_remove` for the row whose widget is `w`. -/
def g_sequence_remove (l : List PListBoxChildInfo) (w : Widget) : List PListBoxChildInfo :=
  match l with
  | [] => []
  | x :: rest => if x.widget = w then rest else x :: g_sequence_remove rest w

/-- The function `do_sort` for a given sort function. -/
def do_sort (f : SortFunc) (a b : PListBoxChildInfo) : Int :=
  f a.widget b.widget

/-- The function `child_is_visible`. -/
def child_is_visible (s : ListBox) (child : Widget) : Bool :=
  s.w_visible child && s.w_child_visible child

/-- The function `p_list_box_lookup_info`. -/
def p_list_box_lookup_info (s : ListBox) (child : Widget) : Option PListBoxChildInfo :=
  s.children.find? (fun r => decide (r.widget = child))

/-- The lookup `g_hash_table_lookup (priv->separator_hash, child)`. -/
def separator_hash_lookup (s : ListBox) (child : Widget) : Option PListBoxChildInfo :=
  s.children.find? (fun r => decide (r.separator = some child))

/-- The function `p_list_box_apply_filter`. -/
def p_list_box_apply_filter (s : ListBox) (child : Widget) : ListBox :=
  let do_show : Bool :=
    match s.filter_func with
    | some f => f child
    | none => true
  { s with w_child_visible := fun x => if x = child then do_show else s.w_child_visible x }

/-- The function `p_list_box_apply_filter_all`. -/
def p_list_box_apply_filter_all (s : ListBox) : ListBox :=
  (rows s).foldl p_list_box_apply_filter s

/-- The loop of `p_list_box_find_child_at_y`. -/
def find_child_at_y_loop (y : Int) : List PListBoxChildInfo → Option PListBoxChildInfo
  | [] => none
  | info :: rest =>
    if y ≥ info.y ∧ y < info.y + info.height then some info
    else find_child_at_y_loop y rest

/-- The function `p_list_box_find_child_at_y`. -/
def p_list_box_find_child_at_y (s : ListBox) (y : Int) : Option PListBoxChildInfo :=
  find_child_at_y_loop y s.children

/-- The function `p_list_box_get_child_at_y`. -/
def p_list_box_get_child_at_y (s : ListBox) (y : Int) : Option Widget :=
  match p_list_box_find_child_at_y s y with
  | none => none
  | some child => some child.widget

/-- The rows after the row whose widget is `w` (none after the end). -/
def rows_after (w : Widget) : List PListBoxChildInfo → List PListBoxChildInfo
  | [] => []
  | x :: rest => if x.widget = w then rest else rows_after w rest

/-- The rows before the row whose widget is `w`, nearest first. -/
def rows_before (w : Widget) (passed : List PListBoxChildInfo) :
    List PListBoxChildInfo → List PListBoxChildInfo
  | [] => passed
  | x :: rest => if x.widget = w then passed else rows_before w (x :: passed) rest

/-- The function `p_list_box_get_next_visible`; the end iterator is `none`. -/
def p_list_box_get_next_visible (s : ListBox) (iter : Option Widget) : Option Widget :=
  match iter with
  | none => none
  | some w =>
    ((rows_after w s.children).find? (fun r => child_is_visible s r.widget)).map
      (fun r => r.widget)

/-- The function `p_list_box_get_previous_visible` for an iterator that is not
the end; NULL is `none`. -/
def p_list_box_get_previous_visible (s : ListBox) (iter : Widget) : Option Widget :=
  ((rows_before iter [] s.children).find? (fun r => child_is_visible s r.widget)).map
    (fun r => r.widget)

/-- The write `info->separator = sep` for the row whose widget is `w`. -/
def set_separator (l : List PListBoxChildInfo) (w : Widget) (sep : Option Widget) :
    List PListBoxChildInfo :=
  l.map (fun r => if r.widget = w then { r with separator := sep } else r)

/-- The function `p_list_box_update_separator`. -/
def p_list_box_update_separator (s : ListBox) (iter : Option Widget) : ListBox :=
  match iter with
  | none => s
  | some w =>
    match p_list_box_lookup_info s w with
    | none => s
    | some info =>
      let before_child := p_list_box_get_previous_visible s w
      match s.update_separator_func with
      | some f =>
        if child_is_visible s info.widget then
          let old_separator := info.separator
          let new_separator := f old_separator info.widget before_child
          let s1 := { s with children := set_separator s.children w new_separator }
          if old_separator ≠ new_separator then
            match new_separator with
            | some sep => { s1 with w_visible := fun x => if x = sep then true else s1.w_visible x }
            | none => s1
          else s1
        else { s with children := set_separator s.children w none }
      | none => { s with children := set_separator s.children w none }

/-- The function `p_list_box_reseparate`. -/
def p_list_box_reseparate (s : ListBox) : ListBox :=
  (rows s).foldl (fun t w => p_list_box_update_separator t (some w)) s

/-- The function `p_list_box_resort`, for a list box with a sort function. -/
def p_list_box_resort (s : ListBox) : ListBox :=
  match s.sort_func with
  | none => s
  | some f => p_list_box_reseparate { s with children := g_sequence_sort s.children (do_sort f) }

/-- The function `p_list_box_set_sort_func` for a non-NULL function. -/
def p_list_box_set_sort_func (s : ListBox) (f : SortFunc) : ListBox :=
  p_list_box_resort { s with sort_func := some f }

/-- The function `p_list_box_real_refilter`. -/
def p_list_box_real_refilter (s : ListBox) : ListBox :=
  p_list_box_reseparate (p_list_box_apply_filter_all s)

/-- The function `p_list_box_set_filter_func`. -/
def p_list_box_set_filter_func (s : ListBox) (f : Option (Widget → Bool)) : ListBox :=
  p_list_box_real_refilter { s with filter_func := f }

/-- The function `p_list_box_set_separator_funcs`. -/
def p_list_box_set_separator_funcs (s : ListBox) (f : Option UpdateSeparatorFunc) : ListBox :=
  p_list_box_reseparate { s with update_separator_func := f }

/-- The function `p_list_box_child_changed`. -/
def p_list_box_child_changed (s : ListBox) (widget : Widget) : ListBox :=
  match p_list_box_lookup_info s widget with
  | none => s
  | some info =>
    let prev_next := p_list_box_get_next_visible s (some info.widget)
    let s1 :=
      match s.sort_func with
      | some f => { s with children := g_sequence_sort_changed s.children info.widget (do_sort f) }
      | none => s
    let s2 := p_list_box_apply_filter s1 info.widget
    if s2.visible then
      let next := p_list_box_get_next_visible s2 (some info.widget)
      let s3 := p_list_box_update_separator s2 (some info.widget)
      let s4 := p_list_box_update_separator s3 next
      p_list_box_update_separator s4 prev_next
    else s2

/-- The function `p_list_box_update_cursor`. -/
def p_list_box_update_cursor (s : ListBox) (child : Option Widget) : ListBox :=
  { s with cursor_child := child }

/-- The function `p_list_box_update_selected`. -/
def p_list_box_update_selected (s : ListBox) (child : Option Widget) : ListBox :=
  let s1 :=
    if child ≠ s.selected_child ∧ (child = none ∨ s.selection_mode ≠ GtkSelectionMode.NONE) then
      { s with selected_child := child }
    else s
  if child ≠ none then p_list_box_update_cursor s1 child else s1

/-- The function `p_list_box_real_add`. -/
def p_list_box_real_add (s : ListBox) (child : Widget) : ListBox :=
  let info : PListBoxChildInfo := { widget := child, separator := none, y := 0, height := 0 }
  let s1 :=
    match s.sort_func with
    | some f => { s with children := g_sequence_insert_sorted s.children info (do_sort f) }
    | none => { s with children := g_sequence_append s.children info }
  let s2 := p_list_box_apply_filter s1 child
  if s2.visible then
    let s3 := p_list_box_update_separator s2 (some child)
    p_list_box_update_separator s3 (p_list_box_get_next_visible s3 (some child))
  else s2

/-- The function `p_list_box_real_remove`. -/
def p_list_box_real_remove (s : ListBox) (child : Widget) : ListBox :=
  match p_list_box_lookup_info s child with
  | none =>
    match separator_hash_lookup s child with
    | some info => { s with children := set_separator s.children info.widget none }
    | none => s
  | some info =>
    let s1 :=
      if info.separator ≠ none then
        { s with children := set_separator s.children info.widget none }
      else s
    let s2 := if some info.widget = s1.selected_child then p_list_box_update_selected s1 none else s1
    let s3 := if some info.widget = s2.prelight_child then { s2 with prelight_child := none } else s2
    let s4 := if some info.widget = s3.cursor_child then { s3 with cursor_child := none } else s3
    let s5 := if some info.widget = s4.active_child then { s4 with active_child := none } else s4
    let next := p_list_box_get_next_visible s5 (some info.widget)
    let s6 := { s5 with children := g_sequence_remove s5.children info.widget }
    if s6.visible then p_list_box_update_separator s6 next else s6

/-- The function `child_visibility_changed`, the handler of `notify::visible`
on a row. -/
def child_visibility_changed (s : ListBox) (w : Widget) : ListBox :=
  if s.visible then
    match p_list_box_lookup_info s w with
    | some info =>
      let s1 := p_list_box_update_separator s (some info.widget)
      p_list_box_update_separator s1 (p_list_box_get_next_visible s1 (some info.widget))
    | none => s
  else s

/-- The toolkit changing the `visible` flag of widget `w` to `b`; a row of the
list box has the handler `child_visibility_changed` connected. -/
def gtk_widget_set_visible (s : ListBox) (w : Widget) (b : Bool) : ListBox :=
  if s.w_visible w = b then s
  else
    let s1 := { s with w_visible := fun x => if x = w then b else s.w_visible x }
    if (p_list_box_lookup_info s w).isSome then child_visibility_changed s1 w else s1

/-- The loop of `p_list_box_real_size_allocate` over the rows, started with
`child_allocation.y = cy`; `width` is `allocation->width`.  Returns the rows
with their recorded extents and the allocations given to the separators. -/
def size_allocate_loop (s : ListBox) (width : Int) :
    List PListBoxChildInfo → Int → List PListBoxChildInfo × List Allocated
  | [], _ => ([], [])
  | child_info :: rest, cy =>
    if !child_is_visible s child_info.widget then
      let r := size_allocate_loop s width rest cy
      ({ child_info with y := cy, height := 0 } :: r.1, r.2)
    else
      let child_width := width - 2 * (s.focus_width + s.focus_pad)
      let sep_min : Int :=
        match child_info.separator with
        | some sep => s.min_height_for_width sep width
        | none => 0
      let seps : List Allocated :=
        match child_info.separator with
        | some sep => [{ widget := sep, y := cy, height := sep_min }]
        | none => []
      let cy1 := cy + sep_min
      let child_min := s.min_height_for_width child_info.widget child_width
      let r := size_allocate_loop s width rest
        (cy1 + (s.focus_width + s.focus_pad) + (child_min + s.focus_width + s.focus_pad))
      ({ child_info with
          y := cy1, height := child_min + 2 * (s.focus_width + s.focus_pad) } :: r.1,
        seps ++ r.2)

/-- The function `p_list_box_real_size_allocate` for an allocation of the given
width: the new state and the allocations given to the separators. -/
def p_list_box_real_size_allocate (s : ListBox) (width : Int) : ListBox × List Allocated :=
  let r := size_allocate_loop s width s.children 0
  ({ s with children := r.1 }, r.2)

/-- A sort function that is the three-way comparison of a total preorder:
`f a b ≤ 0` reads "a before or equal to b"; a result that is not negative means
that `b` is before or equal to `a`, and the order is transitive. -/
structure IsTotalPreorder (f : SortFunc) : Prop where
  antisymm : ∀ a b, 0 ≤ f a b → f b a ≤ 0
  trans : ∀ a b c, f a b ≤ 0 → f b c ≤ 0 → f a c ≤ 0

/-- The sort function `g` gives the same results as `f` on all pairs of rows
other than `w`: only the sort key of `w` has changed. -/
def AgreeOff (w : Widget) (f g : SortFunc) : Prop :=
  ∀ a b, a ≠ w → b ≠ w → g a b = f a b

/-- The sort function after the sort key of a row has changed: `g` replaces
the installed function, if there is one. -/
def rekey (s : ListBox) (g : SortFunc) : ListBox :=
  { s with sort_func := s.sort_func.map (fun _ => g) }

/-- The runs of a list box from its initialisation, together with the list of
the rows added and not yet removed.  A widget is added only while it has no
parent; every installed sort function is the comparison of a total preorder;
and the sort key of a row changes only right before `p_list_box_child_changed`
for that row. -/
inductive Run : ListBox → List Widget → Prop where
  | init : Run p_list_box_init []
  | add (s : ListBox) (added : List Widget) (child : Widget) (h : Run s added)
      (hnew : child ∉ rows s) : Run (p_list_box_real_add s child) (added ++ [child])
  | remove (s : ListBox) (added : List Widget) (child : Widget) (h : Run s added) :
      Run (p_list_box_real_remove s child) (added.erase child)
  | child_changed (s : ListBox) (added : List Widget) (w : Widget) (g : SortFunc)
      (h : Run s added)
      (hkey : ∀ f, s.sort_func = some f → IsTotalPreorder g ∧ AgreeOff w f g) :
      Run (p_list_box_child_changed (rekey s g) w) added
  | set_sort_func (s : ListBox) (added : List Widget) (f : SortFunc) (h : Run s added)
      (hf : IsTotalPreorder f) : Run (p_list_box_set_sort_func s f) added
  | set_filter_func (s : ListBox) (added : List Widget) (f : Option (Widget → Bool))
      (h : Run s added) : Run (p_list_box_set_filter_func s f) added
  | set_separator_funcs (s : ListBox) (added : List Widget) (f : Option UpdateSeparatorFunc)
      (h : Run s added) : Run (p_list_box_set_separator_funcs s f) added
  | show_hide (s : ListBox) (added : List Widget) (w : Widget) (b : Bool) (h : Run s added) :
      Run (gtk_widget_set_visible s w b) added
  | size_allocate (s : ListBox) (added : List Widget) (width : Int) (h : Run s added) :
      Run (p_list_box_real_size_allocate s width).1 added
  | toolkit (s : ListBox) (added : List Widget) (visible : Bool) (focus_width focus_pad : Int)
      (min_height_for_width : Widget → Int → Int) (h : Run s added) :
      Run { s with visible := visible, focus_width := focus_width, focus_pad := focus_pad,
                   min_height_for_width := min_height_for_width } added

/-- The invariant of the runs: the rows are distinct, and sorted by the
installed sort function, which is the comparison of a total preorder. -/
structure SortInv (s : ListBox) : Prop where
  nodup : (rows s).Nodup
  sorted : ∀ f, s.sort_func = some f →
    IsTotalPreorder f ∧ (rows s).Pairwise (fun a b => f a b ≤ 0)

/-- The rows and the sort function are the same in both states. -/
def SameRows (s t : ListBox) : Prop :=
  rows t = rows s ∧ t.sort_func = s.sort_func

/-- The sort function comparing widgets by their number. -/
def by_number : SortFunc := fun a b => (a : Int) - (b : Int)

/-- A list box sorted by number to which the rows 3, 1 and 2 were added. -/
def list_box_sorted : ListBox :=
  p_list_box_real_add
    (p_list_box_real_add (p_list_box_real_add (p_list_box_set_sort_func p_list_box_init by_number) 3)
      1) 2

/-- The list box sorted by number with rows 1 and 3 shown, row 2 hidden, a
separator (widget 100 + row) on every visible row, and minimum heights of ten
times the widget number for rows and 5 for separators. -/
def list_box_allocated : ListBox × List Allocated :=
  p_list_box_real_size_allocate
    (p_list_box_set_separator_funcs
      { gtk_widget_set_visible (gtk_widget_set_visible list_box_sorted 1 true) 3 true with
        visible := true
        min_height_for_width := fun w _ => if w < 100 then 10 * (w : Int) else 5 }
      (some (fun _ child _ => some (100 + child))))
    200

/-- The function `p_list_box_get_first_visible`; NULL is `none`. -/
def p_list_box_get_first_visible (s : ListBox) : Option Widget :=
  (s.children.find? (fun r => child_is_visible s r.widget)).map (fun r => r.widget)

/-- The function `p_list_box_get_last_visible`, which walks the sequence from
its end towards its beginning; NULL is `none`. -/
def p_list_box_get_last_visible (s : ListBox) : Option Widget :=
  (s.children.reverse.find? (fun r => child_is_visible s r.widget)).map (fun r => r.widget)

/-- The function `p_list_box_real_move_cursor` for the movement step
`GTK_MOVEMENT_BUFFER_ENDS`; `modify_selection_pressed` is the flag the function
computes from the current event state. -/
def p_list_box_real_move_cursor_buffer_ends (s : ListBox) (count : Int)
    (modify_selection_pressed : Bool) : ListBox :=
  let child :=
    if count < 0 then p_list_box_get_first_visible s else p_list_box_get_last_visible s
  if child = none ∨ child = s.cursor_child then s
  else
    let s1 := p_list_box_update_cursor s child
    if !modify_selection_pressed then p_list_box_update_selected s1 child else s1

/-- The arguments `(info->separator, child, before_child)` of the call to
`priv->update_separator_func` made by `p_list_box_update_separator`, or `none`
when the function makes no call. -/
def update_separator_call (s : ListBox) (iter : Option Widget) :
    Option (Option Widget × Widget × Option Widget) :=
  match iter with
  | none => none
  | some w =>
    match p_list_box_lookup_info s w with
    | none => none
    | some info =>
      let before_child := p_list_box_get_previous_visible s w
      match s.update_separator_func with
      | some _ =>
        if child_is_visible s info.widget then some (info.separator, info.widget, before_child)
        else none
      | none => none

end PListBox

/-! ## PBubbleWindow (`pbubblewindow.c`) -/

namespace PBubbleWindow

/-- The enumeration `GtkPositionType`, in the order of its numeric values. -/
inductive GtkPositionType where
  | LEFT
  | RIGHT
  | TOP
  | BOTTOM
  deriving DecidableEq, Repr

/-- The record `cairo_rectangle_int_t`. -/
structure Rectangle where
  x : Int
  y : Int
  width : Int
  height : Int
  deriving DecidableEq, Repr

/-- A `GdkDevice *`. -/
abbrev Device := Nat

/-- A `GdkWindow *`. -/
abbrev GdkWindow := Nat

/-- The private struct `struct _PBubbleWindowPrivate` together with the toolkit
state the bubble window code consults or changes. -/
structure BubbleWindow where
  device : Option Device
  relative_to : Option GdkWindow
  pointing_to : Rectangle
  win_x : Int
  win_y : Int
  has_pointing_to : Bool
  grabbed : Bool
  preferred_position : GtkPositionType
  final_position : GtkPositionType
  /-- Width of the allocation of the window widget. -/
  allocation_width : Int
  /-- Height of the allocation of the window widget. -/
  allocation_height : Int
  /-- The result of `gdk_screen_get_width`. -/
  screen_width : Int
  /-- The result of `gdk_screen_get_height`. -/
  screen_height : Int
  /-- The result of `gtk_widget_get_visible (window)`. -/
  visible : Bool
  /-- The result of `gdk_window_get_root_coords (w, x, y, _, _)`. -/
  root_coords : GdkWindow → Int → Int → Int × Int
  /-- The result of `gdk_window_is_destroyed (priv->relative_to)`. -/
  relative_to_destroyed : Bool
  /-- The result of `gdk_device_get_associated_device`. -/
  associated_device : Device → Device
  /-- Devices holding a GDK grab on the window (`gdk_device_grab` minus
  `gdk_device_ungrab`). -/
  gdk_grabs : List Device
  /-- Devices holding a GTK grab on the window (`gtk_device_grab_add` minus
  `gtk_device_grab_remove`). -/
  gtk_grabs : List Device
  /-- The position last passed to `gtk_window_move`. -/
  moved_to : Option (Int × Int)

/-- State of a newly constructed bubble window: the private struct is
zero-filled and the construct property `position` is `GTK_POS_TOP`. -/
def p_bubble_window_new (screen_width screen_height : Int) : BubbleWindow :=
  { device := none
    relative_to := none
    pointing_to := { x := 0, y := 0, width := 0, height := 0 }
    win_x := 0
    win_y := 0
    has_pointing_to := false
    grabbed := false
    preferred_position := GtkPositionType.TOP
    final_position := GtkPositionType.LEFT
    allocation_width := 24
    allocation_height := 24
    screen_width := screen_width
    screen_height := screen_height
    visible := false
    root_coords := fun _ x y => (x, y)
    relative_to_destroyed := false
    associated_device := fun d => d + 1
    gdk_grabs := []
    gtk_grabs := []
    moved_to := none }

/-- The macro `POS_IS_VERTICAL`. -/
def POS_IS_VERTICAL (p : GtkPositionType) : Bool :=
  decide (p = GtkPositionType.TOP) || decide (p = GtkPositionType.BOTTOM)

/-- The GLib macro `CLAMP (x, low, high)`. -/
def CLAMP (x low high : Int) : Int :=
  if x > high then high else if x < low then low else x

/-- The pointed-to rectangle in root coordinates, as computed at the start of
`p_bubble_window_get_pointed_to_coords`. -/
def root_rect (s : BubbleWindow) : Rectangle :=
  match s.relative_to with
  | some w =>
    { s.pointing_to with
      x := (s.root_coords w s.pointing_to.x s.pointing_to.y).1
      y := (s.root_coords w s.pointing_to.x s.pointing_to.y).2 }
  | none => s.pointing_to

/-- The function `p_bubble_window_get_pointed_to_coords`; returns `(x, y, root_rect)`. -/
def p_bubble_window_get_pointed_to_coords (s : BubbleWindow) : Int × Int × Rectangle :=
  let rect := root_rect s
  if POS_IS_VERTICAL s.final_position then
    let x := CLAMP (rect.x + Int.tdiv rect.width 2) 0 s.screen_width
    let y := rect.y
    let y1 := if s.final_position = GtkPositionType.BOTTOM then y + rect.height else y
    (x, y1, rect)
  else
    let y := CLAMP (rect.y + Int.tdiv rect.height 2) 0 s.screen_height
    let x := rect.x
    let x1 := if s.final_position = GtkPositionType.RIGHT then x + rect.width else x
    (x1, y, rect)

/-- The function `p_bubble_window_update_position`. -/
def p_bubble_window_update_position (s : BubbleWindow) : BubbleWindow :=
  let s1 := { s with final_position := s.preferred_position }
  let coords := p_bubble_window_get_pointed_to_coords s1
  let x := coords.1
  let y := coords.2.1
  let rect := coords.2.2
  let final_position :=
    if s1.preferred_position = GtkPositionType.TOP ∧ rect.y < s1.allocation_height then
      GtkPositionType.BOTTOM
    else if s1.preferred_position = GtkPositionType.BOTTOM ∧
        rect.y > s1.screen_height - s1.allocation_height then
      GtkPositionType.TOP
    else if s1.preferred_position = GtkPositionType.LEFT ∧ rect.x < s1.allocation_width then
      GtkPositionType.RIGHT
    else if s1.preferred_position = GtkPositionType.RIGHT ∧
        rect.x > s1.screen_width - s1.allocation_width then
      GtkPositionType.LEFT
    else s1.final_position
  let s2 := { s1 with final_position := final_position }
  let win_x :=
    if POS_IS_VERTICAL s2.final_position then
      CLAMP (x - Int.tdiv s2.allocation_width 2) 0 (s2.screen_width - s2.allocation_width)
    else if s2.final_position = GtkPositionType.LEFT then x - s2.allocation_width
    else x
  let win_y :=
    if POS_IS_VERTICAL s2.final_position then
      if s2.final_position = GtkPositionType.TOP then y - s2.allocation_height else y
    else CLAMP (y - Int.tdiv s2.allocation_height 2) 0 (s2.screen_height - s2.allocation_height)
  { s2 with win_x := win_x, win_y := win_y, moved_to := some (win_x, win_y) }

/-- The function `p_bubble_window_update_preferred_position`. -/
def p_bubble_window_update_preferred_position (s : BubbleWindow) (position : GtkPositionType) :
    BubbleWindow :=
  { s with preferred_position := position }

/-- The function `p_bubble_window_update_relative_to`. -/
def p_bubble_window_update_relative_to (s : BubbleWindow) (relative_to : Option GdkWindow) :
    BubbleWindow :=
  if s.relative_to = relative_to then s else { s with relative_to := relative_to }

/-- The function `p_bubble_window_update_pointing_to`. -/
def p_bubble_window_update_pointing_to (s : BubbleWindow) (pointing_to : Rectangle) :
    BubbleWindow :=
  { s with pointing_to := pointing_to, has_pointing_to := true }

/-- The function `_p_bubble_window_set_position`. -/
def _p_bubble_window_set_position (s : BubbleWindow) (position : GtkPositionType) :
    BubbleWindow :=
  let s1 := p_bubble_window_update_preferred_position s position
  if s1.visible then p_bubble_window_update_position s1 else s1

/-- The function `_p_bubble_window_popup`. -/
def _p_bubble_window_popup (s : BubbleWindow) (relative_to : Option GdkWindow)
    (pointing_to : Rectangle) (position : GtkPositionType) : BubbleWindow :=
  let s1 := p_bubble_window_update_preferred_position s position
  let s2 := p_bubble_window_update_relative_to s1 relative_to
  let s3 := p_bubble_window_update_pointing_to s2 pointing_to
  let s4 := if !s3.visible then { s3 with visible := true } else s3
  p_bubble_window_update_position s4

/-- The function `_p_bubble_window_ungrab`. -/
def _p_bubble_window_ungrab (s : BubbleWindow) : BubbleWindow :=
  match s.device with
  | none => s
  | some d =>
    { s with
      gdk_grabs := (s.gdk_grabs.erase d).erase (s.associated_device d)
      gtk_grabs := s.gtk_grabs.erase d
      device := none }

/-- The function `_p_bubble_window_popdown`. -/
def _p_bubble_window_popdown (s : BubbleWindow) : BubbleWindow :=
  let s1 := if s.grabbed then _p_bubble_window_ungrab s else s
  if s1.visible then { s1 with visible := false } else s1

/-- The function `_p_bubble_window_grab`; `status1` and `status2` tell whether
the first and the second `gdk_device_grab` return `GDK_GRAB_SUCCESS`.
Returns the new state and the result of the call. -/
def _p_bubble_window_grab (s : BubbleWindow) (device : Device) (status1 status2 : Bool) :
    BubbleWindow × Bool :=
  if !s.has_pointing_to || s.relative_to_destroyed then (s, false)
  else
    let s1 := if s.device.isSome then _p_bubble_window_ungrab s else s
    let other_device := s1.associated_device device
    if status1 then
      let s2 := { s1 with gdk_grabs := device :: s1.gdk_grabs }
      if status2 then
        let s3 := { s2 with gdk_grabs := other_device :: s2.gdk_grabs }
        ({ s3 with gtk_grabs := device :: s3.gtk_grabs, device := some device }, true)
      else ({ s2 with gdk_grabs := s2.gdk_grabs.erase device }, false)
    else (s1, false)

/-- A screen of 200 by 100 pixels with a bubble window allocated 40 by 20. -/
def bubble_small : BubbleWindow :=
  { p_bubble_window_new 200 100 with allocation_width := 40, allocation_height := 20 }

/-- The small bubble window, shown, preferring `GTK_POS_TOP` and pointing to a
rectangle 5 pixels below the top of the screen: there is no room above it. -/
def bubble_top_no_room : BubbleWindow :=
  { bubble_small with
    pointing_to := { x := 50, y := 5, width := 10, height := 10 }
    has_pointing_to := true
    preferred_position := GtkPositionType.TOP
    visible := true }

/-- The small bubble window, shown, preferring `GTK_POS_BOTTOM` and pointing to
a rectangle that ends 10 pixels above the bottom of the screen. -/
def bubble_bottom_no_room : BubbleWindow :=
  { bubble_small with
    pointing_to := { x := 50, y := 70, width := 10, height := 20 }
    has_pointing_to := true
    preferred_position := GtkPositionType.BOTTOM
    visible := true }

/-- The bubble window after a successful grab of device 5 (paired with 6). -/
def bubble_grabbed : BubbleWindow :=
  (_p_bubble_window_grab
    (_p_bubble_window_popup bubble_small none { x := 50, y := 40, width := 10, height := 10 }
      GtkPositionType.TOP) 5 true true).1

/-- The macro `TAIL_GAP_WIDTH`. -/
def TAIL_GAP_WIDTH : Int := 24

/-- The macro `TAIL_HEIGHT`. -/
def TAIL_HEIGHT : Int := 12

/-- The values written by `p_bubble_window_get_gap_coords`. -/
structure GapCoords where
  initial_x : Int
  initial_y : Int
  tip_x : Int
  tip_y : Int
  final_x : Int
  final_y : Int
  gap_side : GtkPositionType
  deriving DecidableEq, Repr

/-- The values written by `p_bubble_window_get_rect_coords`. -/
structure RectCoords where
  x1 : Int
  y1 : Int
  x2 : Int
  y2 : Int
  deriving DecidableEq, Repr

/-- The function `p_bubble_window_get_gap_coords`. -/
def p_bubble_window_get_gap_coords (s : BubbleWindow) : GapCoords :=
  let coords := p_bubble_window_get_pointed_to_coords s
  let x := coords.1
  let y := coords.2.1
  let btg : Int × Int × GtkPositionType :=
    if s.final_position = GtkPositionType.BOTTOM ∨ s.final_position = GtkPositionType.RIGHT then
      (TAIL_HEIGHT, 0,
        if s.final_position = GtkPositionType.BOTTOM then GtkPositionType.TOP
        else GtkPositionType.LEFT)
    else if s.final_position = GtkPositionType.TOP then
      (s.allocation_height - TAIL_HEIGHT, s.allocation_height, GtkPositionType.BOTTOM)
    else if s.final_position = GtkPositionType.LEFT then
      (s.allocation_width - TAIL_HEIGHT, s.allocation_width, GtkPositionType.RIGHT)
    else (0, 0, GtkPositionType.LEFT)
  let base := btg.1
  let tip := btg.2.1
  let gap_side := btg.2.2
  if POS_IS_VERTICAL s.final_position then
    { initial_x := CLAMP (x - s.win_x - Int.tdiv TAIL_GAP_WIDTH 2) 0
        (s.allocation_width - TAIL_GAP_WIDTH)
      initial_y := base
      tip_x := CLAMP (x - s.win_x) 0 s.allocation_width
      tip_y := tip
      final_x := CLAMP (x - s.win_x + Int.tdiv TAIL_GAP_WIDTH 2) TAIL_GAP_WIDTH
        s.allocation_width
      final_y := base
      gap_side := gap_side }
  else
    { initial_x := base
      initial_y := CLAMP (y - s.win_y - Int.tdiv TAIL_GAP_WIDTH 2) 0
        (s.allocation_height - TAIL_GAP_WIDTH)
      tip_x := tip
      tip_y := CLAMP (y - s.win_y) 0 s.allocation_height
      final_x := base
      final_y := CLAMP (y - s.win_y + Int.tdiv TAIL_GAP_WIDTH 2) TAIL_GAP_WIDTH
        s.allocation_height
      gap_side := gap_side }

/-- The function `p_bubble_window_get_rect_coords`. -/
def p_bubble_window_get_rect_coords (s : BubbleWindow) : RectCoords :=
  if s.final_position = GtkPositionType.TOP then
    { x1 := 0, y1 := 0, x2 := s.allocation_width, y2 := s.allocation_height - TAIL_HEIGHT }
  else if s.final_position = GtkPositionType.BOTTOM then
    { x1 := 0, y1 := TAIL_HEIGHT, x2 := s.allocation_width, y2 := s.allocation_height }
  else if s.final_position = GtkPositionType.LEFT then
    { x1 := 0, y1 := 0, x2 := s.allocation_width - TAIL_HEIGHT, y2 := s.allocation_height }
  else if s.final_position = GtkPositionType.RIGHT then
    { x1 := TAIL_HEIGHT, y1 := 0, x2 := s.allocation_width, y2 := s.allocation_height }
  else { x1 := 0, y1 := 0, x2 := 0, y2 := 0 }

end PBubbleWindow

/-! ## Theorems about PStack -/

namespace PStack

@[simp] theorem gtk_widget_set_child_visible_children (s : Stack) (w : Option Widget) (b : Bool) :
    (gtk_widget_set_child_visible s w b).children = s.children := by
  cases w <;> rfl

@[simp] theorem gtk_widget_set_child_visible_info (s : Stack) (w : Option Widget) (b : Bool) :
    (gtk_widget_set_child_visible s w b).info = s.info := by
  cases w <;> rfl

@[simp] theorem gtk_widget_set_child_visible_visible_child (s : Stack) (w : Option Widget)
    (b : Bool) : (gtk_widget_set_child_visible s w b).visible_child = s.visible_child := by
  cases w <;> rfl

@[simp] theorem gtk_widget_set_child_visible_w_visible (s : Stack) (w : Option Widget)
    (b : Bool) : (gtk_widget_set_child_visible s w b).w_visible = s.w_visible := by
  cases w <;> rfl

theorem p_stack_set_transition_position_core (s : Stack) (pos : ℚ) :
    SameCore s (p_stack_set_transition_position s pos).1 := by
  unfold p_stack_set_transition_position SameCore
  simp only
  split_ifs <;> (try split) <;> simp

theorem p_stack_start_transition_core (s : Stack) (t : PStackTransitionType) (d : Nat) :
    SameCore s (p_stack_start_transition s t d) := by
  unfold p_stack_start_transition
  split_ifs
  · unfold p_stack_schedule_ticks
    split_ifs <;> exact ⟨rfl, rfl, rfl, rfl⟩
  · have h := p_stack_set_transition_position_core
      { p_stack_unschedule_ticks s with active_transition_type := PStackTransitionType.NONE } 1
    unfold p_stack_unschedule_ticks at h ⊢
    unfold SameCore at h ⊢
    split_ifs at h ⊢ <;> simpa using h

@[simp] theorem p_stack_start_transition_children (s : Stack) (t : PStackTransitionType)
    (d : Nat) : (p_stack_start_transition s t d).children = s.children :=
  (p_stack_start_transition_core s t d).1

@[simp] theorem p_stack_start_transition_info (s : Stack) (t : PStackTransitionType)
    (d : Nat) : (p_stack_start_transition s t d).info = s.info :=
  (p_stack_start_transition_core s t d).2.1

@[simp] theorem p_stack_start_transition_visible_child (s : Stack) (t : PStackTransitionType)
    (d : Nat) : (p_stack_start_transition s t d).visible_child = s.visible_child :=
  (p_stack_start_transition_core s t d).2.2.1

@[simp] theorem p_stack_start_transition_w_visible (s : Stack) (t : PStackTransitionType)
    (d : Nat) : (p_stack_start_transition s t d).w_visible = s.w_visible :=
  (p_stack_start_transition_core s t d).2.2.2

theorem set_visible_child_frame (s : Stack) (ci : Option Ptr) (t : PStackTransitionType)
    (d : Nat) :
    (set_visible_child s ci t d).children = s.children ∧
    (set_visible_child s ci t d).info = s.info ∧
    (set_visible_child s ci t d).visible_child = chosen s ci ∧
    (set_visible_child s ci t d).w_visible = s.w_visible := by
  unfold set_visible_child
  simp only
  split_ifs with h
  · exact ⟨rfl, rfl, by rw [← h]; rfl, rfl⟩
  all_goals
    simp only [p_stack_start_transition_children, p_stack_start_transition_info,
      p_stack_start_transition_visible_child, p_stack_start_transition_w_visible]
    refine ⟨?_, ?_, ?_, ?_⟩ <;> (repeat' split) <;> simp [chosen, *]

theorem gtk_widget_get_visible_congr {s t : Stack} (hw : t.w_visible = s.w_visible)
    (w : Option Widget) : gtk_widget_get_visible t w = gtk_widget_get_visible s w := by
  cases w <;> simp [gtk_widget_get_visible, hw]

theorem wfChildren_congr {s t : Stack} (hc : t.children = s.children)
    (hi : ∀ p, (t.info p).widget = (s.info p).widget) (h : WfChildren s) : WfChildren t := by
  refine ⟨by rw [hc]; exact h.nodup, ?_, ?_⟩
  · intro p hp
    rw [hc] at hp
    rw [hi]
    exact h.widget_some p hp
  · intro p hp q hq
    rw [hc] at hp hq
    rw [hi, hi]
    exact h.widget_inj p hp q hq

theorem inv_congr {s t : Stack} (hc : t.children = s.children)
    (hi : ∀ p, (t.info p).widget = (s.info p).widget)
    (hv : t.visible_child = s.visible_child) (hw : t.w_visible = s.w_visible)
    (h : Inv s) : Inv t := by
  refine { toWfChildren := wfChildren_congr hc hi h.toWfChildren, none_visible := ?_, some_visible := ?_ }
  · intro hn p hp
    rw [hc] at hp
    rw [hv] at hn
    rw [hi, gtk_widget_get_visible_congr hw]
    exact h.none_visible hn p hp
  · intro v hvv
    rw [hv] at hvv
    rw [hc, hi, gtk_widget_get_visible_congr hw]
    exact h.some_visible v hvv

theorem inv_of_sameCore {s t : Stack} (hst : SameCore s t) (h : Inv s) : Inv t :=
  inv_congr hst.1 (fun p => by rw [hst.2.1]) hst.2.2.1 hst.2.2.2 h

/-- Whatever the previous visible child, `set_visible_child` re-establishes the
invariant when it is given NULL or a child whose widget is visible. -/
theorem inv_set_visible_child {s : Stack} (h : WfChildren s) (ci : Option Ptr)
    (hci : ∀ p, ci = some p → p ∈ s.children ∧ gtk_widget_get_visible s (s.info p).widget = true)
    (t : PStackTransitionType) (d : Nat) : Inv (set_visible_child s ci t d) := by
  obtain ⟨hc, hi, hv, hw⟩ := set_visible_child_frame s ci t d
  refine { toWfChildren := wfChildren_congr hc (fun p => by rw [hi]) h, none_visible := ?_,
           some_visible := ?_ }
  · intro hn p hp
    rw [hv] at hn
    rw [hc] at hp
    rw [hi, gtk_widget_get_visible_congr hw]
    cases ci with
    | some q => simp [chosen] at hn
    | none =>
      have := List.find?_eq_none.mp hn p hp
      simpa using this
  · intro v hvv
    rw [hv] at hvv
    rw [hc, hi, gtk_widget_get_visible_congr hw]
    cases ci with
    | some q =>
      simp only [chosen, Option.some.injEq] at hvv
      subst hvv
      exact hci q rfl
    | none =>
      have hf : s.children.find? (fun p => gtk_widget_get_visible s (s.info p).widget) = some v := hvv
      have hq := List.find?_some hf
      exact ⟨List.mem_of_find?_eq_some hf, hq⟩

theorem find_child_info_for_widget_some {s : Stack} {child : Widget} {p : Ptr}
    (h : find_child_info_for_widget s child = some p) :
    p ∈ s.children ∧ (s.info p).widget = some child := by
  refine ⟨List.mem_of_find?_eq_some h, ?_⟩
  have := List.find?_some h
  simpa using this

theorem find_child_info_for_widget_none {s : Stack} {child : Widget}
    (h : find_child_info_for_widget s child = none) :
    ∀ p ∈ s.children, (s.info p).widget ≠ some child := by
  intro p hp
  have := List.find?_eq_none.mp h p hp
  simpa using this

theorem inv_init : Inv p_stack_init := by
  refine { nodup := List.nodup_nil, widget_some := ?_, widget_inj := ?_, none_visible := ?_,
           some_visible := ?_ }
  · intro p hp; simp [p_stack_init] at hp
  · intro p hp; simp [p_stack_init] at hp
  · intro _ p hp; simp [p_stack_init] at hp
  · intro v hv; simp [p_stack_init] at hv

theorem inv_add {s : Stack} (h : Inv s) (child : Widget) (ptr : Ptr)
    (hparent : find_child_info_for_widget s child = none) (hfresh : ptr ∉ s.children) :
    Inv (p_stack_add s child ptr) := by
  have hne := find_child_info_for_widget_none hparent
  have hold : ∀ p ∈ s.children, p ≠ ptr := fun p hp e => hfresh (e ▸ hp)
  unfold p_stack_add
  lift_lets
  intro ci s1
  have hs1c : s1.children = s.children ++ [ptr] := rfl
  have hs1i : ∀ p, p ≠ ptr → s1.info p = s.info p := fun p hp => by
    show (if p = ptr then ci else s.info p) = s.info p
    rw [if_neg hp]
  have hs1p : (s1.info ptr).widget = some child := by
    show (if ptr = ptr then ci else s.info ptr).widget = some child
    rw [if_pos rfl]
  have hs1v : s1.visible_child = s.visible_child := rfl
  have hs1w : s1.w_visible = s.w_visible := rfl
  have hwf : WfChildren s1 := by
    refine ⟨?_, ?_, ?_⟩
    · rw [hs1c]
      exact List.Nodup.append h.nodup (List.nodup_singleton _) (by simpa using hfresh)
    · intro p hp
      rw [hs1c, List.mem_append, List.mem_singleton] at hp
      rcases hp with hp | rfl
      · rw [hs1i p (hold p hp)]; exact h.widget_some p hp
      · exact ⟨child, hs1p⟩
    · intro p hp q hq e
      rw [hs1c, List.mem_append, List.mem_singleton] at hp hq
      rcases hp with hp | rfl <;> rcases hq with hq | rfl
      · rw [hs1i p (hold p hp), hs1i q (hold q hq)] at e
        exact h.widget_inj p hp q hq e
      · rw [hs1i p (hold p hp), hs1p] at e
        exact absurd e (hne p hp)
      · rw [hs1i q (hold q hq), hs1p] at e
        exact absurd e.symm (hne q hq)
      · rfl
  split_ifs with hc
  · simp only [Bool.and_eq_true] at hc
    refine inv_set_visible_child hwf (some ptr) ?_ _ _
    intro p hp
    cases hp
    refine ⟨by rw [hs1c]; simp, ?_⟩
    rw [hs1p]; exact hc.2
  · refine inv_of_sameCore (s := s1) ⟨by simp, by simp, by simp, by simp⟩ ?_
    refine { toWfChildren := hwf, none_visible := ?_, some_visible := ?_ }
    · intro hn p hp
      have hcv : gtk_widget_get_visible s1 (some child) = false := by
        simp only [Bool.and_eq_true, not_and, Bool.not_eq_true] at hc
        exact hc (by rw [hn]; rfl)
      rw [hs1c, List.mem_append, List.mem_singleton] at hp
      rcases hp with hp | rfl
      · rw [hs1i p (hold p hp), gtk_widget_get_visible_congr hs1w]
        exact h.none_visible (hs1v ▸ hn) p hp
      · rw [hs1p]; exact hcv
    · intro v hv
      rw [hs1v] at hv
      obtain ⟨hm, hvis⟩ := h.some_visible v hv
      refine ⟨by rw [hs1c]; exact List.mem_append_left _ hm, ?_⟩
      rw [hs1i v (hold v hm), gtk_widget_get_visible_congr hs1w]
      exact hvis

theorem inv_remove {s : Stack} (h : Inv s) (child : Widget) : Inv (p_stack_remove s child) := by
  unfold p_stack_remove
  split
  · exact h
  · rename_i ci hfind
    obtain ⟨hmem, -⟩ := find_child_info_for_widget_some hfind
    lift_lets
    intro _src s1 s2
    have hs1c : s1.children = s.children.erase ci := rfl
    have hmem1 : ∀ p, p ∈ s1.children ↔ p ∈ s.children ∧ p ≠ ci := fun p => by
      rw [hs1c, h.nodup.mem_erase_iff, and_comm]
    have hs1i : ∀ p, p ≠ ci → s1.info p = s.info p := fun p hp => by
      show (if p = ci then _ else s.info p) = s.info p
      rw [if_neg hp]
    have hs1v : s1.visible_child = s.visible_child := rfl
    have hs1w : s1.w_visible = s.w_visible := rfl
    have hwf : WfChildren s1 := by
      refine ⟨by rw [hs1c]; exact h.nodup.erase _, ?_, ?_⟩
      · intro p hp
        obtain ⟨hp1, hp2⟩ := (hmem1 p).mp hp
        rw [hs1i p hp2]; exact h.widget_some p hp1
      · intro p hp q hq e
        obtain ⟨hp1, hp2⟩ := (hmem1 p).mp hp
        obtain ⟨hq1, hq2⟩ := (hmem1 q).mp hq
        rw [hs1i p hp2, hs1i q hq2] at e
        exact h.widget_inj p hp1 q hq1 e
    have hs2 : Inv s2 := by
      show Inv (if s1.visible_child = some ci then
        set_visible_child s1 none s1.transition_type s1.transition_duration else s1)
      split_ifs with hv
      · exact inv_set_visible_child hwf none (fun p hp => by cases hp) _ _
      · refine { toWfChildren := hwf, none_visible := ?_, some_visible := ?_ }
        · intro hn p hp
          obtain ⟨hp1, hp2⟩ := (hmem1 p).mp hp
          rw [hs1i p hp2, gtk_widget_get_visible_congr hs1w]
          exact h.none_visible (hs1v ▸ hn) p hp1
        · intro v hvv
          have hne : v ≠ ci := fun e => hv (e ▸ hvv)
          rw [hs1v] at hvv
          obtain ⟨hm, hvis⟩ := h.some_visible v hvv
          refine ⟨(hmem1 v).mpr ⟨hm, hne⟩, ?_⟩
          rw [hs1i v hne, gtk_widget_get_visible_congr hs1w]
          exact hvis
    split_ifs
    · exact inv_of_sameCore (s := s2) ⟨rfl, rfl, rfl, rfl⟩ hs2
    · exact hs2

theorem inv_p_stack_set_visible_child {s : Stack} (h : Inv s) (child : Widget) :
    Inv (p_stack_set_visible_child s child) := by
  unfold p_stack_set_visible_child
  split
  · exact h
  · rename_i ci hfind
    split_ifs with hv
    · refine inv_set_visible_child h.toWfChildren (some ci) ?_ _ _
      intro p hp
      cases hp
      exact ⟨(find_child_info_for_widget_some hfind).1, hv⟩
    · exact h

theorem inv_p_stack_set_visible_child_full {s : Stack} (h : Inv s) (name : String)
    (t : PStackTransitionType) : Inv (p_stack_set_visible_child_full s name t) := by
  unfold p_stack_set_visible_child_full
  split
  · exact h
  · rename_i ci hfind
    split_ifs with hv
    · refine inv_set_visible_child h.toWfChildren (some ci) ?_ _ _
      intro p hp
      cases hp
      exact ⟨List.mem_of_find?_eq_some hfind, hv⟩
    · exact h

theorem inv_p_stack_set_child_name {s : Stack} (h : Inv s) (child : Widget)
    (name : Option String) : Inv (p_stack_set_child_name s child name) := by
  unfold p_stack_set_child_name
  split
  · exact h
  · rename_i p _
    refine inv_congr (s := s) rfl ?_ rfl rfl h
    intro q
    show (if q = p then _ else s.info q).widget = (s.info q).widget
    split_ifs with e
    · rw [e]
    · rfl

theorem g_list_insert_before_perm (l : List Ptr) (link : Option Nat) (x : Ptr) :
    (g_list_insert_before l link x).Perm (x :: l) := by
  cases link with
  | none =>
    show (l ++ [x]).Perm (x :: l)
    exact List.perm_append_singleton x l
  | some i =>
    show (l.take i ++ x :: l.drop i).Perm (x :: l)
    have h := @List.perm_middle _ x (l.take i) (l.drop i)
    rwa [List.take_append_drop] at h

theorem cons_eraseIdx_perm (l : List Ptr) (o : Nat) (x : Ptr) (h : l.get? o = some x) :
    (x :: l.eraseIdx o).Perm l := by
  induction l generalizing o with
  | nil => simp at h
  | cons a l ih =>
    cases o with
    | zero =>
      simp at h
      subst h
      simp
    | succ o =>
      simp at h
      simp only [List.eraseIdx_cons_succ]
      exact (List.Perm.swap a x _).trans ((ih o (by simpa using h)).cons a)

theorem reorder_child_frame (s : Stack) (child : Widget) (position : Int) :
    (reorder_child s child position).children.Perm s.children ∧
    (reorder_child s child position).info = s.info ∧
    (reorder_child s child position).visible_child = s.visible_child ∧
    (reorder_child s child position).w_visible = s.w_visible := by
  unfold reorder_child
  split
  · exact ⟨List.Perm.refl _, rfl, rfl, rfl⟩
  · split_ifs
    · exact ⟨List.Perm.refl _, rfl, rfl, rfl⟩
    · split
      · exact ⟨List.Perm.refl _, rfl, rfl, rfl⟩
      · rename_i ci hget
        refine ⟨?_, rfl, rfl, rfl⟩
        exact (g_list_insert_before_perm _ _ _).trans (cons_eraseIdx_perm _ _ _ hget)

theorem inv_perm {s t : Stack} (hc : t.children.Perm s.children) (hi : t.info = s.info)
    (hv : t.visible_child = s.visible_child) (hw : t.w_visible = s.w_visible)
    (h : Inv s) : Inv t := by
  have hm : ∀ p, p ∈ t.children ↔ p ∈ s.children := fun p => hc.mem_iff
  refine { nodup := hc.nodup_iff.mpr h.nodup, widget_some := ?_, widget_inj := ?_,
           none_visible := ?_, some_visible := ?_ }
  · intro p hp
    rw [hi]; exact h.widget_some p ((hm p).mp hp)
  · intro p hp q hq
    rw [hi]; exact h.widget_inj p ((hm p).mp hp) q ((hm q).mp hq)
  · intro hn p hp
    rw [hi, gtk_widget_get_visible_congr hw]
    exact h.none_visible (hv ▸ hn) p ((hm p).mp hp)
  · intro v hvv
    rw [hm, hi, gtk_widget_get_visible_congr hw]
    exact h.some_visible v (hv ▸ hvv)

theorem inv_p_stack_set_child_position {s : Stack} (h : Inv s) (child : Widget)
    (position : Int) : Inv (p_stack_set_child_position s child position) := by
  unfold p_stack_set_child_position
  split
  · exact h
  · obtain ⟨h1, h2, h3, h4⟩ := reorder_child_frame s child position
    exact inv_perm h1 h2 h3 h4 h

theorem stack_child_visibility_notify_cb_tail (s1 : Stack) (ci : Option Ptr) :
    SameCore s1
      (match s1.last_visible_child with
      | some l =>
        if ci = some l then
          { gtk_widget_set_child_visible s1 (s1.info l).widget false with
            last_visible_child := none }
        else s1
      | none => s1) := by
  split
  · split_ifs
    · exact ⟨by simp, by simp, by simp, by simp⟩
    · exact ⟨rfl, rfl, rfl, rfl⟩
  · exact ⟨rfl, rfl, rfl, rfl⟩

theorem inv_gtk_widget_set_visible {s : Stack} (h : Inv s) (w : Widget) (b : Bool) :
    Inv (gtk_widget_set_visible s w b) := by
  unfold gtk_widget_set_visible
  split_ifs with hb
  · exact h
  all_goals lift_lets; intro s1
  all_goals
    have hs1w : ∀ x, x ≠ w → s1.w_visible x = s.w_visible x := fun x hx => by
      show (if x = w then b else s.w_visible x) = s.w_visible x
      rw [if_neg hx]
    have hs1b : s1.w_visible w = b := by
      show (if w = w then b else s.w_visible w) = b
      rw [if_pos rfl]
    have hwf : WfChildren s1 := wfChildren_congr (s := s) rfl (fun _ => rfl) h.toWfChildren
  · -- `w` is a child: the handler runs
    rename_i hfind
    obtain ⟨p, hp⟩ := Option.isSome_iff_exists.mp hfind
    obtain ⟨hpm, hpw⟩ := find_child_info_for_widget_some hp
    have hfind1 : find_child_info_for_widget s1 w = some p := hp
    unfold stack_child_visibility_notify_cb
    lift_lets
    intro ci s2
    have hci : ci = some p := hfind1
    refine inv_of_sameCore (stack_child_visibility_notify_cb_tail s2 ci) ?_
    show Inv (if (s1.visible_child.isNone && gtk_widget_get_visible s1 (some w)) = true then
        set_visible_child s1 ci s1.transition_type s1.transition_duration
      else if (decide (s1.visible_child = ci) && !gtk_widget_get_visible s1 (some w)) = true then
        set_visible_child s1 none s1.transition_type s1.transition_duration
      else s1)
    split_ifs with c1 c2
    · refine inv_set_visible_child hwf ci ?_ _ _
      intro q hq
      rw [hci] at hq
      cases hq
      simp only [Bool.and_eq_true] at c1
      refine ⟨hpm, ?_⟩
      show gtk_widget_get_visible s1 (s.info p).widget = true
      rw [hpw]; exact c1.2
    · exact inv_set_visible_child hwf none (fun q hq => by cases hq) _ _
    · have hvis : gtk_widget_get_visible s1 (some w) = b := hs1b
      rw [hvis] at c1 c2
      refine { toWfChildren := hwf, none_visible := ?_, some_visible := ?_ }
      · intro hn q hq
        have hn' : s.visible_child = none := hn
        have hbf : b = false := by
          simp only [Bool.and_eq_true, not_and, Bool.not_eq_true] at c1
          exact c1 (by rw [show s1.visible_child = none from hn]; rfl)
        have hold := h.none_visible hn' q hq
        obtain ⟨x, hx⟩ := h.widget_some q hq
        show gtk_widget_get_visible s1 (s.info q).widget = false
        rw [hx] at hold ⊢
        show s1.w_visible x = false
        by_cases hxw : x = w
        · rw [hxw, hs1b, hbf]
        · rw [hs1w x hxw]; exact hold
      · intro v hvv
        have hvv' : s.visible_child = some v := hvv
        obtain ⟨hm, hold⟩ := h.some_visible v hvv'
        refine ⟨hm, ?_⟩
        obtain ⟨x, hx⟩ := h.widget_some v hm
        show gtk_widget_get_visible s1 (s.info v).widget = true
        rw [hx] at hold ⊢
        show s1.w_visible x = true
        by_cases hxw : x = w
        · have hvp : v = p := h.widget_inj v hm p hpm (by rw [hx, hpw, hxw])
          have hbt : b = true := by
            by_contra hb'
            apply c2
            simp only [Bool.and_eq_true, decide_eq_true_eq, Bool.not_eq_true']
            exact ⟨by rw [hci, ← hvp]; exact hvv, by simpa using hb'⟩
          rw [hxw, hs1b, hbt]
        · rw [hs1w x hxw]; exact hold
  · -- `w` is not a child: no handler is connected
    rename_i hfind
    have hnone : find_child_info_for_widget s w = none := by
      cases hf : find_child_info_for_widget s w with
      | none => rfl
      | some p => rw [hf] at hfind; simp at hfind
    have hne := find_child_info_for_widget_none hnone
    have hsame : ∀ q ∈ s.children,
        gtk_widget_get_visible s1 (s.info q).widget = gtk_widget_get_visible s (s.info q).widget := by
      intro q hq
      obtain ⟨x, hx⟩ := h.widget_some q hq
      have hxw : x ≠ w := fun e => hne q hq (by rw [hx, e])
      rw [hx]
      exact hs1w x hxw
    refine { toWfChildren := hwf, none_visible := ?_, some_visible := ?_ }
    · intro hn q hq
      show gtk_widget_get_visible s1 (s.info q).widget = false
      rw [hsame q hq]
      exact h.none_visible hn q hq
    · intro v hvv
      obtain ⟨hm, hold⟩ := h.some_visible v hvv
      refine ⟨hm, ?_⟩
      show gtk_widget_get_visible s1 (s.info v).widget = true
      rw [hsame v hm]
      exact hold

theorem inv_step {s t : Stack} (h : Inv s) (hst : Step s t) : Inv t := by
  cases hst with
  | add child ptr hparent hfresh => exact inv_add h child ptr hparent hfresh
  | remove child => exact inv_remove h child
  | set_visible_child child => exact inv_p_stack_set_visible_child h child
  | set_visible_child_name name => exact inv_p_stack_set_visible_child_full h name _
  | set_visible_child_full name t => exact inv_p_stack_set_visible_child_full h name t
  | set_position child position => exact inv_p_stack_set_child_position h child position
  | set_name child name => exact inv_p_stack_set_child_name h child name
  | show_hide w b => exact inv_gtk_widget_set_visible h w b
  | set_transition_type t => exact inv_of_sameCore (s := s) ⟨rfl, rfl, rfl, rfl⟩ h
  | set_transition_duration d => exact inv_of_sameCore (s := s) ⟨rfl, rfl, rfl, rfl⟩ h
  | tick now _ =>
    refine inv_of_sameCore ?_ h
    unfold p_stack_transition_cb
    lift_lets
    intro t0 t
    have hc := p_stack_set_transition_position_core s t
    split
    · rename_i s1 heq
      rw [heq] at hc
      exact ⟨hc.1, hc.2.1, hc.2.2.1, hc.2.2.2⟩
    · rename_i s1 heq
      rw [heq] at hc
      exact hc
  | toolkit is_visible mapped animations_enabled rtl frame_time =>
    exact inv_of_sameCore (s := s) ⟨rfl, rfl, rfl, rfl⟩ h

theorem inv_reachable {s : Stack} (h : Reachable s) : Inv s := by
  induction h with
  | init => exact inv_init
  | step s t _ hst ih => exact inv_step ih hst

/-- C1: in every state reachable from the empty stack, `p_stack_get_visible_child`
returns NULL exactly when no child of the stack has its `visible` flag set, and
otherwise returns the widget of a record in the child list whose `visible` flag
is set. -/
theorem p_stack_get_visible_child_reachable (s : Stack) (h : Reachable s) :
    (p_stack_get_visible_child s = none ↔
      ∀ p ∈ s.children, gtk_widget_get_visible s (s.info p).widget = false) ∧
    (∀ w, p_stack_get_visible_child s = some w →
      (∃ p ∈ s.children, (s.info p).widget = some w) ∧
        gtk_widget_get_visible s (some w) = true) := by
  have hinv := inv_reachable h
  unfold p_stack_get_visible_child
  cases hv : s.visible_child with
  | none =>
    refine ⟨⟨fun _ => hinv.none_visible hv, fun _ => rfl⟩, ?_⟩
    intro w hw
    cases hw
  | some v =>
    obtain ⟨hm, hvis⟩ := hinv.some_visible v hv
    obtain ⟨x, hx⟩ := hinv.widget_some v hm
    refine ⟨⟨?_, ?_⟩, ?_⟩
    · intro hn
      simp only [hx] at hn
      cases hn
    · intro hall
      rw [hall v hm] at hvis
      cases hvis
    · intro w hw
      simp only [hx, Option.some.injEq] at hw
      subst hw
      exact ⟨⟨v, hm, hx⟩, hx ▸ hvis⟩

theorem stack_shown_hidden_reachable : Reachable stack_shown_hidden := by
  refine Reachable.step _ _ (Reachable.step _ _ (Reachable.step _ _ Reachable.init
    (Step.show_hide _ 7 true)) (Step.add _ 7 0 ?_ ?_)) (Step.add _ 8 1 ?_ ?_)
  · decide
  · decide
  · decide
  · decide

theorem p_stack_get_visible_child_reachable_witness :
    (p_stack_get_visible_child stack_shown_hidden = none ↔
      ∀ p ∈ stack_shown_hidden.children,
        gtk_widget_get_visible stack_shown_hidden (stack_shown_hidden.info p).widget = false) ∧
    (∀ w, p_stack_get_visible_child stack_shown_hidden = some w →
      (∃ p ∈ stack_shown_hidden.children, (stack_shown_hidden.info p).widget = some w) ∧
        gtk_widget_get_visible stack_shown_hidden (some w) = true) :=
  p_stack_get_visible_child_reachable stack_shown_hidden stack_shown_hidden_reachable

/-- C2, counterexample: widget 8 is a child of the stack but hidden, and after
`p_stack_set_visible_child (stack, 8)` the visible child is still widget 7. -/
theorem p_stack_set_visible_child_hidden_counterexample :
    find_child_info_for_widget stack_shown_hidden 8 = some 1 ∧
    p_stack_get_visible_child (p_stack_set_visible_child stack_shown_hidden 8) = some 7 ∧
    p_stack_get_visible_child (p_stack_set_visible_child stack_shown_hidden 8) ≠ some 8 := by
  decide

/-- C2, amended: for every stack and every child widget whose `visible` flag is
set, after `p_stack_set_visible_child (stack, child)` the call
`p_stack_get_visible_child (stack)` returns `child`. -/
theorem p_stack_set_visible_child_get (s : Stack) (child : Widget)
    (hchild : (find_child_info_for_widget s child).isSome = true)
    (hvis : gtk_widget_get_visible s (some child) = true) :
    p_stack_get_visible_child (p_stack_set_visible_child s child) = some child := by
  obtain ⟨p, hp⟩ := Option.isSome_iff_exists.mp hchild
  obtain ⟨-, hpw⟩ := find_child_info_for_widget_some hp
  unfold p_stack_set_visible_child
  rw [hp]
  simp only [hpw, hvis, if_true]
  obtain ⟨-, hi, hv, -⟩ := set_visible_child_frame s (some p) s.transition_type s.transition_duration
  unfold p_stack_get_visible_child
  rw [hv, hi]
  simp [chosen, hpw]

theorem p_stack_set_visible_child_get_witness :
    p_stack_get_visible_child (stack_mapped 250) = some 1 ∧
    p_stack_get_visible_child (p_stack_set_visible_child (stack_mapped 250) 2) = some 2 :=
  ⟨by decide, p_stack_set_visible_child_get (stack_mapped 250) 2 (by decide) (by decide)⟩

/-- C3, failing input: in the stack `[10, 11, 12]`, setting the position of
widget 10 to 1 leaves the order unchanged and reading the position back gives
0; setting it to 2 gives `[11, 10, 12]` and position 1. -/
theorem p_stack_set_child_position_forward :
    p_stack_get_child_position stack_three 10 = some 0 ∧
    stack_three.children.length = 3 ∧
    p_stack_get_child_position (p_stack_set_child_position stack_three 10 1) 10 = some 0 ∧
    p_stack_get_child_position (p_stack_set_child_position stack_three 10 2) 10 = some 1 ∧
    (p_stack_set_child_position stack_three 10 2).children = [1, 0, 2] := by
  decide


/-- The toolkit state and the tick bookkeeping are left alone by
`gtk_widget_set_child_visible`. -/
theorem gtk_widget_set_child_visible_other (s : Stack) (w : Option Widget) (b : Bool) :
    (gtk_widget_set_child_visible s w b).mapped = s.mapped ∧
    (gtk_widget_set_child_visible s w b).animations_enabled = s.animations_enabled ∧
    (gtk_widget_set_child_visible s w b).frame_time = s.frame_time ∧
    (gtk_widget_set_child_visible s w b).is_visible = s.is_visible ∧
    (gtk_widget_set_child_visible s w b).last_visible_child = s.last_visible_child ∧
    (gtk_widget_set_child_visible s w b).tick_id = s.tick_id := by
  cases w <;> exact ⟨rfl, rfl, rfl, rfl, rfl, rfl⟩

/-- The record kept as `last_visible_child` when the visible child changes:
the old visible child, provided it still has a widget and the stack is
visible. -/
theorem set_visible_child_start (s : Stack) (ci : Option Ptr) (t : PStackTransitionType)
    (d : Nat) (h : chosen s ci ≠ s.visible_child) :
    ∃ s5 : Stack, set_visible_child s ci t d = p_stack_start_transition s5 t d ∧
      s5.mapped = s.mapped ∧ s5.animations_enabled = s.animations_enabled ∧
      s5.frame_time = s.frame_time ∧
      s5.last_visible_child =
        (match s.visible_child with
        | some v =>
          match (s.info v).widget with
          | some _ => if s.is_visible then some v else none
          | none => none
        | none => none) := by
  unfold set_visible_child
  simp only
  unfold chosen at h
  rw [if_neg h]
  refine ⟨_, rfl, ?_, ?_, ?_, ?_⟩
  all_goals
    (repeat' split) <;>
      simp_all [(gtk_widget_set_child_visible_other _ _ _).1,
        (gtk_widget_set_child_visible_other _ _ _).2.1,
        (gtk_widget_set_child_visible_other _ _ _).2.2.1,
        (gtk_widget_set_child_visible_other _ _ _).2.2.2.1,
        (gtk_widget_set_child_visible_other _ _ _).2.2.2.2.1]

/-- The two outcomes of `p_stack_start_transition`: an animated start, or an
immediate completion. -/
theorem p_stack_start_transition_spec (s : Stack) (t : PStackTransitionType) (d : Nat) :
    (s.mapped = true ∧ s.animations_enabled = true ∧ t ≠ PStackTransitionType.NONE ∧ d ≠ 0 ∧
        s.last_visible_child ≠ none →
      (p_stack_start_transition s t d).transition_pos = 0 ∧
      (p_stack_start_transition s t d).tick_id ≠ 0 ∧
      (p_stack_start_transition s t d).start_time = s.frame_time ∧
      (p_stack_start_transition s t d).end_time =
        s.frame_time + ((d * 1000 % 2 ^ 32 : Nat) : Int)) ∧
    (¬ (s.mapped = true ∧ s.animations_enabled = true ∧ t ≠ PStackTransitionType.NONE ∧ d ≠ 0 ∧
        s.last_visible_child ≠ none) →
      (p_stack_start_transition s t d).transition_pos = 1 ∧
      (p_stack_start_transition s t d).tick_id = 0 ∧
      (p_stack_start_transition s t d).active_transition_type = PStackTransitionType.NONE ∧
      (p_stack_start_transition s t d).last_visible_child = none) := by
  constructor
  · rintro ⟨h1, h2, h3, h4, h5⟩
    have hl : s.last_visible_child.isSome = true := by
      cases hv : s.last_visible_child with
      | none => exact absurd hv h5
      | some v => rfl
    unfold p_stack_start_transition
    simp only [h1, h2, h3, h4, hl, ne_eq, not_false_eq_true, decide_True, Bool.and_self,
      if_true]
    unfold p_stack_schedule_ticks
    simp only
    split_ifs with ht
    · exact ⟨rfl, Nat.succ_ne_zero _, rfl, rfl⟩
    · exact ⟨rfl, ht, rfl, rfl⟩
  · intro hn
    have hc : (s.mapped && s.animations_enabled && decide (t ≠ PStackTransitionType.NONE) &&
        decide (d ≠ 0) && s.last_visible_child.isSome) = false := by
      by_contra hc
      simp only [Bool.not_eq_false, Bool.and_eq_true, decide_eq_true_eq] at hc
      obtain ⟨⟨⟨⟨h1, h2⟩, h3⟩, h4⟩, h5⟩ := hc
      exact hn ⟨h1, h2, h3, h4, by
        intro e
        rw [e] at h5
        cases h5⟩
    unfold p_stack_start_transition
    rw [hc]
    simp only [Bool.false_eq_true, if_false]
    unfold p_stack_set_transition_position p_stack_unschedule_ticks
    simp only [le_refl, decide_True, Bool.true_or, if_true]
    split_ifs <;> (try split) <;> (try unfold gtk_widget_set_child_visible) <;> (try split) <;>
      simp_all

/-- C11, counterexample: in `stack_duplicate_names` the name "x" is carried by
widget 1 (hidden, first in the list) and by widget 2 (shown); after
`p_stack_set_visible_child_name (stack, "x")` the visible child is still the
one named "y". -/
theorem p_stack_set_visible_child_name_duplicate_counterexample :
    (∃ p ∈ stack_duplicate_names.children,
      (stack_duplicate_names.info p).name = some "x" ∧
      gtk_widget_get_visible stack_duplicate_names (stack_duplicate_names.info p).widget = true) ∧
    p_stack_get_visible_child_name
      (p_stack_set_visible_child_name stack_duplicate_names "x") = some "y" :=
  ⟨⟨1, by decide, by decide, by decide⟩, by decide⟩

/-- C11, amended: when the first child in list order that carries the name has
its `visible` flag set, after `p_stack_set_visible_child_name (stack, name)`
the call `p_stack_get_visible_child_name (stack)` returns the name; when no
child carries the name the state is unchanged. -/
theorem p_stack_set_visible_child_name_get (s : Stack) (name : String) :
    (∀ p, s.children.find? (fun q => decide ((s.info q).name = some name)) = some p →
      gtk_widget_get_visible s (s.info p).widget = true →
      p_stack_get_visible_child_name (p_stack_set_visible_child_name s name) = some name) ∧
    ((∀ p ∈ s.children, (s.info p).name ≠ some name) →
      p_stack_set_visible_child_name s name = s) := by
  constructor
  · intro p hfind hvis
    have hname : (s.info p).name = some name := by
      have := List.find?_some hfind
      simpa using this
    unfold p_stack_set_visible_child_name p_stack_set_visible_child_full
    rw [hfind]
    simp only [hvis, if_true]
    obtain ⟨-, hi, hv, -⟩ :=
      set_visible_child_frame s (some p) s.transition_type s.transition_duration
    unfold p_stack_get_visible_child_name
    rw [hv, hi]
    simp [chosen, hname]
  · intro hnone
    have hfind : s.children.find? (fun q => decide ((s.info q).name = some name)) = none := by
      rw [List.find?_eq_none]
      intro q hq
      simpa using hnone q hq
    unfold p_stack_set_visible_child_name p_stack_set_visible_child_full
    rw [hfind]

theorem p_stack_set_visible_child_name_get_witness :
    p_stack_get_visible_child_name stack_named = some "a" ∧
    p_stack_get_visible_child_name (p_stack_set_visible_child_name stack_named "b") =
      some "b" ∧
    p_stack_set_visible_child_name stack_named "z" = stack_named :=
  ⟨by decide,
    (p_stack_set_visible_child_name_get stack_named "b").1 1 (by decide) (by decide),
    (p_stack_set_visible_child_name_get stack_named "z").2 (by decide)⟩

/-- The two outcomes of a call of `set_visible_child` that changes the visible
child, by the state before the call. -/
theorem set_visible_child_transition_cases (s : Stack) (ci : Option Ptr)
    (t : PStackTransitionType) (d : Nat)
    (hchange : chosen s ci ≠ s.visible_child)
    (hmap : s.mapped = true → s.is_visible = true) :
    ((s.animations_enabled = false ∨ s.mapped = false ∨ t = PStackTransitionType.NONE ∨ d = 0 ∨
        p_stack_get_visible_child s = none) →
      (set_visible_child s ci t d).transition_pos = 1 ∧
      (set_visible_child s ci t d).tick_id = 0 ∧
      (set_visible_child s ci t d).active_transition_type = PStackTransitionType.NONE ∧
      (set_visible_child s ci t d).last_visible_child = none) ∧
    (¬ (s.animations_enabled = false ∨ s.mapped = false ∨ t = PStackTransitionType.NONE ∨ d = 0 ∨
        p_stack_get_visible_child s = none) →
      (set_visible_child s ci t d).transition_pos = 0 ∧
      (set_visible_child s ci t d).tick_id ≠ 0) := by
  obtain ⟨s5, heq, hm, ha, -, hl⟩ := set_visible_child_start s ci t d hchange
  obtain ⟨hanim, himm⟩ := p_stack_start_transition_spec s5 t d
  rw [heq, hm, ha] at *
  constructor
  · intro hcase
    apply himm
    rintro ⟨h1, h2, h3, h4, h5⟩
    rcases hcase with h | h | h | h | h
    · rw [h] at h2; cases h2
    · rw [h] at h1; cases h1
    · exact h3 h
    · exact h4 h
    · apply h5
      rw [hl]
      unfold p_stack_get_visible_child at h
      cases hv : s.visible_child with
      | none => rfl
      | some v =>
        rw [hv] at h
        simp only at h ⊢
        rw [h]
  · intro hcase
    simp only [not_or] at hcase
    obtain ⟨h1, h2, h3, h4, h5⟩ := hcase
    have hmapped : s.mapped = true := by simpa using h2
    have h := hanim ⟨hmapped, by simpa using h1, h3, h4, by
      rw [hl]
      unfold p_stack_get_visible_child at h5
      cases hv : s.visible_child with
      | none => rw [hv] at h5; exact absurd rfl h5
      | some v =>
        rw [hv] at h5
        simp only at h5 ⊢
        cases hw : (s.info v).widget with
        | none => exact absurd hw h5
        | some w => simp [hmap hmapped]⟩
    exact ⟨h.1, h.2.1⟩

/-- Removing the visible child switches at once: its record has lost the
widget before `set_visible_child` runs, so no last visible child is kept. -/
theorem p_stack_remove_visible_immediate (s : Stack) (child : Widget) (p : Ptr)
    (hfind : find_child_info_for_widget s child = some p) (hvis : s.visible_child = some p) :
    (p_stack_remove s child).transition_pos = 1 ∧
    (p_stack_remove s child).tick_id = 0 ∧
    (p_stack_remove s child).active_transition_type = PStackTransitionType.NONE ∧
    (p_stack_remove s child).last_visible_child = none := by
  have hr : ∃ s1 : Stack, s1.visible_child = some p ∧ (s1.info p).widget = none ∧
      p_stack_remove s child =
        (if (set_visible_child s1 none s1.transition_type
              s1.transition_duration).last_visible_child = some p then
          { set_visible_child s1 none s1.transition_type s1.transition_duration with
            last_visible_child := none }
        else set_visible_child s1 none s1.transition_type s1.transition_duration) := by
    refine ⟨{ s with
      children := s.children.erase p
      info := fun q => if q = p then { s.info p with widget := none } else s.info q },
      hvis, ?_, ?_⟩
    · show (if p = p then { s.info p with widget := none } else s.info p).widget = none
      rw [if_pos rfl]
    · unfold p_stack_remove
      rw [hfind]
      simp only [hvis, if_true]
  obtain ⟨s1, hv1, hw1, hrem⟩ := hr
  have hch : chosen s1 none ≠ s1.visible_child := by
    rw [hv1]
    intro h
    have h2 := List.find?_some h
    rw [hw1] at h2
    exact Bool.false_ne_true h2
  obtain ⟨s5, heq, -, -, -, hl⟩ :=
    set_visible_child_start s1 none s1.transition_type s1.transition_duration hch
  have hl5 : s5.last_visible_child = none := by
    rw [hl, hv1]
    simp only [hw1]
  obtain ⟨k1, k2, k3, k4⟩ :=
    (p_stack_start_transition_spec s5 s1.transition_type s1.transition_duration).2
      (fun h => h.2.2.2.2 hl5)
  rw [← heq] at k1 k2 k3 k4
  rw [hrem]
  split_ifs
  · exact ⟨k1, k2, k3, rfl⟩
  · exact ⟨k1, k2, k3, k4⟩

/-- C12, counterexample: the stack `stack_mapped 250` is mapped, has animations
enabled, a crossfade transition of 250 ms and widget 1 as visible child;
removing widget 1 makes widget 2 the visible child, yet the switch completes at
once (`transition_pos = 1`, no tick callback). -/
theorem p_stack_remove_visible_child_counterexample :
    (stack_mapped 250).animations_enabled = true ∧ (stack_mapped 250).mapped = true ∧
    (stack_mapped 250).transition_type = PStackTransitionType.CROSSFADE ∧
    (stack_mapped 250).transition_duration = 250 ∧
    p_stack_get_visible_child (stack_mapped 250) = some 1 ∧
    p_stack_get_visible_child (p_stack_remove (stack_mapped 250) 1) = some 2 ∧
    (p_stack_remove (stack_mapped 250) 1).transition_pos = 1 ∧
    (p_stack_remove (stack_mapped 250) 1).tick_id = 0 :=
  ⟨by decide, by decide, by decide, by decide, by decide, by decide,
    (p_stack_remove_visible_immediate (stack_mapped 250) 1 0 (by decide) (by decide)).1,
    by decide⟩

/-- C12, amended: a call of `set_visible_child` that changes the visible child
of a stack (whose mapped flag implies its visible flag) completes at once,
leaving `transition_pos = 1`, `tick_id = 0`, `active_transition_type = NONE`
and `last_visible_child = NULL`, if animations are disabled, or the stack is
not mapped, or the transition type is NONE, or the duration is 0, or no widget
is visible at the time of the call; in every other case `transition_pos` is
reset to 0 and a tick callback is installed.  Removing the visible child with
`p_stack_remove` is always of the first kind, since the record loses its widget
before the switch. -/
theorem p_stack_switch_transition (s : Stack) :
    (∀ (ci : Option Ptr) (t : PStackTransitionType) (d : Nat),
      chosen s ci ≠ s.visible_child → (s.mapped = true → s.is_visible = true) →
      ((s.animations_enabled = false ∨ s.mapped = false ∨ t = PStackTransitionType.NONE ∨
          d = 0 ∨ p_stack_get_visible_child s = none) →
        (set_visible_child s ci t d).transition_pos = 1 ∧
        (set_visible_child s ci t d).tick_id = 0 ∧
        (set_visible_child s ci t d).active_transition_type = PStackTransitionType.NONE ∧
        (set_visible_child s ci t d).last_visible_child = none) ∧
      (¬ (s.animations_enabled = false ∨ s.mapped = false ∨ t = PStackTransitionType.NONE ∨
          d = 0 ∨ p_stack_get_visible_child s = none) →
        (set_visible_child s ci t d).transition_pos = 0 ∧
        (set_visible_child s ci t d).tick_id ≠ 0)) ∧
    (∀ (child : Widget) (p : Ptr),
      find_child_info_for_widget s child = some p → s.visible_child = some p →
      (p_stack_remove s child).transition_pos = 1 ∧
      (p_stack_remove s child).tick_id = 0 ∧
      (p_stack_remove s child).active_transition_type = PStackTransitionType.NONE ∧
      (p_stack_remove s child).last_visible_child = none) :=
  ⟨fun ci t d hchange hmap => set_visible_child_transition_cases s ci t d hchange hmap,
    fun child p hfind hvis => p_stack_remove_visible_immediate s child p hfind hvis⟩

theorem p_stack_switch_transition_witness :
    (p_stack_get_visible_child (stack_mapped 250) = some 1 ∧
      p_stack_get_visible_child (p_stack_set_visible_child (stack_mapped 250) 2) = some 2 ∧
      (set_visible_child (stack_mapped 250) (some 1) PStackTransitionType.CROSSFADE
        250).transition_pos = 0 ∧
      (set_visible_child (stack_mapped 250) (some 1) PStackTransitionType.CROSSFADE
        250).tick_id ≠ 0) ∧
    (set_visible_child (stack_mapped 250) (some 1) PStackTransitionType.NONE
      250).tick_id = 0 ∧
    (p_stack_remove (stack_mapped 250) 1).tick_id = 0 :=
  ⟨⟨by decide, by decide,
    (((p_stack_switch_transition (stack_mapped 250)).1 (some 1) PStackTransitionType.CROSSFADE 250
      (by decide) (by decide)).2 (by decide))⟩,
    (((p_stack_switch_transition (stack_mapped 250)).1 (some 1) PStackTransitionType.NONE 250
      (by decide) (by decide)).1 (Or.inr (Or.inr (Or.inl rfl)))).2.1,
    ((p_stack_switch_transition (stack_mapped 250)).2 1 0 (by decide) (by decide)).2.1⟩

/-! ### Preferred sizes -/

theorem preferred_size_loop_homogeneous (s : Stack) (hh : s.homogeneous = true)
    (m : Widget → Int × Int) (l : List Ptr) (acc : Int × Int) :
    preferred_size_loop s m l acc =
      (l.filterMap (fun p =>
        match (s.info p).widget with
        | some w => if s.w_visible w then some w else none
        | none => none)).foldl (fun a w => (max a.1 (m w).1, max a.2 (m w).2)) acc := by
  induction l generalizing acc with
  | nil => rfl
  | cons p l ih =>
    unfold preferred_size_loop
    simp only [hh, Bool.not_true, Bool.false_and, Bool.false_eq_true, if_false]
    rw [List.filterMap_cons]
    cases hw : (s.info p).widget with
    | none => simp only; exact ih acc
    | some w =>
      simp only
      by_cases hv : s.w_visible w = true
      · simp only [hv, if_true, List.foldl_cons]
        exact ih _
      · simp only [hv, if_false]
        exact ih acc

theorem foldl_max_fst (m : Widget → Int × Int) (ws : List Widget) (acc : Int × Int) :
    acc.1 ≤ (ws.foldl (fun a w => (max a.1 (m w).1, max a.2 (m w).2)) acc).1 ∧
    (∀ w ∈ ws, (m w).1 ≤ (ws.foldl (fun a w => (max a.1 (m w).1, max a.2 (m w).2)) acc).1) ∧
    ((ws.foldl (fun a w => (max a.1 (m w).1, max a.2 (m w).2)) acc).1 = acc.1 ∨
      ∃ w ∈ ws, (ws.foldl (fun a w => (max a.1 (m w).1, max a.2 (m w).2)) acc).1 = (m w).1) := by
  induction ws generalizing acc with
  | nil => exact ⟨le_refl _, fun w hw => absurd hw (List.not_mem_nil w), Or.inl rfl⟩
  | cons x ws ih =>
    simp only [List.foldl_cons]
    obtain ⟨h1, h2, h3⟩ := ih (max acc.1 (m x).1, max acc.2 (m x).2)
    simp only at h1 h3
    refine ⟨le_trans (le_max_left _ _) h1, ?_, ?_⟩
    · intro w hw
      rcases List.mem_cons.mp hw with rfl | hw
      · exact le_trans (le_max_right _ _) h1
      · exact h2 w hw
    · rcases h3 with h3 | ⟨w, hw, h3⟩
      · rcases max_choice acc.1 (m x).1 with hm | hm
        · left; rw [h3, hm]
        · right; exact ⟨x, List.mem_cons_self _ _, by rw [h3, hm]⟩
      · right; exact ⟨w, List.mem_cons_of_mem _ hw, h3⟩

theorem foldl_max_snd (m : Widget → Int × Int) (ws : List Widget) (acc : Int × Int) :
    acc.2 ≤ (ws.foldl (fun a w => (max a.1 (m w).1, max a.2 (m w).2)) acc).2 ∧
    (∀ w ∈ ws, (m w).2 ≤ (ws.foldl (fun a w => (max a.1 (m w).1, max a.2 (m w).2)) acc).2) ∧
    ((ws.foldl (fun a w => (max a.1 (m w).1, max a.2 (m w).2)) acc).2 = acc.2 ∨
      ∃ w ∈ ws, (ws.foldl (fun a w => (max a.1 (m w).1, max a.2 (m w).2)) acc).2 = (m w).2) := by
  induction ws generalizing acc with
  | nil => exact ⟨le_refl _, fun w hw => absurd hw (List.not_mem_nil w), Or.inl rfl⟩
  | cons x ws ih =>
    simp only [List.foldl_cons]
    obtain ⟨h1, h2, h3⟩ := ih (max acc.1 (m x).1, max acc.2 (m x).2)
    simp only at h1 h3
    refine ⟨le_trans (le_max_left _ _) h1, ?_, ?_⟩
    · intro w hw
      rcases List.mem_cons.mp hw with rfl | hw
      · exact le_trans (le_max_right _ _) h1
      · exact h2 w hw
    · rcases h3 with h3 | ⟨w, hw, h3⟩
      · rcases max_choice acc.2 (m x).2 with hm | hm
        · left; rw [h3, hm]
        · right; exact ⟨x, List.mem_cons_self _ _, by rw [h3, hm]⟩
      · right; exact ⟨w, List.mem_cons_of_mem _ hw, h3⟩

theorem isMaxOver_of_fold (ws : List Widget) (value : Widget → Int) (r : Int)
    (hnn : ∀ w, 0 ≤ value w) (hub : ∀ w ∈ ws, value w ≤ r)
    (hatt : r = 0 ∨ ∃ w ∈ ws, r = value w) : IsMaxOver ws value r := by
  refine ⟨hub, ?_, ?_⟩
  · intro he
    rcases hatt with h | ⟨w, hw, -⟩
    · exact h
    · rw [he] at hw; cases hw
  · intro hne
    rcases hatt with h | h
    · obtain ⟨w, hw⟩ := List.exists_mem_of_ne_nil ws hne
      refine ⟨w, hw, ?_⟩
      have := hub w hw
      have := hnn w
      omega
    · exact h

/-- The request of a homogeneous stack without snapshot, for any size query. -/
theorem preferred_size_homogeneous (s : Stack) (hh : s.homogeneous = true)
    (hs : s.last_visible_surface = false) (m : Widget → Int × Int) (hm : NonNegative m)
    (size : Int) : IsHomogeneousRequest s m (preferred_size s m size) := by
  unfold preferred_size
  simp only [hs, Bool.false_eq_true, if_false]
  rw [preferred_size_loop_homogeneous s hh]
  obtain ⟨a1, a2, a3⟩ := foldl_max_fst m (visible_children s) (0, 0)
  obtain ⟨b1, b2, b3⟩ := foldl_max_snd m (visible_children s) (0, 0)
  exact ⟨isMaxOver_of_fold _ _ _ (fun w => (hm w).1) a2 a3,
    isMaxOver_of_fold _ _ _ (fun w => (hm w).2) b2 b3⟩

/-- The request of a homogeneous stack does not depend on which child is the
visible child or the last visible child. -/
theorem preferred_size_homogeneous_indep (s : Stack) (hh : s.homogeneous = true)
    (m : Widget → Int × Int) (size : Int) (v l : Option Ptr) :
    preferred_size { s with visible_child := v, last_visible_child := l } m size =
      preferred_size s m size := by
  unfold preferred_size
  rw [preferred_size_loop_homogeneous s hh,
    preferred_size_loop_homogeneous { s with visible_child := v, last_visible_child := l } hh]

/-- Without homogeneity only the visible child and the last visible child are
asked for their size. -/
theorem preferred_size_loop_agree (s : Stack) (hh : s.homogeneous = false)
    (m1 m2 : Widget → Int × Int) (hagree : AgreeOnShown s m1 m2) (l : List Ptr)
    (acc : Int × Int) : preferred_size_loop s m2 l acc = preferred_size_loop s m1 l acc := by
  induction l generalizing acc with
  | nil => rfl
  | cons p l ih =>
    unfold preferred_size_loop
    by_cases hc : (!s.homogeneous && (decide (s.visible_child ≠ some p) &&
        decide (s.last_visible_child ≠ some p))) = true
    · simp only [hc, if_true]
      exact ih acc
    · simp only [hc, if_false]
      have hshown : s.visible_child = some p ∨ s.last_visible_child = some p := by
        by_contra hn
        apply hc
        simp only [not_or] at hn
        simp [hh, hn.1, hn.2]
      cases hw : (s.info p).widget with
      | none => simp only; exact ih acc
      | some w =>
        simp only
        rw [hagree p w hshown hw]
        by_cases hv : s.w_visible w = true
        · simp only [hv, if_true]
          exact ih _
        · simp only [hv, if_false]
          exact ih acc

theorem preferred_size_loop_shown (s : Stack) (hh : s.homogeneous = false)
    (m : Widget → Int × Int) (l : List Ptr) (acc : Int × Int) :
    preferred_size_loop s m l acc =
      (l.filterMap (fun p =>
        if s.visible_child = some p ∨ s.last_visible_child = some p then
          match (s.info p).widget with
          | some w => if s.w_visible w then some w else none
          | none => none
        else none)).foldl (fun a w => (max a.1 (m w).1, max a.2 (m w).2)) acc := by
  induction l generalizing acc with
  | nil => rfl
  | cons p l ih =>
    unfold preferred_size_loop
    rw [List.filterMap_cons]
    by_cases hc : s.visible_child = some p ∨ s.last_visible_child = some p
    · have hb : (!s.homogeneous && (decide (s.visible_child ≠ some p) &&
          decide (s.last_visible_child ≠ some p))) = false := by
        rcases hc with h | h <;> simp [h]
      simp only [hb, Bool.false_eq_true, if_false, if_pos hc]
      cases hw : (s.info p).widget with
      | none => simp only; exact ih acc
      | some w =>
        simp only
        by_cases hv : s.w_visible w = true
        · simp only [hv, if_true, List.foldl_cons]
          exact ih _
        · simp only [hv, if_false]
          exact ih acc
    · have hb : (!s.homogeneous && (decide (s.visible_child ≠ some p) &&
          decide (s.last_visible_child ≠ some p))) = true := by
        simp only [not_or] at hc
        simp [hh, hc.1, hc.2]
      simp only [hb, if_true, if_neg hc]
      exact ih acc

/-- The request of a stack that is not homogeneous and holds no snapshot, for
any size query. -/
theorem preferred_size_shown (s : Stack) (hh : s.homogeneous = false)
    (hs : s.last_visible_surface = false) (m : Widget → Int × Int) (hm : NonNegative m)
    (size : Int) : IsShownRequest s m (preferred_size s m size) := by
  unfold preferred_size
  simp only [hs, Bool.false_eq_true, if_false]
  rw [preferred_size_loop_shown s hh]
  obtain ⟨a1, a2, a3⟩ := foldl_max_fst m (shown_children s) (0, 0)
  obtain ⟨b1, b2, b3⟩ := foldl_max_snd m (shown_children s) (0, 0)
  exact ⟨isMaxOver_of_fold _ _ _ (fun w => (hm w).1) a2 a3,
    isMaxOver_of_fold _ _ _ (fun w => (hm w).2) b2 b3⟩

/-- C14: for a homogeneous stack that holds no snapshot, each of the four
preferred-size functions returns, for minimum and for natural (the sizes
reported by the children being non-negative), the maximum over the visible
children of the child's value, 0 when there is none, and the result is the
same whichever child is the visible or the last visible one; for a stack that
is not homogeneous the results depend on the sizes of the visible child and of
the last visible child only, and without a snapshot each result is the maximum
of the child's value over these two children, 0 when neither is shown. -/
theorem p_stack_get_preferred_size_spec (s : Stack)
    (qh qw : Widget → Int × Int) (qhw qwh : Widget → Int → Int × Int) (width height : Int) :
    (s.homogeneous = true → s.last_visible_surface = false →
      NonNegative qh → NonNegative qw →
      NonNegative (fun c => qhw c width) → NonNegative (fun c => qwh c height) →
      (IsHomogeneousRequest s qh (p_stack_get_preferred_height s qh) ∧
        IsHomogeneousRequest s (fun c => qhw c width)
          (p_stack_get_preferred_height_for_width s qhw width) ∧
        IsHomogeneousRequest s qw (p_stack_get_preferred_width s qw) ∧
        IsHomogeneousRequest s (fun c => qwh c height)
          (p_stack_get_preferred_width_for_height s qwh height)) ∧
      ∀ v l : Option Ptr,
        p_stack_get_preferred_height { s with visible_child := v, last_visible_child := l } qh =
          p_stack_get_preferred_height s qh ∧
        p_stack_get_preferred_height_for_width
            { s with visible_child := v, last_visible_child := l } qhw width =
          p_stack_get_preferred_height_for_width s qhw width ∧
        p_stack_get_preferred_width { s with visible_child := v, last_visible_child := l } qw =
          p_stack_get_preferred_width s qw ∧
        p_stack_get_preferred_width_for_height
            { s with visible_child := v, last_visible_child := l } qwh height =
          p_stack_get_preferred_width_for_height s qwh height) ∧
    (s.homogeneous = false →
      ∀ (qh2 qw2 : Widget → Int × Int) (qhw2 qwh2 : Widget → Int → Int × Int),
        AgreeOnShown s qh qh2 → AgreeOnShown s qw qw2 →
        AgreeOnShown s (fun c => qhw c width) (fun c => qhw2 c width) →
        AgreeOnShown s (fun c => qwh c height) (fun c => qwh2 c height) →
        p_stack_get_preferred_height s qh2 = p_stack_get_preferred_height s qh ∧
        p_stack_get_preferred_height_for_width s qhw2 width =
          p_stack_get_preferred_height_for_width s qhw width ∧
        p_stack_get_preferred_width s qw2 = p_stack_get_preferred_width s qw ∧
        p_stack_get_preferred_width_for_height s qwh2 height =
          p_stack_get_preferred_width_for_height s qwh height) ∧
    (s.homogeneous = false → s.last_visible_surface = false →
      NonNegative qh → NonNegative qw →
      NonNegative (fun c => qhw c width) → NonNegative (fun c => qwh c height) →
      IsShownRequest s qh (p_stack_get_preferred_height s qh) ∧
      IsShownRequest s (fun c => qhw c width)
        (p_stack_get_preferred_height_for_width s qhw width) ∧
      IsShownRequest s qw (p_stack_get_preferred_width s qw) ∧
      IsShownRequest s (fun c => qwh c height)
        (p_stack_get_preferred_width_for_height s qwh height)) := by
  refine ⟨?_, ?_, ?_⟩
  rotate_left 2
  · intro hh hs n1 n2 n3 n4
    exact ⟨preferred_size_shown s hh hs qh n1 _, preferred_size_shown s hh hs _ n3 _,
      preferred_size_shown s hh hs qw n2 _, preferred_size_shown s hh hs _ n4 _⟩
  · intro hh hs n1 n2 n3 n4
    refine ⟨⟨preferred_size_homogeneous s hh hs qh n1 _,
      preferred_size_homogeneous s hh hs _ n3 _,
      preferred_size_homogeneous s hh hs qw n2 _,
      preferred_size_homogeneous s hh hs _ n4 _⟩, ?_⟩
    intro v l
    exact ⟨preferred_size_homogeneous_indep s hh qh _ v l,
      preferred_size_homogeneous_indep s hh _ _ v l,
      preferred_size_homogeneous_indep s hh qw _ v l,
      preferred_size_homogeneous_indep s hh _ _ v l⟩
  · intro hh qh2 qw2 qhw2 qwh2 a1 a2 a3 a4
    unfold p_stack_get_preferred_height p_stack_get_preferred_height_for_width
      p_stack_get_preferred_width p_stack_get_preferred_width_for_height preferred_size
    simp only
    rw [preferred_size_loop_agree s hh qh qh2 a1, preferred_size_loop_agree s hh qw qw2 a2,
      preferred_size_loop_agree s hh _ _ a3, preferred_size_loop_agree s hh _ _ a4]
    exact ⟨rfl, rfl, rfl, rfl⟩

theorem p_stack_get_preferred_size_spec_witness :
    (visible_children stack_homogeneous = [1, 2] ∧
      p_stack_get_preferred_height stack_homogeneous
        (fun c => (10 * (c : Int), 20 * (c : Int))) = (20, 40) ∧
      IsHomogeneousRequest stack_homogeneous (fun c => (10 * (c : Int), 20 * (c : Int)))
        (p_stack_get_preferred_height stack_homogeneous
          (fun c => (10 * (c : Int), 20 * (c : Int))))) ∧
    (shown_children (stack_mapped 250) = [1] ∧
      p_stack_get_preferred_width (stack_mapped 250)
        (fun c => (10 * (c : Int), 20 * (c : Int))) = (10, 20) ∧
      shown_children (p_stack_set_visible_child (stack_mapped 250) 2) = [1, 2] ∧
      p_stack_get_preferred_width (p_stack_set_visible_child (stack_mapped 250) 2)
        (fun c => (10 * (c : Int), 20 * (c : Int))) = (20, 40) ∧
      IsShownRequest (p_stack_set_visible_child (stack_mapped 250) 2)
        (fun c => (10 * (c : Int), 20 * (c : Int)))
        (p_stack_get_preferred_width (p_stack_set_visible_child (stack_mapped 250) 2)
          (fun c => (10 * (c : Int), 20 * (c : Int))))) :=
  ⟨⟨by decide, by decide,
    ((p_stack_get_preferred_size_spec stack_homogeneous
      (fun c => (10 * (c : Int), 20 * (c : Int))) (fun c => (10 * (c : Int), 20 * (c : Int)))
      (fun c _ => (10 * (c : Int), 20 * (c : Int))) (fun c _ => (10 * (c : Int), 20 * (c : Int)))
      0 0).1 (by decide) (by decide)
      (fun w => ⟨by positivity, by positivity⟩) (fun w => ⟨by positivity, by positivity⟩)
      (fun w => ⟨by positivity, by positivity⟩) (fun w => ⟨by positivity, by positivity⟩)).1.1⟩,
    ⟨by decide, by decide, by decide, by decide,
    ((p_stack_get_preferred_size_spec (p_stack_set_visible_child (stack_mapped 250) 2)
      (fun c => (10 * (c : Int), 20 * (c : Int))) (fun c => (10 * (c : Int), 20 * (c : Int)))
      (fun c _ => (10 * (c : Int), 20 * (c : Int))) (fun c _ => (10 * (c : Int), 20 * (c : Int)))
      0 0).2.2 (by decide) (by decide)
      (fun w => ⟨by positivity, by positivity⟩) (fun w => ⟨by positivity, by positivity⟩)
      (fun w => ⟨by positivity, by positivity⟩)
      (fun w => ⟨by positivity, by positivity⟩)).2.2.1⟩⟩

/-! ### Ticks -/

theorem p_stack_set_transition_position_spec (s : Stack) (pos : ℚ) :
    (p_stack_set_transition_position s pos).1.transition_pos = pos ∧
    (p_stack_set_transition_position s pos).2 = decide (1 ≤ pos) ∧
    (p_stack_set_transition_position s pos).1.tick_id = s.tick_id ∧
    (1 ≤ pos →
      (p_stack_set_transition_position s pos).1.last_visible_child = none ∧
      (p_stack_set_transition_position s pos).1.last_visible_surface = false) := by
  unfold p_stack_set_transition_position
  refine ⟨?_, ?_, ?_, ?_⟩
  · simp only
    split_ifs <;> (try split) <;> (try unfold gtk_widget_set_child_visible) <;> (try split) <;>
      rfl
  · rfl
  · simp only
    split_ifs <;> (try split) <;> (try unfold gtk_widget_set_child_visible) <;> (try split) <;>
      rfl
  · intro h
    simp only [h, decide_True, Bool.true_or, if_true]
    constructor
    · split
      · rfl
      · assumption
    · trivial

/-- C16: a tick of a running transition (`start_time < end_time`) at frame
time `now` sets `transition_pos` to 1 when `now ≥ end_time` or the stack is not
mapped, and to `(now - start_time) / (end_time - start_time)` otherwise, a
value in `[0, 1)` whenever `start_time ≤ now < end_time`; the callback returns
FALSE exactly when the new position is at least 1, and then `tick_id` is 0 and
`last_visible_child` and `last_visible_surface` are cleared; otherwise
`tick_id` is kept. -/
theorem p_stack_transition_cb_spec (s : Stack) (now : Int) (hrun : s.start_time < s.end_time) :
    (s.end_time ≤ now ∨ s.mapped = false → (p_stack_transition_cb s now).1.transition_pos = 1) ∧
    (now < s.end_time ∧ s.mapped = true →
      (p_stack_transition_cb s now).1.transition_pos =
        ((now - s.start_time : Int) : ℚ) / ((s.end_time - s.start_time : Int) : ℚ)) ∧
    (s.start_time ≤ now ∧ now < s.end_time →
      0 ≤ ((now - s.start_time : Int) : ℚ) / ((s.end_time - s.start_time : Int) : ℚ) ∧
      ((now - s.start_time : Int) : ℚ) / ((s.end_time - s.start_time : Int) : ℚ) < 1) ∧
    ((p_stack_transition_cb s now).2 = false ↔
      1 ≤ (p_stack_transition_cb s now).1.transition_pos) ∧
    ((p_stack_transition_cb s now).2 = false →
      (p_stack_transition_cb s now).1.tick_id = 0 ∧
      (p_stack_transition_cb s now).1.last_visible_child = none ∧
      (p_stack_transition_cb s now).1.last_visible_surface = false) ∧
    ((p_stack_transition_cb s now).2 = true →
      (p_stack_transition_cb s now).1.tick_id = s.tick_id) := by
  have hd : (0 : ℚ) < ((s.end_time - s.start_time : Int) : ℚ) := by
    have : (0 : Int) < s.end_time - s.start_time := by omega
    exact_mod_cast this
  -- the position passed to `p_stack_set_transition_position`
  have key : ∀ t : ℚ,
      (if !s.mapped then (1 : ℚ) else
        if now < s.end_time then
          ((now - s.start_time : Int) : ℚ) / ((s.end_time - s.start_time : Int) : ℚ)
        else 1) = t →
      (p_stack_transition_cb s now).1.transition_pos = t ∧
      ((p_stack_transition_cb s now).2 = false ↔ 1 ≤ t) ∧
      ((p_stack_transition_cb s now).2 = false →
        (p_stack_transition_cb s now).1.tick_id = 0 ∧
        (p_stack_transition_cb s now).1.last_visible_child = none ∧
        (p_stack_transition_cb s now).1.last_visible_surface = false) ∧
      ((p_stack_transition_cb s now).2 = true →
        (p_stack_transition_cb s now).1.tick_id = s.tick_id) := by
    intro t ht
    obtain ⟨e1, e2, e3, e4⟩ := p_stack_set_transition_position_spec s t
    unfold p_stack_transition_cb
    simp only [ht]
    by_cases h1 : 1 ≤ t
    · have hdone : (p_stack_set_transition_position s t).2 = true := by
        rw [e2]; exact decide_eq_true h1
      obtain ⟨e5, e6⟩ := e4 h1
      split
      · rename_i s1 heq
        have hs1 : s1 = (p_stack_set_transition_position s t).1 := by rw [heq]
        subst hs1
        refine ⟨e1, ?_, ?_, ?_⟩
        · simp [h1]
        · intro _
          exact ⟨rfl, e5, e6⟩
        · simp
      · rename_i s1 heq
        rw [heq] at hdone
        simp at hdone
    · have hdone : (p_stack_set_transition_position s t).2 = false := by
        rw [e2]; exact decide_eq_false h1
      split
      · rename_i s1 heq
        rw [heq] at hdone
        simp at hdone
      · rename_i s1 heq
        have hs1 : s1 = (p_stack_set_transition_position s t).1 := by rw [heq]
        subst hs1
        refine ⟨e1, ?_, ?_, ?_⟩
        · simp [h1]
        · simp
        · intro _
          exact e3
  have hk := key _ rfl
  refine ⟨?_, ?_, ?_, by rw [hk.1]; exact hk.2.1, hk.2.2.1, hk.2.2.2⟩
  · intro h
    rw [hk.1]
    rcases h with h | h
    · by_cases hm : s.mapped = true
      · simp [hm, not_lt.mpr h]
      · simp [hm]
    · simp [h]
  · rintro ⟨h1, h2⟩
    rw [hk.1]
    simp [h1, h2]
  · rintro ⟨h1, h2⟩
    have hn : (0 : ℚ) ≤ ((now - s.start_time : Int) : ℚ) := by
      exact_mod_cast (sub_nonneg.mpr h1)
    have hlt : ((now - s.start_time : Int) : ℚ) < ((s.end_time - s.start_time : Int) : ℚ) := by
      have : now - s.start_time < s.end_time - s.start_time := by omega
      exact_mod_cast this
    exact ⟨div_nonneg hn hd.le, (div_lt_one hd).mpr hlt⟩

theorem p_stack_transition_cb_spec_witness :
    (p_stack_set_visible_child (stack_mapped 200) 2).start_time <
      (p_stack_set_visible_child (stack_mapped 200) 2).end_time ∧
    (p_stack_transition_cb (p_stack_set_visible_child (stack_mapped 200) 2)
      200000).1.transition_pos = 1 :=
  ⟨by decide,
    (p_stack_transition_cb_spec (p_stack_set_visible_child (stack_mapped 200) 2) 200000
      (by decide)).1 (Or.inl (by decide))⟩

end PStack


/-! ## Theorems about PRevealer -/

namespace PRevealer

set_option maxRecDepth 8000

theorem p_revealer_set_position_fields (s : Revealer) (pos : ℚ) :
    (p_revealer_set_position s pos).current_pos = pos ∧
    (p_revealer_set_position s pos).target_pos = s.target_pos ∧
    (p_revealer_set_position s pos).source_pos = s.source_pos ∧
    (p_revealer_set_position s pos).tick_id = s.tick_id := by
  unfold p_revealer_set_position
  simp only
  split_ifs <;> exact ⟨rfl, rfl, rfl, rfl⟩

theorem ease_out_quad_bounds (u : ℚ) (h0 : 0 ≤ u) (h1 : u ≤ 1) :
    0 ≤ ease_out_quad u 1 ∧ ease_out_quad u 1 ≤ 1 := by
  unfold ease_out_quad
  simp only [div_one]
  constructor <;> nlinarith

theorem lerp_between (a b t : ℚ) (h0 : 0 ≤ t) (h1 : t ≤ 1) :
    min a b ≤ a + t * (b - a) ∧ a + t * (b - a) ≤ max a b := by
  rcases le_total a b with hab | hab
  · rw [min_eq_left hab, max_eq_right hab]
    constructor <;> nlinarith
  · rw [min_eq_right hab, max_eq_left hab]
    constructor <;> nlinarith

/-- The raw interpolation parameter of a tick lies in `[0, 1]` once the frame
time is not earlier than the start time. -/
theorem tick_parameter_bounds (start_time end_time now : Int) (hnow : start_time ≤ now) :
    0 ≤ (if now < end_time then
          ((now - start_time : Int) : ℚ) / ((end_time - start_time : Int) : ℚ) else (1 : ℚ)) ∧
    (if now < end_time then
          ((now - start_time : Int) : ℚ) / ((end_time - start_time : Int) : ℚ) else (1 : ℚ)) ≤ 1 := by
  split_ifs with h
  · have hn : (0 : ℚ) ≤ ((now - start_time : Int) : ℚ) := by
      exact_mod_cast (sub_nonneg.mpr hnow)
    have hd : (0 : ℚ) < ((end_time - start_time : Int) : ℚ) := by
      have : (0 : Int) < end_time - start_time := by omega
      exact_mod_cast this
    have hle : ((now - start_time : Int) : ℚ) ≤ ((end_time - start_time : Int) : ℚ) := by
      have : now - start_time ≤ end_time - start_time := by omega
      exact_mod_cast this
    exact ⟨div_nonneg hn hd.le, (div_le_one hd).mpr hle⟩
  · exact ⟨zero_le_one, le_refl 1⟩

theorem p_revealer_animate_step_fields (s : Revealer) (now : Int) (hnow : s.start_time ≤ now) :
    (min s.source_pos s.target_pos ≤ (p_revealer_animate_step s now).current_pos ∧
      (p_revealer_animate_step s now).current_pos ≤ max s.source_pos s.target_pos) ∧
    (p_revealer_animate_step s now).target_pos = s.target_pos ∧
    (p_revealer_animate_step s now).source_pos = s.source_pos ∧
    (p_revealer_animate_step s now).tick_id = s.tick_id := by
  unfold p_revealer_animate_step
  lift_lets
  intro t0 t
  obtain ⟨h1, h2, h3, h4⟩ :=
    p_revealer_set_position_fields s (s.source_pos + t * (s.target_pos - s.source_pos))
  rw [h1, h2, h3, h4]
  refine ⟨?_, rfl, rfl, rfl⟩
  obtain ⟨hu0, hu1⟩ := tick_parameter_bounds s.start_time s.end_time now hnow
  obtain ⟨ht0, ht1⟩ := ease_out_quad_bounds t0 hu0 hu1
  exact lerp_between s.source_pos s.target_pos t ht0 ht1

theorem PosInv.current_bounds {s : Revealer} (h : PosInv s) :
    0 ≤ s.current_pos ∧ s.current_pos ≤ 1 := by
  obtain ⟨ht, ⟨hs0, hs1⟩, hb1, hb2⟩ := h
  have ht0 : 0 ≤ s.target_pos := by
    rcases ht with e | e
    · rw [e]
    · rw [e]; exact zero_le_one
  have ht1 : s.target_pos ≤ 1 := by
    rcases ht with e | e
    · rw [e]; exact zero_le_one
    · rw [e]
  exact ⟨le_trans (le_min hs0 ht0) hb1, le_trans hb2 (max_le hs1 ht1)⟩

theorem posInv_start_animation {s : Revealer} (h : PosInv s) (target : ℚ)
    (htarget : target = 0 ∨ target = 1) : PosInv (p_revealer_start_animation s target) := by
  unfold p_revealer_start_animation
  split_ifs with h1
  · exact h
  · lift_lets
    intro s1 s2 s3
    split_ifs
    · have hs3 : s3.source_pos = s.current_pos ∧ s3.target_pos = target := by
        show (if s2.tick_id = 0 then _ else s2).source_pos = _ ∧
          (if s2.tick_id = 0 then _ else s2).target_pos = _
        split_ifs
        · exact ⟨rfl, rfl⟩
        · exact ⟨rfl, rfl⟩
      obtain ⟨hb, ht, hs, -⟩ := p_revealer_animate_step_fields s3 s3.start_time (le_refl _)
      refine ⟨?_, ?_, ?_⟩
      · rw [ht, hs3.2]; exact htarget
      · rw [hs, hs3.1]; exact h.current_bounds
      · rw [ht, hs]; exact hb
    · obtain ⟨e1, e2, e3, -⟩ := p_revealer_set_position_fields s1 target
      refine ⟨?_, ?_, ?_⟩
      · rw [e2]; exact htarget
      · rw [e3]; exact h.source
      · rw [e1, e2, e3]; exact ⟨min_le_right _ _, le_max_right _ _⟩

theorem posInv_step {s t : Revealer} (h : PosInv s) (hst : Step s t) : PosInv t := by
  cases hst with
  | set_reveal_child b =>
    unfold p_revealer_set_reveal_child
    split_ifs
    · exact posInv_start_animation h 1 (Or.inr rfl)
    · exact posInv_start_animation h 0 (Or.inl rfl)
  | tick now htick hnow =>
    obtain ⟨hb, ht, hs, -⟩ := p_revealer_animate_step_fields s now hnow
    have hstep : PosInv (p_revealer_animate_step s now) :=
      ⟨by rw [ht]; exact h.target, by rw [hs]; exact h.source, by rw [ht, hs]; exact hb⟩
    unfold p_revealer_animate_cb
    simp only
    split_ifs
    · exact ⟨hstep.target, hstep.source, hstep.between⟩
    · exact hstep
  | map =>
    unfold p_revealer_real_map
    have hs := posInv_start_animation h s.target_pos h.target
    simp only
    split_ifs
    · exact ⟨hs.target, hs.source, hs.between⟩
    · exact ⟨h.target, h.source, h.between⟩
  | unmap =>
    unfold p_revealer_real_unmap p_revealer_stop_animation
    simp only
    split_ifs <;>
      exact ⟨h.target, h.source, ⟨min_le_right _ _, le_max_right _ _⟩⟩
  | set_transition_duration d => exact ⟨h.target, h.source, h.between⟩
  | set_transition_type t => exact ⟨h.target, h.source, h.between⟩
  | add => exact ⟨h.target, h.source, h.between⟩
  | toolkit rtl frame_time => exact ⟨h.target, h.source, h.between⟩

theorem posInv_reachable {s : Revealer} (h : Reachable s) : PosInv s := by
  induction h with
  | init =>
    refine ⟨Or.inl rfl, ⟨le_refl _, zero_le_one⟩, ?_⟩
    show min (0 : ℚ) 0 ≤ 0 ∧ (0 : ℚ) ≤ max 0 0
    simp
  | step s t _ hst ih => exact posInv_step ih hst

/-- C4, failing input: in the reachable state `revealer_concealing` the conceal
transition has just started (`target_pos = 0`, `current_pos = 1`, a tick
callback installed), and after a tick at 100000 the child is partly concealed
(`current_pos = 9 / 25`); in both states the animation target is not reached,
and `p_revealer_get_child_revealed` returns TRUE. -/
theorem p_revealer_get_child_revealed_while_concealing :
    (revealer_concealing.target_pos = 0 ∧ revealer_concealing.current_pos = 1 ∧
      revealer_concealing.tick_id ≠ 0 ∧
      p_revealer_get_child_revealed revealer_concealing = true) ∧
    ((p_revealer_animate_cb revealer_concealing 100000).1.target_pos = 0 ∧
      (p_revealer_animate_cb revealer_concealing 100000).1.current_pos = 9 / 25 ∧
      p_revealer_get_child_revealed (p_revealer_animate_cb revealer_concealing 100000).1 =
        true) := by
  constructor <;>
  norm_num +decide [p_revealer_get_child_revealed, revealer_concealing,
    p_revealer_set_reveal_child, p_revealer_start_animation, p_revealer_animate_cb,
    p_revealer_animate_step, p_revealer_set_position, p_revealer_real_map, p_revealer_init,
    ease_out_quad, effective_transition, p_revealer_get_reveal_child]

/-- The value of `p_revealer_get_child_revealed` in every state: TRUE exactly
when the target is reached and reveal-child is set, or the target is not
reached and reveal-child is unset. -/
theorem p_revealer_get_child_revealed_iff (s : Revealer) :
    p_revealer_get_child_revealed s = true ↔
      (s.target_pos = s.current_pos ∧ s.target_pos ≠ 0) ∨
      (s.target_pos ≠ s.current_pos ∧ s.target_pos = 0) := by
  unfold p_revealer_get_child_revealed p_revealer_get_reveal_child
  by_cases h1 : s.target_pos = s.current_pos <;> by_cases h2 : s.target_pos = 0 <;>
    simp [h1, h2]

/-- C5: in every reachable revealer state (ticks at frame times not earlier
than the start time), `target_pos` is 0 or 1, `current_pos` lies in `[0, 1]`,
and while a tick callback is installed `current_pos` lies between `source_pos`
and `target_pos` inclusive. -/
theorem p_revealer_positions_reachable (s : Revealer) (h : Reachable s) :
    (s.target_pos = 0 ∨ s.target_pos = 1) ∧
    (0 ≤ s.current_pos ∧ s.current_pos ≤ 1) ∧
    (s.tick_id ≠ 0 →
      min s.source_pos s.target_pos ≤ s.current_pos ∧
        s.current_pos ≤ max s.source_pos s.target_pos) :=
  have hinv := posInv_reachable h
  ⟨hinv.target, hinv.current_bounds, fun _ => hinv.between⟩

/-- The state in the middle of a reveal: mapped, reveal requested at frame time
0 with the default duration of 250 ms, one tick at frame time 100000. -/
theorem revealer_revealing_reachable :
    Reachable (p_revealer_animate_cb
      (p_revealer_set_reveal_child (p_revealer_real_map p_revealer_init) true) 100000).1 := by
  refine Reachable.step _ _ (Reachable.step _ _ (Reachable.step _ _ Reachable.init
    (Step.map _)) (Step.set_reveal_child _ true)) (Step.tick _ 100000 ?_ ?_)
  · norm_num +decide [p_revealer_set_reveal_child, p_revealer_start_animation,
      p_revealer_animate_step, p_revealer_set_position, p_revealer_real_map, p_revealer_init,
      ease_out_quad, effective_transition]
  · norm_num +decide [p_revealer_set_reveal_child, p_revealer_start_animation,
      p_revealer_animate_step, p_revealer_set_position, p_revealer_real_map, p_revealer_init,
      ease_out_quad, effective_transition]

theorem p_revealer_positions_reachable_witness :
    ((p_revealer_animate_cb
      (p_revealer_set_reveal_child (p_revealer_real_map p_revealer_init) true)
        100000).1.target_pos = 0 ∨
     (p_revealer_animate_cb
      (p_revealer_set_reveal_child (p_revealer_real_map p_revealer_init) true)
        100000).1.target_pos = 1) ∧
    (p_revealer_animate_cb
      (p_revealer_set_reveal_child (p_revealer_real_map p_revealer_init) true)
        100000).1.current_pos = 16 / 25 :=
  ⟨(p_revealer_positions_reachable _ revealer_revealing_reachable).1, by
    norm_num +decide [p_revealer_set_reveal_child, p_revealer_start_animation,
      p_revealer_animate_cb, p_revealer_animate_step, p_revealer_set_position,
      p_revealer_real_map, p_revealer_init, ease_out_quad, effective_transition]⟩


/-! ### Size requests -/

theorem ease_out_quad_lt_one (u : ℚ) (h1 : u < 1) : ease_out_quad u 1 < 1 := by
  unfold ease_out_quad
  simp only [div_one]
  nlinarith [mul_pos (sub_pos.mpr h1) (sub_pos.mpr h1)]

theorem p_revealer_animate_step_current (s : Revealer) (now : Int) :
    (p_revealer_animate_step s now).current_pos =
      s.source_pos +
        ease_out_quad
          (if now < s.end_time then
            ((now - s.start_time : Int) : ℚ) / ((s.end_time - s.start_time : Int) : ℚ)
          else 1) 1 * (s.target_pos - s.source_pos) ∧
    (p_revealer_animate_step s now).target_pos = s.target_pos ∧
    (p_revealer_animate_step s now).tick_id = s.tick_id := by
  unfold p_revealer_animate_step
  lift_lets
  intro t0 t
  obtain ⟨h1, h2, _, h4⟩ :=
    p_revealer_set_position_fields s (s.source_pos + t * (s.target_pos - s.source_pos))
  exact ⟨h1, h2, h4⟩

/-- C17: a tick at a frame time `now ≥ end_time` sets `current_pos` exactly to
`target_pos`, the callback returns FALSE with `tick_id = 0`, and afterwards
`p_revealer_get_child_revealed` equals `p_revealer_get_reveal_child`; a tick
with `start_time ≤ now < end_time` and `source_pos ≠ target_pos` leaves
`current_pos ≠ target_pos`, returns TRUE and keeps `tick_id`. -/
theorem p_revealer_animate_cb_spec (s : Revealer) (now : Int) :
    (s.end_time ≤ now →
      (p_revealer_animate_cb s now).1.current_pos = s.target_pos ∧
      (p_revealer_animate_cb s now).1.target_pos = s.target_pos ∧
      (p_revealer_animate_cb s now).2 = false ∧
      (p_revealer_animate_cb s now).1.tick_id = 0 ∧
      p_revealer_get_child_revealed (p_revealer_animate_cb s now).1 =
        p_revealer_get_reveal_child (p_revealer_animate_cb s now).1) ∧
    (s.start_time ≤ now ∧ now < s.end_time ∧ s.source_pos ≠ s.target_pos →
      (p_revealer_animate_cb s now).1.current_pos ≠ s.target_pos ∧
      (p_revealer_animate_cb s now).1.target_pos = s.target_pos ∧
      (p_revealer_animate_cb s now).2 = true ∧
      (p_revealer_animate_cb s now).1.tick_id = s.tick_id) := by
  obtain ⟨e1, e2, e3⟩ := p_revealer_animate_step_current s now
  constructor
  · intro h
    have hc : (p_revealer_animate_step s now).current_pos = s.target_pos := by
      rw [e1, if_neg (not_lt.mpr h)]
      unfold ease_out_quad
      ring
    have hfin : (p_revealer_animate_step s now).current_pos =
        (p_revealer_animate_step s now).target_pos := by rw [hc, e2]
    unfold p_revealer_animate_cb
    simp only [if_pos hfin]
    refine ⟨hc, e2, trivial, trivial, ?_⟩
    unfold p_revealer_get_child_revealed
    simp only [hc, e2, decide_True, if_true]
  · rintro ⟨h1, h2, h3⟩
    have hd : (0 : ℚ) < ((s.end_time - s.start_time : Int) : ℚ) := by
      have : (0 : Int) < s.end_time - s.start_time := by omega
      exact_mod_cast this
    have hlt : ((now - s.start_time : Int) : ℚ) / ((s.end_time - s.start_time : Int) : ℚ) < 1 := by
      rw [div_lt_one hd]
      have : now - s.start_time < s.end_time - s.start_time := by omega
      exact_mod_cast this
    have he := ease_out_quad_lt_one _ hlt
    have hc : (p_revealer_animate_step s now).current_pos ≠ s.target_pos := by
      rw [e1, if_pos h2]
      intro heq
      have h0 : (1 - ease_out_quad
          (((now - s.start_time : Int) : ℚ) / ((s.end_time - s.start_time : Int) : ℚ)) 1) *
          (s.target_pos - s.source_pos) = 0 := by linarith
      rcases mul_eq_zero.mp h0 with h0 | h0
      · linarith
      · exact h3 (by linarith)
    have hfin : ¬ (p_revealer_animate_step s now).current_pos =
        (p_revealer_animate_step s now).target_pos := by rw [e2]; exact hc
    unfold p_revealer_animate_cb
    simp only [if_neg hfin]
    exact ⟨hc, e2, trivial, e3⟩

theorem p_revealer_animate_cb_spec_witness :
    (revealer_concealing.end_time ≤ 600000 ∧
      (p_revealer_animate_cb revealer_concealing 600000).1.tick_id = 0) ∧
    ((revealer_concealing.start_time ≤ 100000 ∧ 100000 < revealer_concealing.end_time ∧
        revealer_concealing.source_pos ≠ revealer_concealing.target_pos) ∧
      (p_revealer_animate_cb revealer_concealing 100000).2 = true) :=
  have a : revealer_concealing.end_time ≤ 600000 := by
    norm_num +decide [revealer_concealing, p_revealer_set_reveal_child,
      p_revealer_start_animation, p_revealer_animate_cb, p_revealer_animate_step,
      p_revealer_set_position, p_revealer_real_map, p_revealer_init, effective_transition,
      ease_out_quad]
  have b : revealer_concealing.start_time ≤ 100000 ∧ 100000 < revealer_concealing.end_time ∧
      revealer_concealing.source_pos ≠ revealer_concealing.target_pos := by
    norm_num +decide [revealer_concealing, p_revealer_set_reveal_child,
      p_revealer_start_animation, p_revealer_animate_cb, p_revealer_animate_step,
      p_revealer_set_position, p_revealer_real_map, p_revealer_init, effective_transition,
      ease_out_quad]
  ⟨⟨a, ((p_revealer_animate_cb_spec revealer_concealing 600000).1 a).2.2.2.1⟩,
    ⟨b, ((p_revealer_animate_cb_spec revealer_concealing 100000).2 b).2.2.1⟩⟩

/-! ### Transition duration -/

/-- C13: with the transition duration 4294968 ms an animated transition
started at frame time 0 gets `end_time = 704` in both PStack and PRevealer,
not `1000 * 4294968`: the product `transition_duration * 1000` is computed in
32-bit unsigned arithmetic. -/
theorem transition_end_time_wraps :
    ((PStack.p_stack_set_visible_child (PStack.stack_mapped 4294968) 2).tick_id ≠ 0 ∧
      (PStack.p_stack_set_visible_child (PStack.stack_mapped 4294968) 2).start_time = 0 ∧
      (PStack.p_stack_set_visible_child (PStack.stack_mapped 4294968) 2).end_time = 704) ∧
    ((p_revealer_set_reveal_child (revealer_mapped 4294968) true).tick_id ≠ 0 ∧
      (p_revealer_set_reveal_child (revealer_mapped 4294968) true).start_time = 0 ∧
      (p_revealer_set_reveal_child (revealer_mapped 4294968) true).end_time = 704) ∧
    (704 : Int) ≠ 0 + 1000 * 4294968 := by
  refine ⟨by decide, ?_, by decide⟩
  norm_num +decide [revealer_mapped, p_revealer_set_transition_duration,
    p_revealer_set_reveal_child,
    p_revealer_start_animation, p_revealer_animate_cb, p_revealer_animate_step,
    p_revealer_set_position, p_revealer_real_map, p_revealer_init, effective_transition,
    ease_out_quad]

end PRevealer


/-! ## Theorems about PListBox -/

namespace PListBox

/-! ### The sequence operations -/

theorem g_sequence_insert_sorted_perm (l : List PListBoxChildInfo) (x : PListBoxChildInfo)
    (cmp : PListBoxChildInfo → PListBoxChildInfo → Int) :
    (g_sequence_insert_sorted l x cmp).Perm (x :: l) := by
  induction l with
  | nil => exact List.Perm.refl _
  | cons e rest ih =>
    unfold g_sequence_insert_sorted
    split_ifs
    · exact List.Perm.refl _
    · exact (ih.cons e).trans (List.Perm.swap x e rest)

theorem g_sequence_insert_sorted_pairwise (f : SortFunc) (hf : IsTotalPreorder f)
    (l : List PListBoxChildInfo) (x : PListBoxChildInfo)
    (hl : l.Pairwise (fun a b => f a.widget b.widget ≤ 0)) :
    (g_sequence_insert_sorted l x (do_sort f)).Pairwise (fun a b => f a.widget b.widget ≤ 0) := by
  induction l with
  | nil => exact List.pairwise_singleton _ _
  | cons e rest ih =>
    obtain ⟨he, hrest⟩ := List.pairwise_cons.mp hl
    unfold g_sequence_insert_sorted
    split_ifs with h
    · have hxe : f x.widget e.widget ≤ 0 := hf.antisymm _ _ (le_of_lt h)
      refine List.pairwise_cons.mpr ⟨?_, hl⟩
      intro y hy
      rcases List.mem_cons.mp hy with rfl | hy
      · exact hxe
      · exact hf.trans _ _ _ hxe (he y hy)
    · have hex : f e.widget x.widget ≤ 0 := not_lt.mp h
      refine List.pairwise_cons.mpr ⟨?_, ih hrest⟩
      intro y hy
      have hy' := (g_sequence_insert_sorted_perm rest x (do_sort f)).mem_iff.mp hy
      rcases List.mem_cons.mp hy' with rfl | hy'
      · exact hex
      · exact he y hy'

theorem g_sequence_sort_aux (f : SortFunc) (hf : IsTotalPreorder f)
    (l acc : List PListBoxChildInfo)
    (hacc : acc.Pairwise (fun a b => f a.widget b.widget ≤ 0)) :
    (l.foldl (fun a x => g_sequence_insert_sorted a x (do_sort f)) acc).Pairwise
        (fun a b => f a.widget b.widget ≤ 0) ∧
      (l.foldl (fun a x => g_sequence_insert_sorted a x (do_sort f)) acc).Perm (acc ++ l) := by
  induction l generalizing acc with
  | nil => exact ⟨hacc, by simp⟩
  | cons x rest ih =>
    obtain ⟨h1, h2⟩ := ih (g_sequence_insert_sorted acc x (do_sort f))
      (g_sequence_insert_sorted_pairwise f hf acc x hacc)
    refine ⟨h1, h2.trans ?_⟩
    have hp := g_sequence_insert_sorted_perm acc x (do_sort f)
    refine (hp.append_right rest).trans ?_
    simp only [List.cons_append]
    exact List.perm_middle.symm

theorem g_sequence_sort_sorted (f : SortFunc) (hf : IsTotalPreorder f)
    (l : List PListBoxChildInfo) :
    (g_sequence_sort l (do_sort f)).Pairwise (fun a b => f a.widget b.widget ≤ 0) ∧
      (g_sequence_sort l (do_sort f)).Perm l := by
  have h := g_sequence_sort_aux f hf l [] List.Pairwise.nil
  simpa [g_sequence_sort] using h

theorem g_sequence_remove_rows (l : List PListBoxChildInfo) (w : Widget) :
    (g_sequence_remove l w).map (fun r => r.widget) = (l.map (fun r => r.widget)).erase w := by
  induction l with
  | nil => rfl
  | cons x rest ih =>
    unfold g_sequence_remove
    split_ifs with h
    · simp [h]
    · simp only [List.map_cons]
      rw [List.erase_cons_tail (by simpa using h), ih]

theorem pairwise_agreeOff {w : Widget} {f g : SortFunc} (hfg : AgreeOff w f g)
    {l : List PListBoxChildInfo} (hw : ∀ r ∈ l, r.widget ≠ w)
    (hl : l.Pairwise (fun a b => f a.widget b.widget ≤ 0)) :
    l.Pairwise (fun a b => g a.widget b.widget ≤ 0) := by
  refine hl.imp_of_mem ?_
  intro a b ha hb hab
  rw [hfg _ _ (hw a ha) (hw b hb)]
  exact hab

theorem g_sequence_sort_changed_from_spec (w : Widget) (f g : SortFunc)
    (hg : IsTotalPreorder g) (hfg : AgreeOff w f g)
    (rest before : List PListBoxChildInfo)
    (hbefore : ∀ r ∈ before, r.widget ≠ w)
    (hnodup : ((before ++ rest).map (fun r => r.widget)).Nodup)
    (hsorted : (before ++ rest).Pairwise (fun a b => f a.widget b.widget ≤ 0)) :
    (g_sequence_sort_changed_from before w (do_sort g) rest).Pairwise
        (fun a b => g a.widget b.widget ≤ 0) ∧
      (g_sequence_sort_changed_from before w (do_sort g) rest).Perm (before ++ rest) := by
  induction rest generalizing before with
  | nil =>
    unfold g_sequence_sort_changed_from
    rw [List.append_nil] at hsorted ⊢
    exact ⟨pairwise_agreeOff hfg hbefore hsorted, List.Perm.refl _⟩
  | cons x after ih =>
    unfold g_sequence_sort_changed_from
    split_ifs with hx
    · -- the row is found
      have hafter : ∀ r ∈ after, r.widget ≠ w := by
        intro r hr e
        rw [List.map_append, List.map_cons] at hnodup
        have h2 := (List.nodup_append.mp hnodup).2.1
        have h3 := (List.nodup_cons.mp h2).1
        apply h3
        rw [hx, ← e]
        exact List.mem_map_of_mem _ hr
      have hothers_w : ∀ r ∈ before ++ after, r.widget ≠ w := by
        intro r hr
        rcases List.mem_append.mp hr with h | h
        · exact hbefore r h
        · exact hafter r h
      have hsub : (before ++ after).Sublist (before ++ x :: after) :=
        List.Sublist.append_left (List.sublist_cons_self x after) before
      have hothers : (before ++ after).Pairwise (fun a b => g a.widget b.widget ≤ 0) :=
        pairwise_agreeOff hfg hothers_w (hsorted.sublist hsub)
      obtain ⟨hb, ha, hcross⟩ := List.pairwise_append.mp hothers
      -- it suffices that the row is above all of `before` and below all of `after`
      have key : (∀ b ∈ before, g b.widget x.widget ≤ 0) → (∀ a ∈ after, g x.widget a.widget ≤ 0) →
          (before ++ x :: after).Pairwise (fun a b => g a.widget b.widget ≤ 0) := by
        intro h1 h2
        refine List.pairwise_append.mpr ⟨hb, List.pairwise_cons.mpr ⟨h2, ha⟩, ?_⟩
        intro b hbm c hc
        rcases List.mem_cons.mp hc with rfl | hc
        · exact h1 b hbm
        · exact hcross b hbm c hc
      simp only
      split_ifs with hprev hnext
      · refine ⟨?_, List.Perm.refl _⟩
        cases hlast : before.getLast? with
        | none => rw [hlast] at hprev; simp at hprev
        | some p =>
          rw [hlast] at hprev
          have hpx : g p.widget x.widget = 0 := by simpa [do_sort] using hprev
          have hpm : p ∈ before := List.mem_of_getLast?_eq_some hlast
          have hxp : g x.widget p.widget ≤ 0 := hg.antisymm _ _ (le_of_eq hpx.symm)
          refine key ?_ ?_
          · intro b hbm
            obtain ⟨init, rfl⟩ : ∃ init, before = init ++ [p] := by
              obtain ⟨init, hinit⟩ := List.getLast?_eq_some_iff.mp hlast
              exact ⟨init, hinit⟩
            rcases List.mem_append.mp hbm with hin | hin
            · have := (List.pairwise_append.mp hb).2.2 b hin p (List.mem_singleton_self p)
              exact hg.trans _ _ _ this (le_of_eq hpx)
            · rw [List.mem_singleton.mp hin]; exact le_of_eq hpx
          · intro a ham
            exact hg.trans _ _ _ hxp (hcross p hpm a ham)
      · refine ⟨?_, List.Perm.refl _⟩
        cases hhead : after.head? with
        | none => rw [hhead] at hnext; simp at hnext
        | some n =>
          rw [hhead] at hnext
          have hnx : g n.widget x.widget = 0 := by simpa [do_sort] using hnext
          have hxn : g x.widget n.widget ≤ 0 := hg.antisymm _ _ (le_of_eq hnx.symm)
          obtain ⟨tail, rfl⟩ : ∃ tail, after = n :: tail := by
            cases after with
            | nil => simp at hhead
            | cons a tail => simp at hhead; exact ⟨tail, by rw [hhead]⟩
          refine key ?_ ?_
          · intro b hbm
            exact hg.trans _ _ _ (hcross b hbm n (List.mem_cons_self n tail)) (le_of_eq hnx)
          · intro a ham
            rcases List.mem_cons.mp ham with rfl | ham
            · exact hxn
            · exact hg.trans _ _ _ hxn ((List.pairwise_cons.mp ha).1 a ham)
      · refine ⟨g_sequence_insert_sorted_pairwise g hg _ x hothers, ?_⟩
        exact (g_sequence_insert_sorted_perm _ x _).trans List.perm_middle.symm
    · have hb' : ∀ r ∈ before ++ [x], r.widget ≠ w := by
        intro r hr
        rcases List.mem_append.mp hr with h | h
        · exact hbefore r h
        · rw [List.mem_singleton.mp h]; exact hx
      have e : (before ++ [x]) ++ after = before ++ x :: after := by simp
      have := ih (before ++ [x]) hb' (by rw [e]; exact hnodup) (by rw [e]; exact hsorted)
      rw [e] at this
      exact this

theorem g_sequence_sort_changed_spec (w : Widget) (f g : SortFunc)
    (hg : IsTotalPreorder g) (hfg : AgreeOff w f g) (l : List PListBoxChildInfo)
    (hnodup : (l.map (fun r => r.widget)).Nodup)
    (hsorted : l.Pairwise (fun a b => f a.widget b.widget ≤ 0)) :
    (g_sequence_sort_changed l w (do_sort g)).Pairwise (fun a b => g a.widget b.widget ≤ 0) ∧
      (g_sequence_sort_changed l w (do_sort g)).Perm l := by
  have h := g_sequence_sort_changed_from_spec w f g hg hfg l [] (fun r hr => by cases hr)
    (by simpa using hnodup) (by simpa using hsorted)
  simpa [g_sequence_sort_changed] using h

theorem g_sequence_sort_changed_from_perm (w : Widget)
    (cmp : PListBoxChildInfo → PListBoxChildInfo → Int) (rest before : List PListBoxChildInfo) :
    (g_sequence_sort_changed_from before w cmp rest).Perm (before ++ rest) := by
  induction rest generalizing before with
  | nil => unfold g_sequence_sort_changed_from; simp
  | cons x after ih =>
    unfold g_sequence_sort_changed_from
    simp only
    split_ifs
    · exact List.Perm.refl _
    · exact List.Perm.refl _
    · exact (g_sequence_insert_sorted_perm _ x _).trans List.perm_middle.symm
    · have := ih (before ++ [x])
      simpa using this

/-! ### Operations that leave the order of the rows alone -/

theorem SameRows.refl (s : ListBox) : SameRows s s := ⟨rfl, rfl⟩

theorem SameRows.trans {s t u : ListBox} (h1 : SameRows s t) (h2 : SameRows t u) :
    SameRows s u :=
  ⟨h2.1.trans h1.1, h2.2.trans h1.2⟩

theorem set_separator_rows (l : List PListBoxChildInfo) (w : Widget) (sep : Option Widget) :
    (set_separator l w sep).map (fun r => r.widget) = l.map (fun r => r.widget) := by
  unfold set_separator
  rw [List.map_map]
  refine List.map_congr_left ?_
  intro r _
  simp only [Function.comp]
  split_ifs <;> rfl

theorem p_list_box_update_separator_sameRows (s : ListBox) (iter : Option Widget) :
    SameRows s (p_list_box_update_separator s iter) := by
  unfold p_list_box_update_separator
  split
  · exact SameRows.refl s
  · split
    · exact SameRows.refl s
    · simp only
      split
      · split_ifs
        · split
          · exact ⟨set_separator_rows _ _ _, rfl⟩
          · exact ⟨set_separator_rows _ _ _, rfl⟩
        · exact ⟨set_separator_rows _ _ _, rfl⟩
        · exact ⟨set_separator_rows _ _ _, rfl⟩
      · exact ⟨set_separator_rows _ _ _, rfl⟩

theorem p_list_box_apply_filter_sameRows (s : ListBox) (child : Widget) :
    SameRows s (p_list_box_apply_filter s child) :=
  ⟨rfl, rfl⟩

theorem foldl_sameRows (step : ListBox → Widget → ListBox)
    (hstep : ∀ t w, SameRows t (step t w)) (l : List Widget) (s : ListBox) :
    SameRows s (l.foldl step s) := by
  induction l generalizing s with
  | nil => exact SameRows.refl s
  | cons w rest ih => exact (hstep s w).trans (ih (step s w))

theorem p_list_box_reseparate_sameRows (s : ListBox) : SameRows s (p_list_box_reseparate s) :=
  foldl_sameRows _ (fun t w => p_list_box_update_separator_sameRows t (some w)) _ s

theorem p_list_box_apply_filter_all_sameRows (s : ListBox) :
    SameRows s (p_list_box_apply_filter_all s) :=
  foldl_sameRows _ p_list_box_apply_filter_sameRows _ s

theorem p_list_box_update_selected_sameRows (s : ListBox) (child : Option Widget) :
    SameRows s (p_list_box_update_selected s child) := by
  unfold p_list_box_update_selected p_list_box_update_cursor
  simp only
  split_ifs <;> exact ⟨rfl, rfl⟩

theorem size_allocate_loop_rows (s : ListBox) (width : Int) (l : List PListBoxChildInfo)
    (cy : Int) :
    (size_allocate_loop s width l cy).1.map (fun r => r.widget) = l.map (fun r => r.widget) := by
  induction l generalizing cy with
  | nil => rfl
  | cons x rest ih =>
    unfold size_allocate_loop
    split_ifs
    · simp only [List.map_cons, ih]
    · simp only [List.map_cons, ih]

theorem sortInv_of_sameRows {s t : ListBox} (h : SameRows s t) (hs : SortInv s) : SortInv t := by
  refine ⟨by rw [h.1]; exact hs.nodup, ?_⟩
  intro f hf
  rw [h.2] at hf
  rw [h.1]
  exact hs.sorted f hf

/-! ### The invariant along a run -/

theorem sortInv_init : SortInv p_list_box_init :=
  ⟨List.nodup_nil, fun f hf => by cases hf⟩

theorem p_list_box_lookup_info_some {s : ListBox} {child : Widget} {info : PListBoxChildInfo}
    (h : p_list_box_lookup_info s child = some info) :
    info ∈ s.children ∧ info.widget = child := by
  refine ⟨List.mem_of_find?_eq_some h, ?_⟩
  have := List.find?_some h
  simpa using this

theorem p_list_box_lookup_info_none {s : ListBox} {child : Widget}
    (h : p_list_box_lookup_info s child = none) : child ∉ rows s := by
  intro hm
  obtain ⟨r, hr, hrw⟩ := List.mem_map.mp hm
  have := List.find?_eq_none.mp h r hr
  simp at this
  exact this hrw

/-- The rows after `p_list_box_real_add`: the new row is put in by the sorted
insertion, or appended when there is no sort function. -/
theorem p_list_box_real_add_rows (s : ListBox) (child : Widget) :
    (p_list_box_real_add s child).sort_func = s.sort_func ∧
    rows (p_list_box_real_add s child) =
      match s.sort_func with
      | some f =>
        (g_sequence_insert_sorted s.children
          { widget := child, separator := none, y := 0, height := 0 } (do_sort f)).map
          (fun r => r.widget)
      | none => rows s ++ [child] := by
  unfold p_list_box_real_add
  lift_lets
  intro info s1 s2
  have h1 : s1.sort_func = s.sort_func ∧ rows s1 =
      match s.sort_func with
      | some f => (g_sequence_insert_sorted s.children info (do_sort f)).map (fun r => r.widget)
      | none => rows s ++ [child] := by
    show (match s.sort_func with
      | some f => { s with children := g_sequence_insert_sorted s.children info (do_sort f) }
      | none => { s with children := g_sequence_append s.children info }).sort_func = _ ∧
      rows (match s.sort_func with
      | some f => { s with children := g_sequence_insert_sorted s.children info (do_sort f) }
      | none => { s with children := g_sequence_append s.children info }) = _
    cases s.sort_func with
    | none => exact ⟨rfl, by simp [rows, g_sequence_append, info]⟩
    | some f => exact ⟨rfl, rfl⟩
  have h2 : SameRows s1 s2 := p_list_box_apply_filter_sameRows s1 child
  have h3 : SameRows s1 (if s2.visible = true then
      p_list_box_update_separator (p_list_box_update_separator s2 (some child))
        (p_list_box_get_next_visible (p_list_box_update_separator s2 (some child)) (some child))
      else s2) := by
    split_ifs
    · exact (h2.trans (p_list_box_update_separator_sameRows _ _)).trans
        (p_list_box_update_separator_sameRows _ _)
    · exact h2
  exact ⟨h3.2.trans h1.1, h3.1.trans h1.2⟩

theorem sortInv_add {s : ListBox} (hs : SortInv s) (child : Widget) (hnew : child ∉ rows s) :
    SortInv (p_list_box_real_add s child) ∧
      (rows (p_list_box_real_add s child)).Perm (rows s ++ [child]) := by
  obtain ⟨hsf, hrows⟩ := p_list_box_real_add_rows s child
  have hperm : (rows (p_list_box_real_add s child)).Perm (rows s ++ [child]) := by
    rw [hrows]
    cases s.sort_func with
    | none => exact List.Perm.refl _
    | some f =>
      refine ((g_sequence_insert_sorted_perm _ _ _).map _).trans ?_
      simp only [List.map_cons]
      exact (List.perm_append_singleton child (rows s)).symm
  refine ⟨⟨?_, ?_⟩, hperm⟩
  · refine hperm.nodup_iff.mpr ?_
    exact List.Nodup.append hs.nodup (List.nodup_singleton _) (by simpa using hnew)
  · intro f hf
    rw [hsf] at hf
    obtain ⟨hpre, hsorted⟩ := hs.sorted f hf
    refine ⟨hpre, ?_⟩
    rw [hrows, hf]
    simp only
    rw [List.pairwise_map]
    refine g_sequence_insert_sorted_pairwise f hpre _ _ ?_
    exact List.pairwise_map.mp hsorted

theorem p_list_box_real_remove_rows (s : ListBox) (child : Widget) :
    (p_list_box_real_remove s child).sort_func = s.sort_func ∧
      rows (p_list_box_real_remove s child) = (rows s).erase child := by
  unfold p_list_box_real_remove
  split
  · rename_i hnone
    have hnot := p_list_box_lookup_info_none hnone
    rw [List.erase_of_not_mem hnot]
    split
    · exact ⟨rfl, set_separator_rows _ _ _⟩
    · exact ⟨rfl, rfl⟩
  · rename_i info hsome
    obtain ⟨-, hw⟩ := p_list_box_lookup_info_some hsome
    lift_lets
    intro s1 s2 s3 s4 s5 next s6
    have h1 : SameRows s s1 := by
      show SameRows s (if info.separator ≠ none then _ else s)
      split_ifs
      · exact ⟨set_separator_rows _ _ _, rfl⟩
      · exact SameRows.refl s
    have h2 : SameRows s1 s2 := by
      show SameRows s1 (if some info.widget = s1.selected_child then _ else s1)
      split_ifs
      · exact p_list_box_update_selected_sameRows s1 none
      · exact SameRows.refl s1
    have h3 : SameRows s2 s3 := by
      show SameRows s2 (if some info.widget = s2.prelight_child then _ else s2)
      split_ifs
      · exact ⟨rfl, rfl⟩
      · exact SameRows.refl s2
    have h4 : SameRows s3 s4 := by
      show SameRows s3 (if some info.widget = s3.cursor_child then _ else s3)
      split_ifs
      · exact ⟨rfl, rfl⟩
      · exact SameRows.refl s3
    have h5 : SameRows s4 s5 := by
      show SameRows s4 (if some info.widget = s4.active_child then _ else s4)
      split_ifs
      · exact ⟨rfl, rfl⟩
      · exact SameRows.refl s4
    have h15 := (((h1.trans h2).trans h3).trans h4).trans h5
    have h6 : s6.sort_func = s.sort_func ∧ rows s6 = (rows s).erase child := by
      refine ⟨h15.2, ?_⟩
      show (g_sequence_remove s5.children info.widget).map (fun r => r.widget) = _
      rw [g_sequence_remove_rows, hw]
      have := h15.1
      unfold rows at this
      rw [this]
      rfl
    split_ifs
    · have h7 := p_list_box_update_separator_sameRows s6 next
      exact ⟨h7.2.trans h6.1, h7.1.trans h6.2⟩
    · exact h6

theorem sortInv_remove {s : ListBox} (hs : SortInv s) (child : Widget) :
    SortInv (p_list_box_real_remove s child) := by
  obtain ⟨hsf, hrows⟩ := p_list_box_real_remove_rows s child
  refine ⟨by rw [hrows]; exact hs.nodup.erase _, ?_⟩
  intro f hf
  rw [hsf] at hf
  obtain ⟨hpre, hsorted⟩ := hs.sorted f hf
  refine ⟨hpre, ?_⟩
  rw [hrows]
  exact hsorted.sublist (List.erase_sublist _ _)

theorem p_list_box_child_changed_rows (s : ListBox) (widget : Widget) :
    (p_list_box_child_changed s widget).sort_func = s.sort_func ∧
    rows (p_list_box_child_changed s widget) =
      match s.sort_func, p_list_box_lookup_info s widget with
      | some f, some _ => (g_sequence_sort_changed s.children widget (do_sort f)).map
            (fun r => r.widget)
      | _, _ => rows s := by
  unfold p_list_box_child_changed
  split
  · rename_i hnone
    rw [hnone]
    refine ⟨rfl, ?_⟩
    cases s.sort_func <;> rfl
  · rename_i info hsome
    obtain ⟨-, hw⟩ := p_list_box_lookup_info_some hsome
    rw [hsome]
    lift_lets
    intro prev_next s1 s2
    have h1 : s1.sort_func = s.sort_func ∧ rows s1 =
        match s.sort_func with
        | some f => (g_sequence_sort_changed s.children widget (do_sort f)).map
            (fun r => r.widget)
        | none => rows s := by
      show (match s.sort_func with
        | some f =>
          { s with children := g_sequence_sort_changed s.children info.widget (do_sort f) }
        | none => s).sort_func = _ ∧
        rows (match s.sort_func with
        | some f =>
          { s with children := g_sequence_sort_changed s.children info.widget (do_sort f) }
        | none => s) = _
      rw [hw]
      cases hsf' : s.sort_func with
      | none => exact ⟨hsf', rfl⟩
      | some f => exact ⟨rfl, rfl⟩
    have h2 : SameRows s1 s2 := p_list_box_apply_filter_sameRows s1 info.widget
    have h3 : SameRows s1 (if s2.visible = true then
        p_list_box_update_separator
          (p_list_box_update_separator (p_list_box_update_separator s2 (some info.widget))
            (p_list_box_get_next_visible s2 (some info.widget))) prev_next
        else s2) := by
      split_ifs
      · exact ((h2.trans (p_list_box_update_separator_sameRows _ _)).trans
          (p_list_box_update_separator_sameRows _ _)).trans
          (p_list_box_update_separator_sameRows _ _)
      · exact h2
    refine ⟨h3.2.trans h1.1, h3.1.trans ?_⟩
    rw [h1.2]
    cases s.sort_func <;> rfl

theorem sortInv_child_changed {s : ListBox} (hs : SortInv s) (w : Widget) (g : SortFunc)
    (hkey : ∀ f, s.sort_func = some f → IsTotalPreorder g ∧ AgreeOff w f g) :
    SortInv (p_list_box_child_changed (rekey s g) w) ∧
      (rows (p_list_box_child_changed (rekey s g) w)).Perm (rows s) := by
  obtain ⟨hsf, hrows⟩ := p_list_box_child_changed_rows (rekey s g) w
  have hrk : rows (rekey s g) = rows s := rfl
  have hch : (rekey s g).children = s.children := rfl
  have hlk : p_list_box_lookup_info (rekey s g) w = p_list_box_lookup_info s w := rfl
  cases hf : s.sort_func with
  | none =>
    have hnone : (rekey s g).sort_func = none := by simp [rekey, hf]
    rw [hnone] at hrows hsf
    have hr : rows (p_list_box_child_changed (rekey s g) w) = rows s := by
      rw [hrows]
      cases p_list_box_lookup_info (rekey s g) w <;> rfl
    refine ⟨⟨by rw [hr]; exact hs.nodup, ?_⟩, by rw [hr]⟩
    intro f' hf'
    rw [hsf] at hf'
    cases hf'
  | some f =>
    obtain ⟨hg, hfg⟩ := hkey f hf
    obtain ⟨-, hsorted⟩ := hs.sorted f hf
    have hsome : (rekey s g).sort_func = some g := by simp [rekey, hf]
    rw [hsome] at hrows hsf
    cases hl : p_list_box_lookup_info s w with
    | none =>
      rw [hlk, hl] at hrows
      have hr : rows (p_list_box_child_changed (rekey s g) w) = rows s := hrows
      have hnot := p_list_box_lookup_info_none hl
      refine ⟨⟨by rw [hr]; exact hs.nodup, ?_⟩, by rw [hr]⟩
      intro f' hf'
      rw [hsf] at hf'
      cases hf'
      refine ⟨hg, ?_⟩
      rw [hr]
      refine hsorted.imp_of_mem ?_
      intro a b ha hb hab
      rw [hfg a b (fun e => hnot (e ▸ ha)) (fun e => hnot (e ▸ hb))]
      exact hab
    | some info =>
      rw [hlk, hl, hch] at hrows
      obtain ⟨hp1, hp2⟩ := g_sequence_sort_changed_spec w f g hg hfg s.children hs.nodup
        (List.pairwise_map.mp hsorted)
      have hperm : (rows (p_list_box_child_changed (rekey s g) w)).Perm (rows s) := by
        rw [hrows]
        exact hp2.map _
      refine ⟨⟨hperm.nodup_iff.mpr hs.nodup, ?_⟩, hperm⟩
      intro f' hf'
      rw [hsf] at hf'
      cases hf'
      refine ⟨hg, ?_⟩
      rw [hrows]
      exact List.pairwise_map.mpr hp1

theorem sortInv_set_sort_func {s : ListBox} (hs : SortInv s) (f : SortFunc)
    (hf : IsTotalPreorder f) :
    SortInv (p_list_box_set_sort_func s f) ∧
      (rows (p_list_box_set_sort_func s f)).Perm (rows s) := by
  unfold p_list_box_set_sort_func p_list_box_resort
  simp only
  obtain ⟨h1, h2⟩ := g_sequence_sort_sorted f hf s.children
  have hsame := p_list_box_reseparate_sameRows
    { s with sort_func := some f, children := g_sequence_sort s.children (do_sort f) }
  have hperm : (rows (p_list_box_reseparate
      { s with sort_func := some f, children := g_sequence_sort s.children (do_sort f) })).Perm
      (rows s) := by
    rw [hsame.1]
    exact h2.map _
  refine ⟨⟨hperm.nodup_iff.mpr hs.nodup, ?_⟩, hperm⟩
  intro f' hf'
  rw [hsame.2] at hf'
  cases hf'
  refine ⟨hf, ?_⟩
  rw [hsame.1]
  exact List.pairwise_map.mpr h1

theorem child_visibility_changed_sameRows (s : ListBox) (w : Widget) :
    SameRows s (child_visibility_changed s w) := by
  unfold child_visibility_changed
  split_ifs
  · split
    · exact (p_list_box_update_separator_sameRows _ _).trans
        (p_list_box_update_separator_sameRows _ _)
    · exact SameRows.refl s
  · exact SameRows.refl s

theorem gtk_widget_set_visible_sameRows (s : ListBox) (w : Widget) (b : Bool) :
    SameRows s (gtk_widget_set_visible s w b) := by
  unfold gtk_widget_set_visible
  split_ifs
  · exact SameRows.refl s
  · exact SameRows.trans ⟨rfl, rfl⟩ (child_visibility_changed_sameRows _ w)
  · exact ⟨rfl, rfl⟩

theorem sortInv_run {s : ListBox} {added : List Widget} (h : Run s added) :
    SortInv s ∧ (rows s).Perm added := by
  induction h with
  | init => exact ⟨sortInv_init, List.Perm.refl _⟩
  | add s added child _ hnew ih =>
    obtain ⟨h1, h2⟩ := sortInv_add ih.1 child hnew
    exact ⟨h1, h2.trans (ih.2.append_right [child])⟩
  | remove s added child _ ih =>
    refine ⟨sortInv_remove ih.1 child, ?_⟩
    rw [(p_list_box_real_remove_rows s child).2]
    exact ih.2.erase child
  | child_changed s added w g _ hkey ih =>
    obtain ⟨h1, h2⟩ := sortInv_child_changed ih.1 w g hkey
    exact ⟨h1, h2.trans ih.2⟩
  | set_sort_func s added f _ hf ih =>
    obtain ⟨h1, h2⟩ := sortInv_set_sort_func ih.1 f hf
    exact ⟨h1, h2.trans ih.2⟩
  | set_filter_func s added f _ ih =>
    have hsame : SameRows s (p_list_box_set_filter_func s f) :=
      (SameRows.trans (t := { s with filter_func := f }) ⟨rfl, rfl⟩
        (p_list_box_apply_filter_all_sameRows _)).trans (p_list_box_reseparate_sameRows _)
    exact ⟨sortInv_of_sameRows hsame ih.1, by rw [hsame.1]; exact ih.2⟩
  | set_separator_funcs s added f _ ih =>
    have hsame : SameRows s (p_list_box_set_separator_funcs s f) :=
      SameRows.trans (t := { s with update_separator_func := f }) ⟨rfl, rfl⟩
        (p_list_box_reseparate_sameRows _)
    exact ⟨sortInv_of_sameRows hsame ih.1, by rw [hsame.1]; exact ih.2⟩
  | show_hide s added w b _ ih =>
    have hsame := gtk_widget_set_visible_sameRows s w b
    exact ⟨sortInv_of_sameRows hsame ih.1, by rw [hsame.1]; exact ih.2⟩
  | size_allocate s added width _ ih =>
    have hsame : SameRows s (p_list_box_real_size_allocate s width).1 :=
      ⟨size_allocate_loop_rows s width s.children 0, rfl⟩
    exact ⟨sortInv_of_sameRows hsame ih.1, by rw [hsame.1]; exact ih.2⟩
  | toolkit s added visible focus_width focus_pad min_height_for_width _ ih =>
    exact ⟨sortInv_of_sameRows (s := s) ⟨rfl, rfl⟩ ih.1, ih.2⟩

/-- C6: along every run in which the installed sort functions are comparisons
of a total preorder and sort keys change only right before
`p_list_box_child_changed` for the row, the rows are a permutation of the rows
added and not yet removed, every adjacent pair `a, b` of rows satisfies
`sort_func (a, b) ≤ 0` whenever a sort function is installed, and without a
sort function `p_list_box_real_add` appends the new row at the end. -/
theorem p_list_box_rows_sorted_perm (s : ListBox) (added : List Widget) (h : Run s added) :
    (rows s).Perm added ∧
    (∀ f, s.sort_func = some f → List.Chain' (fun a b => f a b ≤ 0) (rows s)) ∧
    (s.sort_func = none → ∀ child, rows (p_list_box_real_add s child) = rows s ++ [child]) := by
  obtain ⟨hinv, hperm⟩ := sortInv_run h
  refine ⟨hperm, ?_, ?_⟩
  · intro f hf
    exact List.Pairwise.chain' (hinv.sorted f hf).2
  · intro hnone child
    have := (p_list_box_real_add_rows s child).2
    rw [hnone] at this
    exact this

theorem by_number_isTotalPreorder : IsTotalPreorder by_number :=
  ⟨fun a b h => by unfold by_number at h ⊢; omega,
   fun a b c h1 h2 => by unfold by_number at h1 h2 ⊢; omega⟩

theorem list_box_sorted_run : Run list_box_sorted [3, 1, 2] := by
  have h0 := Run.set_sort_func _ _ by_number Run.init by_number_isTotalPreorder
  have h1 := Run.add _ _ 3 h0 (by decide)
  have h2 := Run.add _ _ 1 h1 (by decide)
  exact Run.add _ _ 2 h2 (by decide)

theorem p_list_box_rows_sorted_perm_witness :
    rows list_box_sorted = [1, 2, 3] ∧
    (rows list_box_sorted).Perm [3, 1, 2] ∧
    (∀ f, list_box_sorted.sort_func = some f →
      List.Chain' (fun a b => f a b ≤ 0) (rows list_box_sorted)) :=
  ⟨by decide, (p_list_box_rows_sorted_perm list_box_sorted [3, 1, 2] list_box_sorted_run).1,
    (p_list_box_rows_sorted_perm list_box_sorted [3, 1, 2] list_box_sorted_run).2.1⟩

/-! ### Rows by coordinate -/

theorem find_child_at_y_loop_eq_find (y : Int) (l : List PListBoxChildInfo) :
    find_child_at_y_loop y l = l.find? (fun r => decide (r.y ≤ y ∧ y < r.y + r.height)) := by
  induction l with
  | nil => rfl
  | cons x rest ih =>
    unfold find_child_at_y_loop
    rw [List.find?_cons]
    by_cases h : x.y ≤ y ∧ y < x.y + x.height
    · have h' : y ≥ x.y ∧ y < x.y + x.height := h
      simp [h, h']
    · have h' : ¬ (y ≥ x.y ∧ y < x.y + x.height) := h
      simp only [h', if_false, h, decide_False]
      exact ih

theorem size_allocate_loop_hidden (s : ListBox) (width : Int) (l : List PListBoxChildInfo)
    (cy : Int) :
    ∀ r ∈ (size_allocate_loop s width l cy).1, child_is_visible s r.widget = false →
      r.height = 0 := by
  induction l generalizing cy with
  | nil => intro r hr; cases hr
  | cons x rest ih =>
    unfold size_allocate_loop
    split_ifs with hx
    · intro r hr hv
      rcases List.mem_cons.mp hr with rfl | hr
      · rfl
      · exact ih cy r hr hv
    · intro r hr hv
      rcases List.mem_cons.mp hr with rfl | hr
      · simp only [Bool.not_eq_true', Bool.not_eq_false] at hx
        rw [hx] at hv
        cases hv
      · exact ih _ r hr hv

/-- The extents recorded by the allocation loop started at `cy`: rows and
separators lie at or below `cy`, have non-negative heights, and no separator
overlaps a row. -/
theorem size_allocate_loop_layout (s : ListBox) (width : Int)
    (hfocus : 0 ≤ s.focus_width + s.focus_pad)
    (hmin : ∀ w x, 0 ≤ s.min_height_for_width w x)
    (l : List PListBoxChildInfo) (cy : Int) :
    (∀ r ∈ (size_allocate_loop s width l cy).1, cy ≤ r.y ∧ 0 ≤ r.height) ∧
    (∀ a ∈ (size_allocate_loop s width l cy).2, cy ≤ a.y ∧ 0 ≤ a.height) ∧
    (∀ a ∈ (size_allocate_loop s width l cy).2, ∀ r ∈ (size_allocate_loop s width l cy).1,
      r.y + r.height ≤ a.y ∨ a.y + a.height ≤ r.y) := by
  induction l generalizing cy with
  | nil =>
    refine ⟨?_, ?_, ?_⟩
    · intro r hr; cases hr
    · intro a ha; cases ha
    · intro a ha; cases ha
  | cons x rest ih =>
    unfold size_allocate_loop
    split_ifs with hx
    · obtain ⟨h1, h2, h3⟩ := ih cy
      refine ⟨?_, h2, ?_⟩
      · intro r hr
        rcases List.mem_cons.mp hr with rfl | hr
        · exact ⟨le_refl _, le_refl _⟩
        · exact h1 r hr
      · intro a ha r hr
        rcases List.mem_cons.mp hr with rfl | hr
        · left
          have := (h2 a ha).1
          simpa using this
        · exact h3 a ha r hr
    · lift_lets
      intro child_width sep_min seps cy1 child_min r0
      have hsep : 0 ≤ sep_min := by
        show (0 : Int) ≤ (match x.separator with
          | some sep => s.min_height_for_width sep width
          | none => (0 : Int))
        split
        · exact hmin _ _
        · exact le_refl _
      have hchild : 0 ≤ child_min := hmin _ _
      have hseps : ∀ a ∈ seps, a.y = cy ∧ a.height = sep_min := by
        intro a ha
        have ha' : a ∈ (match x.separator with
          | some sep => [({ widget := sep, y := cy, height := sep_min } : Allocated)]
          | none => []) := ha
        split at ha'
        · rw [List.mem_singleton.mp ha']
          exact ⟨rfl, rfl⟩
        · cases ha'
      obtain ⟨h1, h2, h3⟩ := ih
        (cy1 + (s.focus_width + s.focus_pad) + (child_min + s.focus_width + s.focus_pad))
      have hcy1 : cy1 = cy + sep_min := rfl
      refine ⟨?_, ?_, ?_⟩
      · intro r hr
        rcases List.mem_cons.mp hr with rfl | hr
        · simp only
          constructor <;> omega
        · have := h1 r hr
          constructor <;> omega
      · intro a ha
        rcases List.mem_append.mp ha with ha | ha
        · obtain ⟨e1, e2⟩ := hseps a ha
          constructor <;> omega
        · have := h2 a ha
          constructor <;> omega
      · intro a ha r hr
        rcases List.mem_append.mp ha with ha | ha
        · obtain ⟨e1, e2⟩ := hseps a ha
          right
          rcases List.mem_cons.mp hr with rfl | hr
          · simp only
            omega
          · have := h1 r hr
            omega
        · rcases List.mem_cons.mp hr with rfl | hr
          · left
            have := h2 a ha
            simp only
            omega
          · exact h3 a ha r hr

/-- C7: `p_list_box_get_child_at_y` returns the widget of the first row in
sequence order whose recorded extent contains `y`, and NULL when there is
none; after a size allocation a row that is hidden or filtered out has height
0 and is never returned; and, the style metrics and requested heights being
non-negative, a `y` inside the allocation of a separator returns NULL. -/
theorem p_list_box_get_child_at_y_spec (s : ListBox) (width : Int)
    (hnodup : (rows s).Nodup)
    (hfocus : 0 ≤ s.focus_width + s.focus_pad)
    (hmin : ∀ w x, 0 ≤ s.min_height_for_width w x) :
    (∀ (t : ListBox) (y : Int), p_list_box_get_child_at_y t y =
      (t.children.find? (fun r => decide (r.y ≤ y ∧ y < r.y + r.height))).map
        (fun r => r.widget)) ∧
    (∀ r ∈ (p_list_box_real_size_allocate s width).1.children,
      child_is_visible s r.widget = false →
        r.height = 0 ∧
        ∀ y, p_list_box_get_child_at_y (p_list_box_real_size_allocate s width).1 y ≠
          some r.widget) ∧
    (∀ a ∈ (p_list_box_real_size_allocate s width).2, ∀ y, a.y ≤ y → y < a.y + a.height →
      p_list_box_get_child_at_y (p_list_box_real_size_allocate s width).1 y = none) := by
  have hget : ∀ (t : ListBox) (y : Int), p_list_box_get_child_at_y t y =
      (t.children.find? (fun r => decide (r.y ≤ y ∧ y < r.y + r.height))).map
        (fun r => r.widget) := by
    intro t y
    unfold p_list_box_get_child_at_y p_list_box_find_child_at_y
    rw [find_child_at_y_loop_eq_find]
    cases List.find? _ t.children <;> rfl
  refine ⟨hget, ?_, ?_⟩
  · intro r hr hv
    have hzero := size_allocate_loop_hidden s width s.children 0 r hr hv
    refine ⟨hzero, ?_⟩
    intro y hy
    rw [hget] at hy
    obtain ⟨r0, hfind, hw⟩ := Option.map_eq_some'.mp hy
    have hr0 : r0 ∈ (p_list_box_real_size_allocate s width).1.children :=
      List.mem_of_find?_eq_some hfind
    have hnd : ((p_list_box_real_size_allocate s width).1.children.map
        (fun r => r.widget)).Nodup := by
      show ((size_allocate_loop s width s.children 0).1.map (fun r => r.widget)).Nodup
      rw [size_allocate_loop_rows]
      exact hnodup
    have heq : r0 = r := List.inj_on_of_nodup_map hnd hr0 hr hw
    have hext := List.find?_some hfind
    simp only [decide_eq_true_eq] at hext
    rw [heq, hzero] at hext
    omega
  · intro a ha y hy1 hy2
    rw [hget]
    obtain ⟨-, -, h3⟩ := size_allocate_loop_layout s width hfocus hmin s.children 0
    have hnone : (p_list_box_real_size_allocate s width).1.children.find?
        (fun r => decide (r.y ≤ y ∧ y < r.y + r.height)) = none := by
      rw [List.find?_eq_none]
      intro r hr
      have := h3 a ha r hr
      simp only [decide_eq_true_eq, not_and, not_lt]
      intro h
      omega
    rw [hnone]
    rfl

theorem p_list_box_get_child_at_y_spec_witness :
    list_box_allocated.2 = [{ widget := 101, y := 0, height := 5 },
      { widget := 103, y := 19, height := 5 }] ∧
    p_list_box_get_child_at_y list_box_allocated.1 5 = some 1 ∧
    p_list_box_get_child_at_y list_box_allocated.1 19 = none ∧
    (∀ a ∈ list_box_allocated.2, ∀ y, a.y ≤ y → y < a.y + a.height →
      p_list_box_get_child_at_y list_box_allocated.1 y = none) :=
  ⟨by decide, by decide, by decide,
    (p_list_box_get_child_at_y_spec
      (p_list_box_set_separator_funcs
        { gtk_widget_set_visible (gtk_widget_set_visible list_box_sorted 1 true) 3 true with
          visible := true
          min_height_for_width := fun w _ => if w < 100 then 10 * (w : Int) else 5 }
        (some (fun _ child _ => some (100 + child))))
      200 (by decide) (by decide)
      (fun w _ => by
        show 0 ≤ (if w < 100 then 10 * (w : Int) else 5)
        split_ifs <;> omega)).2.2⟩


/-! ### Visible rows, separators and the cursor -/

theorem find_some_split {α : Type} (p : α → Bool) :
    ∀ (l : List α) (r : α), l.find? p = some r →
      ∃ pre post, l = pre ++ r :: post ∧ p r = true ∧ ∀ x ∈ pre, p x = false
  | [], r, h => by simp at h
  | x :: l, r, h => by
    by_cases hx : p x = true
    · rw [List.find?_cons_of_pos _ hx] at h
      cases h
      exact ⟨[], l, rfl, hx, fun y hy => absurd hy (List.not_mem_nil y)⟩
    · rw [List.find?_cons_of_neg _ hx] at h
      obtain ⟨pre, post, h1, h2, h3⟩ := find_some_split p l r h
      refine ⟨x :: pre, post, by rw [h1]; rfl, h2, ?_⟩
      intro y hy
      rcases List.mem_cons.mp hy with hy | hy
      · rw [hy]; simpa using hx
      · exact h3 y hy

theorem find_none_all {α : Type} (p : α → Bool) :
    ∀ (l : List α), l.find? p = none → ∀ x ∈ l, p x = false
  | [], _, x, hx => absurd hx (List.not_mem_nil x)
  | y :: l, h, x, hx => by
    by_cases hy : p y = true
    · rw [List.find?_cons_of_pos _ hy] at h
      cases h
    · rw [List.find?_cons_of_neg _ hy] at h
      rcases List.mem_cons.mp hx with hx | hx
      · rw [hx]; simpa using hy
      · exact find_none_all p l h x hx

theorem find_exists_some {α : Type} (p : α → Bool) (l : List α)
    (h : ∃ x ∈ l, p x = true) : ∃ r, l.find? p = some r := by
  cases hf : l.find? p with
  | some r => exact ⟨r, rfl⟩
  | none =>
    obtain ⟨x, hx, hp⟩ := h
    have := find_none_all p l hf x hx
    rw [this] at hp
    cases hp

theorem rows_before_append (w : Widget) (post : List PListBoxChildInfo)
    (info : PListBoxChildInfo) (hw : info.widget = w) :
    ∀ (pre passed : List PListBoxChildInfo), (∀ r ∈ pre, r.widget ≠ w) →
      rows_before w passed (pre ++ info :: post) = pre.reverse ++ passed
  | [], passed, _ => by
    simp [rows_before, hw]
  | x :: pre, passed, h => by
    have hx : x.widget ≠ w := h x (List.mem_cons_self x pre)
    have ih := rows_before_append w post info hw pre (x :: passed)
      (fun r hr => h r (List.mem_cons_of_mem x hr))
    show rows_before w passed (x :: (pre ++ info :: post)) = (x :: pre).reverse ++ passed
    rw [List.reverse_cons, List.append_assoc, List.singleton_append, ← ih]
    simp only [rows_before, if_neg hx]

theorem lookup_info_append (s : ListBox) (pre post : List PListBoxChildInfo)
    (info : PListBoxChildInfo) (hrows : s.children = pre ++ info :: post)
    (hfirst : ∀ r ∈ pre, r.widget ≠ info.widget) :
    p_list_box_lookup_info s info.widget = some info := by
  unfold p_list_box_lookup_info
  rw [hrows]
  clear hrows
  induction pre with
  | nil => simp
  | cons x pre ih =>
    have hx : x.widget ≠ info.widget := hfirst x (List.mem_cons_self x pre)
    rw [List.cons_append, List.find?_cons_of_neg _ (by simpa using hx)]
    exact ih (fun r hr => hfirst r (List.mem_cons_of_mem x hr))

theorem previous_visible_spec (s : ListBox) (pre post : List PListBoxChildInfo)
    (info : PListBoxChildInfo) (hrows : s.children = pre ++ info :: post)
    (hfirst : ∀ r ∈ pre, r.widget ≠ info.widget) :
    (p_list_box_get_previous_visible s info.widget = none →
      ∀ r ∈ pre, child_is_visible s r.widget = false) ∧
    (∀ b, p_list_box_get_previous_visible s info.widget = some b →
      ∃ p1 rb p2, pre = p1 ++ rb :: p2 ∧ rb.widget = b ∧
        child_is_visible s rb.widget = true ∧
        ∀ r ∈ p2, child_is_visible s r.widget = false) := by
  unfold p_list_box_get_previous_visible
  rw [hrows, rows_before_append info.widget post info rfl pre [] hfirst, List.append_nil]
  constructor
  · intro h
    rw [Option.map_eq_none'] at h
    intro r hr
    exact find_none_all _ _ h r (List.mem_reverse.mpr hr)
  · intro b h
    rw [Option.map_eq_some'] at h
    obtain ⟨rb, h1, h2⟩ := h
    obtain ⟨a, c, e1, e2, e3⟩ := find_some_split _ _ _ h1
    refine ⟨c.reverse, rb, a.reverse, ?_, h2, e2, ?_⟩
    · have := congrArg List.reverse e1
      rw [List.reverse_reverse] at this
      rw [this]
      simp
    · intro r hr
      exact e3 r (List.mem_reverse.mp hr)

/-- C18: for a row `info` of the list box (the rows `pre` precede it),
`p_list_box_update_separator` on a visible row with a separator function set
calls the function with the row's widget and, as the before argument, the
widget of the nearest preceding visible row (NULL only if no preceding row is
visible), and stores the result as the row's separator; for a row that is not
visible, or without a separator function, no call is made and the row's
separator becomes NULL. -/
theorem p_list_box_update_separator_spec (s : ListBox) (pre post : List PListBoxChildInfo)
    (info : PListBoxChildInfo) (hrows : s.children = pre ++ info :: post)
    (hfirst : ∀ r ∈ pre, r.widget ≠ info.widget) :
    (∀ f, s.update_separator_func = some f → child_is_visible s info.widget = true →
      ∃ before_child,
        update_separator_call s (some info.widget) =
          some (info.separator, info.widget, before_child) ∧
        (p_list_box_update_separator s (some info.widget)).children =
          set_separator s.children info.widget (f info.separator info.widget before_child) ∧
        (before_child = none → ∀ r ∈ pre, child_is_visible s r.widget = false) ∧
        (∀ b, before_child = some b →
          ∃ p1 rb p2, pre = p1 ++ rb :: p2 ∧ rb.widget = b ∧
            child_is_visible s rb.widget = true ∧
            ∀ r ∈ p2, child_is_visible s r.widget = false)) ∧
    (s.update_separator_func = none ∨ child_is_visible s info.widget = false →
      update_separator_call s (some info.widget) = none ∧
      (p_list_box_update_separator s (some info.widget)).children =
        set_separator s.children info.widget none ∧
      ∀ r ∈ (p_list_box_update_separator s (some info.widget)).children,
        r.widget = info.widget → r.separator = none) := by
  have hl := lookup_info_append s pre post info hrows hfirst
  obtain ⟨hp1, hp2⟩ := previous_visible_spec s pre post info hrows hfirst
  constructor
  · intro f hf hv
    refine ⟨p_list_box_get_previous_visible s info.widget, ?_, ?_, hp1, hp2⟩
    · unfold update_separator_call
      simp only [hl, hf, hv, if_true]
    · unfold p_list_box_update_separator
      simp only [hl, hf, hv, if_true]
      split_ifs
      · split <;> rfl
      · rfl
  · intro h
    have hc : (p_list_box_update_separator s (some info.widget)).children =
        set_separator s.children info.widget none := by
      unfold p_list_box_update_separator
      simp only [hl]
      rcases h with h | h
      · simp only [h]
      · cases hf : s.update_separator_func with
        | none => rfl
        | some f => simp [h]
    refine ⟨?_, hc, ?_⟩
    · unfold update_separator_call
      simp only [hl]
      rcases h with h | h
      · simp only [h]
      · cases hf : s.update_separator_func with
        | none => rfl
        | some f => simp [h]
    · intro r hr hw
      rw [hc] at hr
      unfold set_separator at hr
      obtain ⟨r0, _, h2⟩ := List.mem_map.mp hr
      by_cases h0 : r0.widget = info.widget
      · rw [if_pos h0] at h2
        rw [← h2]
      · rw [if_neg h0] at h2
        rw [← h2] at hw
        exact absurd hw h0

theorem p_list_box_update_separator_spec_witness :
    list_box_allocated.1.children =
      [{ widget := 1, separator := some 101, y := 5, height := 14 },
        { widget := 2, separator := none, y := 19, height := 0 }] ++
      { widget := 3, separator := some 103, y := 24, height := 34 } :: [] ∧
    update_separator_call list_box_allocated.1 (some 3) = some (some 103, 3, some 1) ∧
    update_separator_call list_box_allocated.1 (some 2) = none ∧
    ∃ before_child,
      update_separator_call list_box_allocated.1 (some 3) = some (some 103, 3, before_child) ∧
      (p_list_box_update_separator list_box_allocated.1 (some 3)).children =
        set_separator list_box_allocated.1.children 3 (some (100 + 3)) :=
  ⟨by decide, by decide, by decide,
    match (p_list_box_update_separator_spec list_box_allocated.1
      [{ widget := 1, separator := some 101, y := 5, height := 14 },
        { widget := 2, separator := none, y := 19, height := 0 }] []
      { widget := 3, separator := some 103, y := 24, height := 34 }
      (by decide) (by decide)).1 (fun _ child _ => some (100 + child)) rfl (by decide) with
    | ⟨b, h1, h2, _, _⟩ => ⟨b, h1, h2⟩⟩

/-! ### Home and End -/

theorem get_first_visible_spec (s : ListBox)
    (hvis : ∃ r ∈ s.children, child_is_visible s r.widget = true) :
    ∃ pre r post, s.children = pre ++ r :: post ∧ child_is_visible s r.widget = true ∧
      (∀ x ∈ pre, child_is_visible s x.widget = false) ∧
      p_list_box_get_first_visible s = some r.widget := by
  obtain ⟨r, hr⟩ := find_exists_some (fun r => child_is_visible s r.widget) s.children hvis
  obtain ⟨pre, post, h1, h2, h3⟩ := find_some_split _ _ _ hr
  refine ⟨pre, r, post, h1, h2, h3, ?_⟩
  unfold p_list_box_get_first_visible
  rw [hr]
  rfl

theorem get_last_visible_spec (s : ListBox)
    (hvis : ∃ r ∈ s.children, child_is_visible s r.widget = true) :
    ∃ pre r post, s.children = pre ++ r :: post ∧ child_is_visible s r.widget = true ∧
      (∀ x ∈ post, child_is_visible s x.widget = false) ∧
      p_list_box_get_last_visible s = some r.widget := by
  have hvis2 : ∃ r ∈ s.children.reverse, child_is_visible s r.widget = true := by
    obtain ⟨r, h1, h2⟩ := hvis
    exact ⟨r, List.mem_reverse.mpr h1, h2⟩
  obtain ⟨r, hr⟩ := find_exists_some (fun r => child_is_visible s r.widget) _ hvis2
  obtain ⟨a, c, h1, h2, h3⟩ := find_some_split _ _ _ hr
  refine ⟨c.reverse, r, a.reverse, ?_, h2, fun x hx => h3 x (List.mem_reverse.mp hx), ?_⟩
  · have := congrArg List.reverse h1
    rw [List.reverse_reverse] at this
    rw [this]
    simp
  · unfold p_list_box_get_last_visible
    rw [hr]
    rfl

theorem move_cursor_to (s : ListBox) (count : Int) (m : Bool) (w : Widget)
    (hchild : (if count < 0 then p_list_box_get_first_visible s
      else p_list_box_get_last_visible s) = some w) :
    (p_list_box_real_move_cursor_buffer_ends s count m).cursor_child = some w ∧
    (s.cursor_child ≠ some w → m = false → s.selection_mode ≠ GtkSelectionMode.NONE →
      (p_list_box_real_move_cursor_buffer_ends s count m).selected_child = some w) ∧
    (p_list_box_real_move_cursor_buffer_ends s count m).children = s.children := by
  unfold p_list_box_real_move_cursor_buffer_ends
  simp only [hchild]
  by_cases hc : some w = s.cursor_child
  · simp only [hc, or_true, if_true, true_and]
    exact ⟨fun h => absurd rfl h, trivial⟩
  · have hne : ¬ ((some w : Option Widget) = none ∨ some w = s.cursor_child) := by
      rintro (h | h)
      · cases h
      · exact hc h
    simp only [if_neg hne]
    unfold p_list_box_update_selected p_list_box_update_cursor
    cases m
    · simp only [Bool.not_false, if_true]
      refine ⟨by simp, ?_, ?_⟩
      · intro _ _ hmode
        by_cases hs : some w = s.selected_child
        · simp [hs]
        · simp [hs, hmode]
      · split_ifs <;> rfl
    · simp

/-- C19: a move-cursor request with step BUFFER_ENDS on a list box that has a
visible row leaves the cursor on the first (`count < 0`) or last (`count ≥ 0`)
row in sequence order that is shown and accepted by the filter; and when the
cursor row changes, the modify-selection modifier is not pressed and the
selection mode is not NONE, that row is the selected row as well. -/
theorem p_list_box_real_move_cursor_buffer_ends_spec (s : ListBox) (count : Int) (m : Bool)
    (hvis : ∃ r ∈ s.children, child_is_visible s r.widget = true) :
    ∃ pre r post, s.children = pre ++ r :: post ∧ child_is_visible s r.widget = true ∧
      (count < 0 → ∀ x ∈ pre, child_is_visible s x.widget = false) ∧
      (0 ≤ count → ∀ x ∈ post, child_is_visible s x.widget = false) ∧
      (p_list_box_real_move_cursor_buffer_ends s count m).cursor_child = some r.widget ∧
      (s.cursor_child ≠ some r.widget → m = false →
        s.selection_mode ≠ GtkSelectionMode.NONE →
        (p_list_box_real_move_cursor_buffer_ends s count m).selected_child = some r.widget) ∧
      (p_list_box_real_move_cursor_buffer_ends s count m).children = s.children := by
  by_cases hcount : count < 0
  · obtain ⟨pre, r, post, h1, h2, h3, h4⟩ := get_first_visible_spec s hvis
    obtain ⟨k1, k2, k3⟩ := move_cursor_to s count m r.widget (by rw [if_pos hcount]; exact h4)
    exact ⟨pre, r, post, h1, h2, fun _ => h3, fun h => absurd hcount (not_lt.mpr h), k1, k2, k3⟩
  · obtain ⟨pre, r, post, h1, h2, h3, h4⟩ := get_last_visible_spec s hvis
    obtain ⟨k1, k2, k3⟩ := move_cursor_to s count m r.widget (by rw [if_neg hcount]; exact h4)
    exact ⟨pre, r, post, h1, h2, fun h => absurd h hcount, fun _ => h3, k1, k2, k3⟩

theorem p_list_box_real_move_cursor_buffer_ends_spec_witness :
    (∃ r ∈ list_box_allocated.1.children,
      child_is_visible list_box_allocated.1 r.widget = true) ∧
    (p_list_box_real_move_cursor_buffer_ends list_box_allocated.1 1 false).cursor_child =
      some 3 ∧
    ∃ pre r post, list_box_allocated.1.children = pre ++ r :: post ∧
      (p_list_box_real_move_cursor_buffer_ends list_box_allocated.1 1 false).cursor_child =
        some r.widget :=
  have h : ∃ r ∈ list_box_allocated.1.children,
      child_is_visible list_box_allocated.1 r.widget = true :=
    ⟨{ widget := 1, separator := some 101, y := 5, height := 14 }, by decide, by decide⟩
  ⟨h, by decide,
    match p_list_box_real_move_cursor_buffer_ends_spec list_box_allocated.1 1 false h with
    | ⟨pre, r, post, h1, _, _, _, h5, _⟩ => ⟨pre, r, post, h1, h5⟩⟩

end PListBox


/-! ## Theorems about PBubbleWindow -/

namespace PBubbleWindow

theorem p_bubble_window_get_pointed_to_coords_rect (s : BubbleWindow) :
    (p_bubble_window_get_pointed_to_coords s).2.2 = root_rect s := by
  unfold p_bubble_window_get_pointed_to_coords
  simp only
  split_ifs <;> rfl

/-- The final side chosen by `p_bubble_window_update_position`. -/
theorem p_bubble_window_update_position_final (s : BubbleWindow) :
    (p_bubble_window_update_position s).final_position =
      if s.preferred_position = GtkPositionType.TOP ∧ (root_rect s).y < s.allocation_height then
        GtkPositionType.BOTTOM
      else if s.preferred_position = GtkPositionType.BOTTOM ∧
          (root_rect s).y > s.screen_height - s.allocation_height then
        GtkPositionType.TOP
      else if s.preferred_position = GtkPositionType.LEFT ∧
          (root_rect s).x < s.allocation_width then
        GtkPositionType.RIGHT
      else if s.preferred_position = GtkPositionType.RIGHT ∧
          (root_rect s).x > s.screen_width - s.allocation_width then
        GtkPositionType.LEFT
      else s.preferred_position := by
  have hr := p_bubble_window_get_pointed_to_coords_rect
    { s with final_position := s.preferred_position }
  unfold p_bubble_window_update_position
  simp only [hr]
  rfl

theorem p_bubble_window_get_pointed_to_coords_xy (s : BubbleWindow) :
    (s.final_position = GtkPositionType.TOP →
      (p_bubble_window_get_pointed_to_coords s).2.1 = (root_rect s).y) ∧
    (s.final_position = GtkPositionType.BOTTOM →
      (p_bubble_window_get_pointed_to_coords s).2.1 = (root_rect s).y + (root_rect s).height) ∧
    (s.final_position = GtkPositionType.LEFT →
      (p_bubble_window_get_pointed_to_coords s).1 = (root_rect s).x) ∧
    (s.final_position = GtkPositionType.RIGHT →
      (p_bubble_window_get_pointed_to_coords s).1 = (root_rect s).x + (root_rect s).width) := by
  unfold p_bubble_window_get_pointed_to_coords POS_IS_VERTICAL
  refine ⟨?_, ?_, ?_, ?_⟩ <;> intro h <;> simp [h]

theorem p_bubble_window_update_position_win (s : BubbleWindow) :
    (p_bubble_window_update_position s).win_y =
      (if POS_IS_VERTICAL (p_bubble_window_update_position s).final_position then
        if (p_bubble_window_update_position s).final_position = GtkPositionType.TOP then
          (p_bubble_window_get_pointed_to_coords
            { s with final_position := s.preferred_position }).2.1 - s.allocation_height
        else (p_bubble_window_get_pointed_to_coords
            { s with final_position := s.preferred_position }).2.1
      else CLAMP ((p_bubble_window_get_pointed_to_coords
            { s with final_position := s.preferred_position }).2.1 -
              Int.tdiv s.allocation_height 2) 0 (s.screen_height - s.allocation_height)) ∧
    (p_bubble_window_update_position s).win_x =
      (if POS_IS_VERTICAL (p_bubble_window_update_position s).final_position then
        CLAMP ((p_bubble_window_get_pointed_to_coords
            { s with final_position := s.preferred_position }).1 -
              Int.tdiv s.allocation_width 2) 0 (s.screen_width - s.allocation_width)
      else if (p_bubble_window_update_position s).final_position = GtkPositionType.LEFT then
        (p_bubble_window_get_pointed_to_coords
            { s with final_position := s.preferred_position }).1 - s.allocation_width
      else (p_bubble_window_get_pointed_to_coords
            { s with final_position := s.preferred_position }).1) :=
  ⟨rfl, rfl⟩

/-- When the preferred side is kept, the window abuts the pointed-to rectangle
on that side. -/
theorem p_bubble_window_update_position_abuts_unflipped (s : BubbleWindow)
    (h : (p_bubble_window_update_position s).final_position = s.preferred_position) :
    (s.preferred_position = GtkPositionType.TOP →
      (p_bubble_window_update_position s).win_y + s.allocation_height = (root_rect s).y) ∧
    (s.preferred_position = GtkPositionType.BOTTOM →
      (p_bubble_window_update_position s).win_y = (root_rect s).y + (root_rect s).height) ∧
    (s.preferred_position = GtkPositionType.LEFT →
      (p_bubble_window_update_position s).win_x + s.allocation_width = (root_rect s).x) ∧
    (s.preferred_position = GtkPositionType.RIGHT →
      (p_bubble_window_update_position s).win_x = (root_rect s).x + (root_rect s).width) := by
  obtain ⟨hy, hx⟩ := p_bubble_window_update_position_win s
  obtain ⟨c1, c2, c3, c4⟩ := p_bubble_window_get_pointed_to_coords_xy
    { s with final_position := s.preferred_position }
  have hr : root_rect { s with final_position := s.preferred_position } = root_rect s := rfl
  rw [hr] at c1 c2 c3 c4
  rw [h] at hx hy
  generalize (p_bubble_window_get_pointed_to_coords
    { s with final_position := s.preferred_position }).2.1 = cy at hy c1 c2
  generalize (p_bubble_window_get_pointed_to_coords
    { s with final_position := s.preferred_position }).1 = cx at hx c3 c4
  refine ⟨?_, ?_, ?_, ?_⟩ <;> intro hp
  · have e := c1 hp
    rw [hy, hp]
    simp [POS_IS_VERTICAL, e]
  · have e := c2 hp
    rw [hy, hp]
    simp [POS_IS_VERTICAL, e]
  · have e := c3 hp
    rw [hx, hp]
    simp [POS_IS_VERTICAL, e]
  · have e := c4 hp
    rw [hx, hp]
    simp [POS_IS_VERTICAL, e]

/-- C8, failing input: preferred side TOP, pointed-to rectangle
`(50, 5, 10, 10)` in root coordinates, allocation 40 by 20, screen 200 by 100.
The final side is BOTTOM, yet `win_y` is 5, the top edge of the rectangle,
not `ry + rh = 15`. -/
theorem p_bubble_window_update_position_flipped_overlaps :
    root_rect bubble_top_no_room = { x := 50, y := 5, width := 10, height := 10 } ∧
    (p_bubble_window_update_position bubble_top_no_room).final_position =
      GtkPositionType.BOTTOM ∧
    (p_bubble_window_update_position bubble_top_no_room).win_y = 5 ∧
    (p_bubble_window_update_position bubble_top_no_room).win_y ≠
      (root_rect bubble_top_no_room).y + (root_rect bubble_top_no_room).height := by
  decide

/-- C9, failing input: preferred side BOTTOM, pointed-to rectangle
`(50, 70, 10, 20)` in root coordinates, allocation 40 by 20, screen 200 by 100.
Below the rectangle there are 10 pixels for a window 20 high
(`ry + rh + h = 110 > 100`), yet the final side stays BOTTOM. -/
theorem p_bubble_window_update_position_bottom_kept_without_room :
    root_rect bubble_bottom_no_room = { x := 50, y := 70, width := 10, height := 20 } ∧
    ¬ ((root_rect bubble_bottom_no_room).y + (root_rect bubble_bottom_no_room).height +
        bubble_bottom_no_room.allocation_height ≤ bubble_bottom_no_room.screen_height) ∧
    (p_bubble_window_update_position bubble_bottom_no_room).final_position =
      bubble_bottom_no_room.preferred_position := by
  decide

/-- The flag `grabbed` is never written: a grab leaves it as it was. -/
theorem _p_bubble_window_grab_grabbed (s : BubbleWindow) (device : Device)
    (status1 status2 : Bool) :
    (_p_bubble_window_grab s device status1 status2).1.grabbed = s.grabbed := by
  unfold _p_bubble_window_grab _p_bubble_window_ungrab
  simp only
  split_ifs <;> (try split) <;> rfl

/-- C10, failing input: after a successful grab of device 5 the window records
the device, and `_p_bubble_window_popdown` leaves the device recorded and all
its grabs in place, because the flag `grabbed` it tests is still FALSE. -/
theorem _p_bubble_window_popdown_keeps_grab :
    bubble_grabbed.device = some 5 ∧
    bubble_grabbed.grabbed = false ∧
    (_p_bubble_window_popdown bubble_grabbed).device = some 5 ∧
    (_p_bubble_window_popdown bubble_grabbed).gdk_grabs = [6, 5] ∧
    (_p_bubble_window_popdown bubble_grabbed).gtk_grabs = [5] ∧
    (_p_bubble_window_popdown bubble_grabbed).visible = false := by
  decide


/-! ### The pointer tail -/

theorem clamp_tail (p w : Int) (hw : 24 ≤ w) :
    0 ≤ CLAMP (p - 12) 0 (w - 24) ∧
    CLAMP (p - 12) 0 (w - 24) ≤ CLAMP p 0 w ∧
    CLAMP p 0 w ≤ CLAMP (p + 12) 24 w ∧
    CLAMP (p + 12) 24 w ≤ w ∧
    CLAMP (p + 12) 24 w - CLAMP (p - 12) 0 (w - 24) = 24 := by
  unfold CLAMP
  refine ⟨?_, ?_, ?_, ?_, ?_⟩ <;> split_ifs <;> omega

theorem gap_coords_vertical (s : BubbleWindow)
    (h : s.final_position = GtkPositionType.TOP ∨ s.final_position = GtkPositionType.BOTTOM) :
    p_bubble_window_get_gap_coords s =
      { initial_x := CLAMP ((p_bubble_window_get_pointed_to_coords s).1 - s.win_x - 12) 0
          (s.allocation_width - 24)
        initial_y :=
          if s.final_position = GtkPositionType.BOTTOM then 12 else s.allocation_height - 12
        tip_x := CLAMP ((p_bubble_window_get_pointed_to_coords s).1 - s.win_x) 0
          s.allocation_width
        tip_y := if s.final_position = GtkPositionType.BOTTOM then 0 else s.allocation_height
        final_x := CLAMP ((p_bubble_window_get_pointed_to_coords s).1 - s.win_x + 12) 24
          s.allocation_width
        final_y :=
          if s.final_position = GtkPositionType.BOTTOM then 12 else s.allocation_height - 12
        gap_side :=
          if s.final_position = GtkPositionType.BOTTOM then GtkPositionType.TOP
          else GtkPositionType.BOTTOM } := by
  have h12 : Int.tdiv 24 2 = 12 := by decide
  unfold p_bubble_window_get_gap_coords
  rcases h with h | h <;>
    simp +decide [h, POS_IS_VERTICAL, TAIL_HEIGHT, TAIL_GAP_WIDTH, h12]

theorem gap_coords_horizontal (s : BubbleWindow)
    (h : s.final_position = GtkPositionType.LEFT ∨ s.final_position = GtkPositionType.RIGHT) :
    p_bubble_window_get_gap_coords s =
      { initial_x :=
          if s.final_position = GtkPositionType.RIGHT then 12 else s.allocation_width - 12
        initial_y := CLAMP ((p_bubble_window_get_pointed_to_coords s).2.1 - s.win_y - 12) 0
          (s.allocation_height - 24)
        tip_x := if s.final_position = GtkPositionType.RIGHT then 0 else s.allocation_width
        tip_y := CLAMP ((p_bubble_window_get_pointed_to_coords s).2.1 - s.win_y) 0
          s.allocation_height
        final_x :=
          if s.final_position = GtkPositionType.RIGHT then 12 else s.allocation_width - 12
        final_y := CLAMP ((p_bubble_window_get_pointed_to_coords s).2.1 - s.win_y + 12) 24
          s.allocation_height
        gap_side :=
          if s.final_position = GtkPositionType.RIGHT then GtkPositionType.LEFT
          else GtkPositionType.RIGHT } := by
  have h12 : Int.tdiv 24 2 = 12 := by decide
  unfold p_bubble_window_get_gap_coords
  rcases h with h | h <;>
    simp +decide [h, POS_IS_VERTICAL, TAIL_HEIGHT, TAIL_GAP_WIDTH, h12]

/-- C20: for a vertical final position (TOP or BOTTOM) and allocation width at
least 24, `p_bubble_window_get_gap_coords` yields
`0 ≤ initial_x ≤ tip_x ≤ final_x ≤ width` with `final_x - initial_x = 24`, the
base `initial_y = final_y` on the edge of the body rectangle of
`p_bubble_window_get_rect_coords` that faces the pointed-to rectangle (`y2` for
TOP, `y1` for BOTTOM), the tip 12 beyond it on the outer edge of the window,
and `gap_side` opposite to `final_position`; symmetrically for LEFT and RIGHT
with allocation height at least 24. -/
theorem p_bubble_window_get_gap_coords_spec (s : BubbleWindow) :
    ((s.final_position = GtkPositionType.TOP ∨ s.final_position = GtkPositionType.BOTTOM) →
      24 ≤ s.allocation_width →
      0 ≤ (p_bubble_window_get_gap_coords s).initial_x ∧
      (p_bubble_window_get_gap_coords s).initial_x ≤ (p_bubble_window_get_gap_coords s).tip_x ∧
      (p_bubble_window_get_gap_coords s).tip_x ≤ (p_bubble_window_get_gap_coords s).final_x ∧
      (p_bubble_window_get_gap_coords s).final_x ≤ s.allocation_width ∧
      (p_bubble_window_get_gap_coords s).final_x - (p_bubble_window_get_gap_coords s).initial_x =
        TAIL_GAP_WIDTH ∧
      (p_bubble_window_get_gap_coords s).initial_y = (p_bubble_window_get_gap_coords s).final_y ∧
      (s.final_position = GtkPositionType.TOP →
        (p_bubble_window_get_gap_coords s).initial_y = (p_bubble_window_get_rect_coords s).y2 ∧
        (p_bubble_window_get_gap_coords s).tip_y =
          (p_bubble_window_get_rect_coords s).y2 + TAIL_HEIGHT ∧
        (p_bubble_window_get_gap_coords s).tip_y = s.allocation_height ∧
        (p_bubble_window_get_gap_coords s).gap_side = GtkPositionType.BOTTOM) ∧
      (s.final_position = GtkPositionType.BOTTOM →
        (p_bubble_window_get_gap_coords s).initial_y = (p_bubble_window_get_rect_coords s).y1 ∧
        (p_bubble_window_get_gap_coords s).tip_y =
          (p_bubble_window_get_rect_coords s).y1 - TAIL_HEIGHT ∧
        (p_bubble_window_get_gap_coords s).tip_y = 0 ∧
        (p_bubble_window_get_gap_coords s).gap_side = GtkPositionType.TOP)) ∧
    ((s.final_position = GtkPositionType.LEFT ∨ s.final_position = GtkPositionType.RIGHT) →
      24 ≤ s.allocation_height →
      0 ≤ (p_bubble_window_get_gap_coords s).initial_y ∧
      (p_bubble_window_get_gap_coords s).initial_y ≤ (p_bubble_window_get_gap_coords s).tip_y ∧
      (p_bubble_window_get_gap_coords s).tip_y ≤ (p_bubble_window_get_gap_coords s).final_y ∧
      (p_bubble_window_get_gap_coords s).final_y ≤ s.allocation_height ∧
      (p_bubble_window_get_gap_coords s).final_y - (p_bubble_window_get_gap_coords s).initial_y =
        TAIL_GAP_WIDTH ∧
      (p_bubble_window_get_gap_coords s).initial_x = (p_bubble_window_get_gap_coords s).final_x ∧
      (s.final_position = GtkPositionType.LEFT →
        (p_bubble_window_get_gap_coords s).initial_x = (p_bubble_window_get_rect_coords s).x2 ∧
        (p_bubble_window_get_gap_coords s).tip_x =
          (p_bubble_window_get_rect_coords s).x2 + TAIL_HEIGHT ∧
        (p_bubble_window_get_gap_coords s).tip_x = s.allocation_width ∧
        (p_bubble_window_get_gap_coords s).gap_side = GtkPositionType.RIGHT) ∧
      (s.final_position = GtkPositionType.RIGHT →
        (p_bubble_window_get_gap_coords s).initial_x = (p_bubble_window_get_rect_coords s).x1 ∧
        (p_bubble_window_get_gap_coords s).tip_x =
          (p_bubble_window_get_rect_coords s).x1 - TAIL_HEIGHT ∧
        (p_bubble_window_get_gap_coords s).tip_x = 0 ∧
        (p_bubble_window_get_gap_coords s).gap_side = GtkPositionType.LEFT)) := by
  constructor
  · intro h hw
    rw [gap_coords_vertical s h]
    obtain ⟨c1, c2, c3, c4, c5⟩ :=
      clamp_tail ((p_bubble_window_get_pointed_to_coords s).1 - s.win_x) s.allocation_width hw
    refine ⟨c1, c2, c3, c4, c5, rfl, ?_, ?_⟩
    · intro ht
      unfold p_bubble_window_get_rect_coords
      simp +decide [ht, TAIL_HEIGHT]
    · intro hb
      unfold p_bubble_window_get_rect_coords
      simp +decide [hb, TAIL_HEIGHT]
  · intro h hw
    rw [gap_coords_horizontal s h]
    obtain ⟨c1, c2, c3, c4, c5⟩ :=
      clamp_tail ((p_bubble_window_get_pointed_to_coords s).2.1 - s.win_y) s.allocation_height hw
    refine ⟨c1, c2, c3, c4, c5, rfl, ?_, ?_⟩
    · intro ht
      unfold p_bubble_window_get_rect_coords
      simp +decide [ht, TAIL_HEIGHT]
    · intro hb
      unfold p_bubble_window_get_rect_coords
      simp +decide [hb, TAIL_HEIGHT]

theorem p_bubble_window_get_gap_coords_spec_witness :
    (bubble_grabbed.final_position = GtkPositionType.TOP ∨
      bubble_grabbed.final_position = GtkPositionType.BOTTOM) ∧
    24 ≤ bubble_grabbed.allocation_width ∧
    (p_bubble_window_get_gap_coords bubble_grabbed).final_x -
      (p_bubble_window_get_gap_coords bubble_grabbed).initial_x = TAIL_GAP_WIDTH ∧
    (p_bubble_window_get_gap_coords bubble_grabbed).initial_y = 8 :=
  ⟨Or.inl (by decide), by decide,
    ((p_bubble_window_get_gap_coords_spec bubble_grabbed).1 (Or.inl (by decide))
      (by decide)).2.2.2.2.1,
    by decide⟩

end PBubbleWindow
